import Mathlib

/-!
# Token lifecycle manager of xiaoyuzhoufm-mcp

A shallow embedding of `internal/xyzclient/token.go` and of the refresh call in
`internal/xyzclient/auth_api.go`.

Every method of `TokenManager` becomes a function of the manager and of a `World`
(clock, HTTP endpoint, filesystem) that returns the Go results together with the
manager and the world after the call.

Modelling conventions:
* Go strings are Unicode text (`String`); Go `int64` values are integers, the clock
  is reduced to the `int64` range and the one subtraction of the code wraps.
* A byte string that is handed to or produced by `encoding/json` is represented by
  its parse (`JsonText`): not JSON at all, an object with its members in document
  order, the literal `null`, or any other top-level value.
* A Go `error` is an `Option Err` (`none` is `nil`); `Err` keeps the fixed text of a
  message and the wrapped cause, so that `errors.Is` can be evaluated.
-/

namespace Xiaoyuzhou

/-! ## Machine integers -/

/-- Reduction of an integer to the range of a Go `int64` (two's complement). -/
def wrapInt64 (x : Int) : Int :=
  (x + 9223372036854775808) % 18446744073709551616 - 9223372036854775808

/-- The integer is a value of the Go type `int64`. -/
def isInt64 (x : Int) : Prop :=
  -9223372036854775808 ≤ x ∧ x < 9223372036854775808

instance (x : Int) : Decidable (isInt64 x) := by
  unfold isInt64
  infer_instance

/-! ## Errors -/

/-- Go error values, as far as the token manager builds or inspects them. -/
inductive Err where
  /-- The sentinel `fs.ErrNotExist` (also the errno `ENOENT`, which `errors.Is` identifies with it). -/
  | ErrNotExist
  /-- Any other operating system error, by name. -/
  | errno (name : String)
  /-- A `*fs.PathError` around an operating system error. -/
  | pathError (op : String) (path : String) (cause : Err)
  /-- A failure reported by the HTTP client. -/
  | netError (reason : String)
  /-- A `*json.SyntaxError`. -/
  | jsonSyntaxError
  /-- A `*json.UnmarshalTypeError` for the JSON key `field`. -/
  | jsonTypeError (field : String)
  /-- The result of `fmt.Errorf` with a format without `%w`. -/
  | errorf (msg : String)
  /-- The result of `fmt.Errorf` with a format `msg: %w`. -/
  | wrapf (msg : String) (cause : Err)
  deriving DecidableEq, Repr

/-- The function `errors.Is`: `target` occurs in the chain of wrapped causes of the error. -/
def Err.Is : Err → Err → Bool
  | .pathError op path cause, target =>
      decide (Err.pathError op path cause = target) || cause.Is target
  | .wrapf msg cause, target =>
      decide (Err.wrapf msg cause = target) || cause.Is target
  | e, target => decide (e = target)

/-! ## JSON -/

/-- The value of one member of a JSON object. Arrays and objects that occur as member
values are skipped by the decoders below whatever they hold, so their content is not kept.
`int n` is a number literal in integer syntax, `float` any other number literal. -/
inductive JVal where
  | null
  | bool (b : Bool)
  | str (s : String)
  | int (n : Int)
  | float
  | array
  | object
  deriving DecidableEq, Repr

/-- A byte string as `encoding/json` sees it. -/
inductive JsonText where
  /-- Bytes that are not one syntactically valid JSON value (the empty file included). -/
  | malformed
  /-- A JSON object: its members in document order, duplicate keys allowed. -/
  | object (members : List (String × JVal))
  /-- The literal `null` at top level. -/
  | null
  /-- Any other top-level value: a boolean, string, number or array. -/
  | other
  deriving DecidableEq, Repr

/-- The case folding of `encoding/json` for one rune: ASCII letters fold to upper case, and
the Kelvin sign and the long s fold to `K` and `S`. No other rune folds to an ASCII
character, so for the ASCII field names of this program the remaining runes may stay. -/
def foldRune (c : Char) : Char :=
  if c = Char.ofNat 0x212A then 'K'
  else if c = Char.ofNat 0x017F then 'S'
  else c.toUpper

/-- The folded form of a JSON key, as `foldName` of `encoding/json`. -/
def foldName (s : String) : String :=
  String.mk (s.data.map foldRune)

/-- Field lookup of the struct decoder: an exact match of the key against the JSON names
of the fields is preferred, a case-insensitive match is accepted. -/
def findField {φ : Type} (fields : List (String × φ)) (key : String) : Option φ :=
  match fields.find? (fun f => f.1 == key) with
  | some f => some f.2
  | none =>
    match fields.find? (fun f => foldName f.1 == foldName key) with
    | some f => some f.2
    | none => none

/-- The member loop of the struct decoder. A key without a field is skipped; a value of
the wrong type is skipped as well, the first such error is remembered and decoding goes on. -/
def decodeMembers {σ φ : Type} (fields : List (String × φ))
    (store : σ → φ → String → JVal → σ × Option Err) :
    List (String × JVal) → σ → Option Err → σ × Option Err
  | [], s, saved => (s, saved)
  | (key, v) :: rest, s, saved =>
    match findField fields key with
    | none => decodeMembers fields store rest s saved
    | some f =>
      let r := store s f key v
      decodeMembers fields store rest r.1 (saved.orElse (fun _ => r.2))

/-- The function `json.Unmarshal` into a pointer to a struct. The input is validated as a
whole before anything is stored; `null` stores nothing; a top-level value that is not an
object is a type error; the members of an object are stored one by one into the struct
that the pointer designates, which is NOT reset first. -/
def jsonUnmarshal {σ φ : Type} (fields : List (String × φ))
    (store : σ → φ → String → JVal → σ × Option Err) (data : JsonText) (s : σ) : σ × Option Err :=
  match data with
  | .malformed => (s, some .jsonSyntaxError)
  | .null => (s, none)
  | .other => (s, some (.jsonTypeError ""))
  | .object members => decodeMembers fields store members s none

/-! ## The credential -/

/-- The struct `TokenManager` of `token.go`. A string field holds text: the Go strings that
are valid UTF-8. A Go string with a byte sequence that is not valid UTF-8 has no
counterpart in this type, and nothing below is stated about such a string. -/
structure TokenManager where
  AccessToken : String
  RefreshToken : String
  Uid : String
  Nickname : String
  LastUpdatedTimestamp : Int
  loadedTokenPath : String
  deriving DecidableEq, Repr

/-- The exported fields of `TokenManager` that carry a JSON name; `loadedTokenPath` is
unexported and tagged `json:"-"`, so the codec never sees it. -/
inductive TokenField where
  | AccessToken
  | RefreshToken
  | Uid
  | Nickname
  | LastUpdatedTimestamp
  deriving DecidableEq, Repr

/-- The JSON names given by the struct tags of `TokenManager`, in declaration order. -/
def tokenFields : List (String × TokenField) :=
  [("access_token", .AccessToken), ("refresh_token", .RefreshToken), ("uid", .Uid),
   ("nickname", .Nickname), ("last_updated_timestamp", .LastUpdatedTimestamp)]

/-- Storing one decoded member value into a field of `TokenManager`: `null` leaves a
string or integer field as it is, a string goes into a string field, an integer literal in
the `int64` range goes into the timestamp, anything else is a type error and stores nothing. -/
def TokenManager.store (tm : TokenManager) (f : TokenField) (key : String) (v : JVal) :
    TokenManager × Option Err :=
  match v with
  | .null => (tm, none)
  | .str s =>
    match f with
    | .AccessToken => ({ tm with AccessToken := s }, none)
    | .RefreshToken => ({ tm with RefreshToken := s }, none)
    | .Uid => ({ tm with Uid := s }, none)
    | .Nickname => ({ tm with Nickname := s }, none)
    | .LastUpdatedTimestamp => (tm, some (.jsonTypeError key))
  | .int n =>
    match f with
    | .LastUpdatedTimestamp =>
      if isInt64 n then ({ tm with LastUpdatedTimestamp := n }, none)
      else (tm, some (.jsonTypeError key))
    | _ => (tm, some (.jsonTypeError key))
  | _ => (tm, some (.jsonTypeError key))

/-- The call `json.Unmarshal(data, tm)`. -/
def TokenManager.jsonUnmarshal (data : JsonText) (tm : TokenManager) : TokenManager × Option Err :=
  Xiaoyuzhou.jsonUnmarshal tokenFields TokenManager.store data tm

/-- The JSON encoding of a `TokenManager`: the four string fields always, in declaration
order, the timestamp unless it is zero (`omitempty`), never `loadedTokenPath`. A string
that is valid UTF-8 is encoded to a JSON string that decodes to the same string, which is
the case of every string here; `encoding/json` replaces each byte that is not valid UTF-8
by U+FFFD, so that a Go string with such a byte would not come back from the file as it
was. -/
def TokenManager.toJson (tm : TokenManager) : JsonText :=
  .object
    ([("access_token", .str tm.AccessToken), ("refresh_token", .str tm.RefreshToken),
      ("uid", .str tm.Uid), ("nickname", .str tm.Nickname)] ++
     (if tm.LastUpdatedTimestamp = 0 then []
      else [("last_updated_timestamp", .int tm.LastUpdatedTimestamp)]))

/-- The call `json.MarshalIndent(tm, "", "  ")`. Encoding a struct of strings and an
integer cannot fail. -/
def TokenManager.jsonMarshalIndent (tm : TokenManager) : Except Err JsonText :=
  .ok tm.toJson

/-- The body of the refresh endpoint, `RefreshTokenAPIResponse` of `types.go`. -/
structure RefreshTokenAPIResponse where
  Success : Bool
  XJikeAccessToken : String
  XJikeRefreshToken : String
  deriving DecidableEq, Repr

/-- The fields of `RefreshTokenAPIResponse`. -/
inductive RefreshField where
  | Success
  | XJikeAccessToken
  | XJikeRefreshToken
  deriving DecidableEq, Repr

/-- The JSON names given by the struct tags of `RefreshTokenAPIResponse`. -/
def refreshFields : List (String × RefreshField) :=
  [("success", .Success), ("x-jike-access-token", .XJikeAccessToken),
   ("x-jike-refresh-token", .XJikeRefreshToken)]

/-- Storing one decoded member value into a field of `RefreshTokenAPIResponse`. -/
def RefreshTokenAPIResponse.store (r : RefreshTokenAPIResponse) (f : RefreshField) (key : String)
    (v : JVal) : RefreshTokenAPIResponse × Option Err :=
  match v with
  | .null => (r, none)
  | .bool b =>
    match f with
    | .Success => ({ r with Success := b }, none)
    | _ => (r, some (.jsonTypeError key))
  | .str s =>
    match f with
    | .Success => (r, some (.jsonTypeError key))
    | .XJikeAccessToken => ({ r with XJikeAccessToken := s }, none)
    | .XJikeRefreshToken => ({ r with XJikeRefreshToken := s }, none)
  | _ => (r, some (.jsonTypeError key))

/-! ## The world outside the manager -/

/-- The struct `LoadMoreKey` of `types.go`. -/
structure LoadMoreKey where
  Direction : String
  PubDate : String
  ID : String
  deriving DecidableEq, Repr

/-- The struct `EpisodeListRequest` of `types.go`; the pointer `LoadMoreKey` may be nil. -/
structure EpisodeListRequest where
  PID : String
  Order : String
  Limit : Int
  LoadMoreKey : Option LoadMoreKey
  deriving DecidableEq, Repr

/-- A Go value of type `interface{}`, as far as the search request looks at it: `nil`, a
number, a string, any other value `json.Marshal` can encode, or a value it cannot encode
(a channel, a function). -/
inductive AnyValue where
  | null
  | num (n : Int)
  | str (s : String)
  | encodable
  | unsupported
  deriving DecidableEq, Repr

/-- The struct `SearchAPILoadMoreKey` of `types.go`. -/
structure SearchAPILoadMoreKey where
  LoadMoreKey : AnyValue
  SearchID : String
  deriving DecidableEq, Repr

/-- The struct `SearchRequest` of `types.go`; the pointer `LoadMoreKey` may be nil. The
field `Type` of the source is `SearchType` here. -/
structure SearchRequest where
  Keyword : String
  SearchType : String
  PID : String
  LoadMoreKey : Option SearchAPILoadMoreKey
  deriving DecidableEq, Repr

/-- The body of a POST request to the API: the JSON encoding of a request struct,
represented by the struct it encodes. -/
inductive RequestBody where
  | episodeList (r : EpisodeListRequest)
  | search (r : SearchRequest)
  deriving DecidableEq, Repr

/-- An HTTP request as built by `http.NewRequest` and `req.Header.Set`; `body` is `none`
for a request made with a nil body. -/
structure HttpRequest where
  method : String
  url : String
  headers : List (String × String)
  body : Option RequestBody := none
  deriving DecidableEq, Repr

/-- What `GetHTTPClient().Do(req)` followed by `io.ReadAll(resp.Body)` can give. -/
inductive HttpOutcome where
  /-- The exchange failed: `Do` returned an error. -/
  | doError (e : Err)
  /-- A response arrived and reading its body failed. -/
  | readError (status : Nat) (e : Err)
  /-- A response with its status code and its whole body. -/
  | response (status : Nat) (body : JsonText)
  deriving DecidableEq, Repr

/-- The effects the program has on its environment. -/
inductive Event where
  | performTokenRefresh (refreshToken : String)
  | httpDo (req : HttpRequest)
  | mkdirAll (dir : String) (mode : Nat)
  | writeFile (path : String) (data : JsonText) (mode : Nat)
  deriving DecidableEq, Repr

/-- The filesystem: the content of the regular files and the set of directories by path. -/
structure FS where
  files : String → Option JsonText
  dirs : String → Bool

/-- The filesystem after `dir` and the directories `above` it have been created. -/
def FS.withDirs (fs : FS) (dir : String) (above : String → Bool) : FS :=
  { fs with dirs := fun q => fs.dirs q || q == dir || above q }

/-- The filesystem after the file at `path` has been given the content `data`. -/
def FS.withFile (fs : FS) (path : String) (data : JsonText) : FS :=
  { fs with files := fun q => if q = path then some data else fs.files q }

/-- The environment of a call. `clock` lists the successive readings of the wall clock and
`ticks` counts the readings taken; `http` answers the exchanges, by their number; the
fault functions say which filesystem calls the operating system refuses (permissions,
full disk, a file in the way) and with which error; `dirOf` is `filepath.Dir` and
`isAncestor q d` says that `q` is a proper ancestor directory of `d`; `newRequestErr` is
the validation of `http.NewRequest`; `APIBaseURL` is the constant of the package
`constants`; `trace` records the effects so far, oldest first. -/
structure World where
  clock : Nat → Int
  ticks : Nat
  http : Nat → HttpRequest → HttpOutcome
  exchanges : Nat
  fs : FS
  readFault : String → Option Err
  mkdirFault : String → Option Err
  writeFault : String → Option Err
  dirOf : String → String
  isAncestor : String → String → Bool
  newRequestErr : String → String → Option Err
  APIBaseURL : String
  trace : List Event

/-- The reading `time.Now().Unix()`: the value read and the world after the reading. -/
def World.timeNowUnix (w : World) : Int × World :=
  (wrapInt64 (w.clock w.ticks), { w with ticks := w.ticks + 1 })

/-- The call `os.ReadFile(path)`. -/
def World.osReadFile (w : World) (path : String) : Except Err JsonText :=
  match w.readFault path with
  | some e => .error (.pathError "open" path e)
  | none =>
    match w.fs.files path with
    | none => .error (.pathError "open" path .ErrNotExist)
    | some data => .ok data

/-- The call `os.MkdirAll(dir, mode)`: on success `dir` and all its ancestors are directories. -/
def World.osMkdirAll (w : World) (dir : String) (mode : Nat) : Option Err × World :=
  let w1 := { w with trace := w.trace ++ [Event.mkdirAll dir mode] }
  match w.mkdirFault dir with
  | some e => (some (.pathError "mkdir" dir e), w1)
  | none =>
    (none, { w1 with fs := w.fs.withDirs dir (fun q => w.isAncestor q dir) })

/-- The call `os.WriteFile(path, data, mode)`: it needs the parent directory and replaces
the content of the file. -/
def World.osWriteFile (w : World) (path : String) (data : JsonText) (mode : Nat) :
    Option Err × World :=
  let w1 := { w with trace := w.trace ++ [Event.writeFile path data mode] }
  match w.writeFault path with
  | some e => (some (.pathError "open" path e), w1)
  | none =>
    if w.fs.dirs (w.dirOf path) then
      (none, { w1 with fs := w.fs.withFile path data })
    else
      (some (.pathError "open" path .ErrNotExist), w1)

/-- The call `http.NewRequest(method, url, nil)`. -/
def World.httpNewRequest (w : World) (method url : String) : Except Err HttpRequest :=
  match w.newRequestErr method url with
  | some e => .error e
  | none => .ok { method := method, url := url, headers := [] }

/-- The calls `GetHTTPClient().Do(req)` and `io.ReadAll(resp.Body)`. -/
def World.httpDo (w : World) (req : HttpRequest) : HttpOutcome × World :=
  (w.http w.exchanges req,
   { w with exchanges := w.exchanges + 1, trace := w.trace ++ [Event.httpDo req] })

/-! ## The refresh transport (`auth_api.go`) -/

/-- The headers `PerformTokenRefresh` sets on its request, in the order of the source. -/
def refreshHeaders (currentRefreshToken : String) : List (String × String) :=
  [("Content-Type", "application/x-www-form-urlencoded; charset=utf-8"),
   ("Host", "api.xiaoyuzhoufm.com"),
   ("User-Agent", "Xiaoyuzhou/2.57.1 (build:1576; iOS 17.4.1)"),
   ("x-jike-refresh-token", currentRefreshToken),
   ("Market", "AppStore"),
   ("App-BuildNo", "1576"),
   ("OS", "ios"),
   ("Manufacturer", "Apple"),
   ("BundleID", "app.podcast.cosmos"),
   ("Connection", "keep-alive"),
   ("Accept-Language", "zh-Hant-HK;q=1.0, zh-Hans-CN;q=0.9"),
   ("Model", "iPhone14,2"),
   ("app-permissions", "4"),
   ("Accept", "*/*"),
   ("App-Version", "2.57.1"),
   ("WifiConnected", "true"),
   ("OS-Version", "17.4.1"),
   ("x-custom-xiaoyuzhou-app-dev", "")]

/-- The function `PerformTokenRefresh`: one POST to the refresh endpoint carrying the
current refresh token; the new pair is taken from the body of a 200 answer that says
`success: true` and holds two non-empty tokens. -/
def PerformTokenRefresh (currentRefreshToken : String) (w : World) :
    Except Err (String × String) × World :=
  let w0 := { w with trace := w.trace ++ [Event.performTokenRefresh currentRefreshToken] }
  let apiURL := w.APIBaseURL ++ "/app_auth_tokens.refresh"
  match w0.httpNewRequest "POST" apiURL with
  | .error err => (.error (.wrapf "failed to create request" err), w0)
  | .ok req0 =>
    let req := { req0 with headers := req0.headers ++ refreshHeaders currentRefreshToken }
    match w0.httpDo req with
    | (.doError err, w1) => (.error (.wrapf "http request failed" err), w1)
    | (.readError _ err, w1) => (.error (.wrapf "failed to read response body" err), w1)
    | (.response status body, w1) =>
      if status ≠ 200 then
        (.error (.errorf ("api request failed with status " ++ toString status)), w1)
      else
        match jsonUnmarshal refreshFields RefreshTokenAPIResponse.store body
            { Success := false, XJikeAccessToken := "", XJikeRefreshToken := "" } with
        | (_, some err) => (.error (.wrapf "failed to unmarshal success response JSON" err), w1)
        | (apiResp, none) =>
          if !apiResp.Success then
            (.error (.errorf "api reported token refresh not successful (success: false)"), w1)
          else if apiResp.XJikeAccessToken = "" ∨ apiResp.XJikeRefreshToken = "" then
            (.error (.errorf "token refresh successful but new tokens are empty in response"), w1)
          else
            (.ok (apiResp.XJikeAccessToken, apiResp.XJikeRefreshToken), w1)

/-! ## The token manager (`token.go`) -/

/-- The package variables `instance` and `initErr`; `initErr` is never assigned. -/
structure Globals where
  inst : Option TokenManager
  initErr : Option Err

/-- The package state at process start. -/
def Globals.start : Globals := { inst := none, initErr := none }

/-- The function `GetTokenManager`: the first call creates the zero-valued manager, every
call returns the one manager and `initErr`. -/
def GetTokenManager (g : Globals) : (TokenManager × Option Err) × Globals :=
  match g.inst with
  | some tm => ((tm, g.initErr), g)
  | none =>
    let tm : TokenManager :=
      { AccessToken := "", RefreshToken := "", Uid := "", Nickname := "",
        LastUpdatedTimestamp := 0, loadedTokenPath := "" }
    ((tm, g.initErr), { g with inst := some tm })

/-- The method `LoadTokenFromPath`. -/
def TokenManager.LoadTokenFromPath (tm : TokenManager) (tokenPath : String) (w : World) :
    Option Err × TokenManager × World :=
  if tokenPath = "" then
    (some (.errorf "token path cannot be empty"), tm, w)
  else
    match w.osReadFile tokenPath with
    | .error err =>
      if err.Is .ErrNotExist then (some .ErrNotExist, tm, w)
      else (some (.wrapf ("failed to read token file " ++ tokenPath) err), tm, w)
    | .ok data =>
      match tm.jsonUnmarshal data with
      | (tm1, some err) =>
        (some (.wrapf ("failed to unmarshal token data from " ++ tokenPath) err), tm1, w)
      | (tm1, none) =>
        if tm1.AccessToken = "" ∨ tm1.RefreshToken = "" then
          (some (.errorf ("incomplete token data in " ++ tokenPath)), tm1, w)
        else
          (none, { tm1 with loadedTokenPath := tokenPath }, w)

/-- The mode `SaveTokenToPath` passes to `os.MkdirAll`. -/
def tokenDirMode : Nat := 0o750

/-- The mode `SaveTokenToPath` passes to `os.WriteFile`. -/
def tokenFileMode : Nat := 0o600

/-- The method `SaveTokenToPath`. -/
def TokenManager.SaveTokenToPath (tm : TokenManager) (tokenPath : String) (w : World) :
    Option Err × TokenManager × World :=
  if tokenPath = "" then
    (some (.errorf "token path cannot be empty for saving"), tm, w)
  else
    let t := w.timeNowUnix
    let tm1 := { tm with LastUpdatedTimestamp := t.1 }
    match tm1.jsonMarshalIndent with
    | .error err => (some (.wrapf "failed to marshal token data" err), tm1, t.2)
    | .ok data =>
      let dir := w.dirOf tokenPath
      match t.2.osMkdirAll dir tokenDirMode with
      | (some err, w2) => (some (.wrapf ("failed to create directory " ++ dir) err), tm1, w2)
      | (none, w2) =>
        match w2.osWriteFile tokenPath data tokenFileMode with
        | (some err, w3) =>
          (some (.wrapf ("failed to write token file " ++ tokenPath) err), tm1, w3)
        | (none, w3) => (none, { tm1 with loadedTokenPath := tokenPath }, w3)

/-- The method `RefreshAccessToken`. -/
def TokenManager.RefreshAccessToken (tm : TokenManager) (w : World) :
    Option Err × TokenManager × World :=
  if tm.RefreshToken = "" then
    (some (.errorf "cannot refresh token: refresh token is empty"), tm, w)
  else
    match PerformTokenRefresh tm.RefreshToken w with
    | (.error err, w1) => (some (.wrapf "PerformTokenRefresh failed" err), tm, w1)
    | (.ok (newAccessToken, newRefreshToken), w1) =>
      let t := w1.timeNowUnix
      let tm1 := { tm with AccessToken := newAccessToken, RefreshToken := newRefreshToken,
                           LastUpdatedTimestamp := t.1 }
      if tm1.loadedTokenPath = "" then
        (none, tm1, t.2)
      else
        match tm1.SaveTokenToPath tm1.loadedTokenPath t.2 with
        | (some err, tm2, w2) =>
          (some (.wrapf ("successfully refreshed token, but failed to save to file "
            ++ tm2.loadedTokenPath) err), tm2, w2)
        | (none, tm2, w2) => (none, tm2, w2)

/-- The constant `tokenTimeoutSeconds` of `GetAccessToken`: 20 minutes. -/
def tokenTimeoutSeconds : Int := 20 * 60

/-- The method `GetAccessToken`. -/
def TokenManager.GetAccessToken (tm : TokenManager) (w : World) :
    (String × Option Err) × TokenManager × World :=
  if tm.AccessToken = "" then
    (("", some (.errorf "not authenticated: access token is empty")), tm, w)
  else
    let t := w.timeNowUnix
    let currentTime := t.1
    if tm.LastUpdatedTimestamp > 0 ∧
        wrapInt64 (currentTime - tm.LastUpdatedTimestamp) > tokenTimeoutSeconds then
      match tm.RefreshAccessToken t.2 with
      | (some err, tm1, w1) =>
        (("", some (.wrapf "failed to refresh token, authentication may be required" err)), tm1, w1)
      | (none, tm1, w1) =>
        if tm1.AccessToken = "" then
          (("", some (.errorf "authentication failed: token became empty after refresh")), tm1, w1)
        else
          ((tm1.AccessToken, none), tm1, w1)
    else
      ((tm.AccessToken, none), tm, t.2)

/-- The method `RefreshAccessToken` with the refresh transport as a parameter: the body of
the source with `transport` in the place of `PerformTokenRefresh`. -/
def TokenManager.RefreshAccessTokenVia
    (transport : String → World → Except Err (String × String) × World)
    (tm : TokenManager) (w : World) : Option Err × TokenManager × World :=
  if tm.RefreshToken = "" then
    (some (.errorf "cannot refresh token: refresh token is empty"), tm, w)
  else
    match transport tm.RefreshToken w with
    | (.error err, w1) => (some (.wrapf "PerformTokenRefresh failed" err), tm, w1)
    | (.ok (newAccessToken, newRefreshToken), w1) =>
      let t := w1.timeNowUnix
      let tm1 := { tm with AccessToken := newAccessToken, RefreshToken := newRefreshToken,
                           LastUpdatedTimestamp := t.1 }
      if tm1.loadedTokenPath = "" then
        (none, tm1, t.2)
      else
        match tm1.SaveTokenToPath tm1.loadedTokenPath t.2 with
        | (some err, tm2, w2) =>
          (some (.wrapf ("successfully refreshed token, but failed to save to file "
            ++ tm2.loadedTokenPath) err), tm2, w2)
        | (none, tm2, w2) => (none, tm2, w2)

/-- The method `GetAccessToken` with the refresh transport as a parameter: the body of the
source, refreshing through `RefreshAccessTokenVia transport`. -/
def TokenManager.GetAccessTokenVia
    (transport : String → World → Except Err (String × String) × World)
    (tm : TokenManager) (w : World) : (String × Option Err) × TokenManager × World :=
  if tm.AccessToken = "" then
    (("", some (.errorf "not authenticated: access token is empty")), tm, w)
  else
    let t := w.timeNowUnix
    let currentTime := t.1
    if tm.LastUpdatedTimestamp > 0 ∧
        wrapInt64 (currentTime - tm.LastUpdatedTimestamp) > tokenTimeoutSeconds then
      match tm.RefreshAccessTokenVia transport t.2 with
      | (some err, tm1, w1) =>
        (("", some (.wrapf "failed to refresh token, authentication may be required" err)), tm1, w1)
      | (none, tm1, w1) =>
        if tm1.AccessToken = "" then
          (("", some (.errorf "authentication failed: token became empty after refresh")), tm1, w1)
        else
          ((tm1.AccessToken, none), tm1, w1)
    else
      ((tm.AccessToken, none), tm, t.2)

/-! ## The API operations (`podcast_api.go`, `profile_api.go`, `search_api.go`) -/

/-- The parts of the Go runtime and of the package `constants` that the operations below
use and that are not part of the world: the constant `FixedDeviceID`, the formatting
`Format(time.RFC3339)` of a clock reading, `os.UserHomeDir`, `filepath.Join` and
`strings.TrimSpace`. -/
structure Host where
  FixedDeviceID : String
  formatRFC3339 : Int → String
  userHomeDir : Except Err String
  pathJoin : List String → String
  trimSpace : String → String

/-- The headers every API operation sets on its request, in the order of the source;
`accept` holds the `Accept` header, and the `Content-Type` header where there is one. -/
def apiHeaders (accessToken deviceID isoTime : String) (accept : List (String × String)) :
    List (String × String) :=
  [("Host", "api.xiaoyuzhoufm.com"),
   ("User-Agent", "Xiaoyuzhou/2.57.1 (build:1576; iOS 17.4.1)"),
   ("Market", "AppStore"),
   ("App-BuildNo", "1576"),
   ("OS", "ios"),
   ("x-jike-access-token", accessToken),
   ("x-jike-device-id", deviceID),
   ("Manufacturer", "Apple"),
   ("BundleID", "app.podcast.cosmos"),
   ("Connection", "keep-alive"),
   ("abtest-info", "\x7b\"old_user_discovery_feed\":\"enable\"\x7d"),
   ("Accept-Language", "zh-Hans-CN;q=1.0"),
   ("Model", "iPhone14,2"),
   ("app-permissions", "4")] ++ accept ++
  [("App-Version", "2.57.1"),
   ("WifiConnected", "true"),
   ("OS-Version", "17.4.1"),
   ("x-custom-xiaoyuzhou-app-dev", ""),
   ("Local-Time", isoTime),
   ("Timezone", "Asia/Shanghai")]

/-- The call `http.NewRequest(method, url, bytes.NewBuffer(body))`. -/
def World.httpNewRequestWithBody (w : World) (method url : String) (body : RequestBody) :
    Except Err HttpRequest :=
  match w.newRequestErr method url with
  | some e => .error e
  | none => .ok { method := method, url := url, headers := [], body := some body }

/-- The call `json.Marshal(requestData)` for an `EpisodeListRequest`: strings, an integer
and a struct of strings always encode. -/
def EpisodeListRequest.jsonMarshal (r : EpisodeListRequest) : Except Err RequestBody :=
  .ok (.episodeList r)

/-- The call `json.Marshal(requestData)` for a `SearchRequest`: it fails when the
`interface{}` of the load-more key holds a value that has no JSON encoding. -/
def SearchRequest.jsonMarshal (r : SearchRequest) : Except Err RequestBody :=
  match r.LoadMoreKey with
  | some k =>
    if k.LoadMoreKey = AnyValue.unsupported then .error (.errorf "json: unsupported type")
    else .ok (.search r)
  | none => .ok (.search r)

/-- The part every API operation ends with: `GetHTTPClient().Do(req)`, `io.ReadAll`, the
test of the status code and `json.Unmarshal` of the body. `name` is the name of the
operation in its messages, `decodeMsg` the message of a decoding failure, and `unmarshal`
the decoding of the body into the response struct of the operation, whose declaration the
claims do not look into. -/
def World.apiExchange {α : Type} (w : World) (req : HttpRequest) (name decodeMsg : String)
    (unmarshal : JsonText → Except Err α) : Except Err α × World :=
  match w.httpDo req with
  | (.doError err, w1) => (.error (.wrapf ("http request failed for " ++ name) err), w1)
  | (.readError _ err, w1) =>
    (.error (.wrapf ("failed to read response body from " ++ name) err), w1)
  | (.response status body, w1) =>
    if status ≠ 200 then
      (.error (.errorf ("API request " ++ name ++ " failed with status " ++ toString status)), w1)
    else
      match unmarshal body with
      | .error err => (.error (.wrapf decodeMsg err), w1)
      | .ok data => (.ok data, w1)

/-- The function `GetPodcastDetailsByID`. -/
def GetPodcastDetailsByID {α : Type} (h : Host) (unmarshal : JsonText → Except Err α)
    (podcastID : String) (g : Globals) (w : World) : Except Err α × Globals × World :=
  if podcastID = "" then
    (.error (.errorf "podcastID cannot be empty"), g, w)
  else
    let apiURL := w.APIBaseURL ++ "/v1/podcast/get?pid=" ++ podcastID
    match w.httpNewRequest "GET" apiURL with
    | .error err =>
      (.error (.wrapf "failed to create request for GetPodcastDetailsByID" err), g, w)
    | .ok req =>
      let m := GetTokenManager g
      match m.1.2 with
      | some err => (.error (.wrapf "failed to get token manager" err), m.2, w)
      | none =>
        let t := m.1.1.GetAccessToken w
        let g1 : Globals := { m.2 with inst := some t.2.1 }
        match t.1.2 with
        | some err => (.error (.wrapf "failed to get access token" err), g1, t.2.2)
        | none =>
          let now := t.2.2.timeNowUnix
          let isoTime := h.formatRFC3339 now.1
          let accept := [("Accept", "*/*")]
          let headers := apiHeaders t.1.1 h.FixedDeviceID isoTime accept
          let req1 := { req with headers := req.headers ++ headers }
          let r := now.2.apiExchange req1 "GetPodcastDetailsByID"
            "failed to unmarshal GetPodcastDetailsByID success response JSON" unmarshal
          (r.1, g1, r.2)

/-- The function `ListPodcastEpisodes`. -/
def ListPodcastEpisodes {α : Type} (h : Host) (unmarshal : JsonText → Except Err α)
    (requestData : EpisodeListRequest) (g : Globals) (w : World) :
    Except Err α × Globals × World :=
  if requestData.PID = "" then
    (.error (.errorf "podcastID (PID) in requestData cannot be empty"), g, w)
  else
    let apiURL := w.APIBaseURL ++ "/v1/episode/list"
    match requestData.jsonMarshal with
    | .error err =>
      (.error (.wrapf "failed to marshal request body for ListPodcastEpisodes" err), g, w)
    | .ok requestBodyBytes =>
      match w.httpNewRequestWithBody "POST" apiURL requestBodyBytes with
      | .error err =>
        (.error (.wrapf "failed to create request for ListPodcastEpisodes" err), g, w)
      | .ok req =>
        let m := GetTokenManager g
        match m.1.2 with
        | some err => (.error (.wrapf "failed to get token manager" err), m.2, w)
        | none =>
          let t := m.1.1.GetAccessToken w
          let g1 : Globals := { m.2 with inst := some t.2.1 }
          match t.1.2 with
          | some err => (.error (.wrapf "failed to get access token" err), g1, t.2.2)
          | none =>
            let now := t.2.2.timeNowUnix
            let isoTime := h.formatRFC3339 now.1
            let accept := [("Accept", "application/json"), ("Content-Type", "application/json")]
            let headers := apiHeaders t.1.1 h.FixedDeviceID isoTime accept
            let req1 := { req with headers := req.headers ++ headers }
            let r := now.2.apiExchange req1 "ListPodcastEpisodes"
              "failed to unmarshal ListPodcastEpisodes success response JSON" unmarshal
            (r.1, g1, r.2)

/-- The function `GetEpisodeDetailsByID`. -/
def GetEpisodeDetailsByID {α : Type} (h : Host) (unmarshal : JsonText → Except Err α)
    (episodeID : String) (g : Globals) (w : World) : Except Err α × Globals × World :=
  if episodeID = "" then
    (.error (.errorf "episodeID cannot be empty"), g, w)
  else
    let apiURL := w.APIBaseURL ++ "/v1/episode/get?eid=" ++ episodeID
    match w.httpNewRequest "GET" apiURL with
    | .error err =>
      (.error (.wrapf "failed to create request for GetEpisodeDetailsByID" err), g, w)
    | .ok req =>
      let m := GetTokenManager g
      match m.1.2 with
      | some err => (.error (.wrapf "failed to get token manager" err), m.2, w)
      | none =>
        let t := m.1.1.GetAccessToken w
        let g1 : Globals := { m.2 with inst := some t.2.1 }
        match t.1.2 with
        | some err => (.error (.wrapf "failed to get access token" err), g1, t.2.2)
        | none =>
          let now := t.2.2.timeNowUnix
          let isoTime := h.formatRFC3339 now.1
          let accept := [("Accept", "application/json")]
          let headers := apiHeaders t.1.1 h.FixedDeviceID isoTime accept
          let req1 := { req with headers := req.headers ++ headers }
          let r := now.2.apiExchange req1 "GetEpisodeDetailsByID"
            "failed to unmarshal GetEpisodeDetailsByID success response JSON" unmarshal
          (r.1, g1, r.2)

/-- The function `GetUserProfileByID`. -/
def GetUserProfileByID {α : Type} (h : Host) (unmarshal : JsonText → Except Err α)
    (userID : String) (g : Globals) (w : World) : Except Err α × Globals × World :=
  if userID = "" then
    (.error (.errorf "userID cannot be empty"), g, w)
  else
    let apiURL := w.APIBaseURL ++ "/v1/profile/get?uid=" ++ userID
    match w.httpNewRequest "GET" apiURL with
    | .error err =>
      (.error (.wrapf "failed to create request for GetUserProfileByID" err), g, w)
    | .ok req =>
      let m := GetTokenManager g
      match m.1.2 with
      | some err => (.error (.wrapf "failed to get token manager" err), m.2, w)
      | none =>
        let t := m.1.1.GetAccessToken w
        let g1 : Globals := { m.2 with inst := some t.2.1 }
        match t.1.2 with
        | some err => (.error (.wrapf "failed to get access token" err), g1, t.2.2)
        | none =>
          let now := t.2.2.timeNowUnix
          let isoTime := h.formatRFC3339 now.1
          let accept := [("Accept", "*/*")]
          let headers := apiHeaders t.1.1 h.FixedDeviceID isoTime accept
          let req1 := { req with headers := req.headers ++ headers }
          let r := now.2.apiExchange req1 "GetUserProfileByID"
            "failed to unmarshal GetUserProfileByID success response JSON" unmarshal
          (r.1, g1, r.2)

/-- The function `GetUserStats`. -/
def GetUserStats {α : Type} (h : Host) (unmarshal : JsonText → Except Err α)
    (userID : String) (g : Globals) (w : World) : Except Err α × Globals × World :=
  if userID = "" then
    (.error (.errorf "userID cannot be empty for GetUserStats"), g, w)
  else
    let apiURL := w.APIBaseURL ++ "/v1/user-stats/get?uid=" ++ userID
    match w.httpNewRequest "GET" apiURL with
    | .error err => (.error (.wrapf "failed to create request for GetUserStats" err), g, w)
    | .ok req =>
      let m := GetTokenManager g
      match m.1.2 with
      | some err =>
        (.error (.wrapf "failed to get token manager for GetUserStats" err), m.2, w)
      | none =>
        let t := m.1.1.GetAccessToken w
        let g1 : Globals := { m.2 with inst := some t.2.1 }
        match t.1.2 with
        | some err =>
          (.error (.wrapf "failed to get access token for GetUserStats" err), g1, t.2.2)
        | none =>
          let now := t.2.2.timeNowUnix
          let isoTime := h.formatRFC3339 now.1
          let accept := [("Accept", "*/*")]
          let headers := apiHeaders t.1.1 h.FixedDeviceID isoTime accept
          let req1 := { req with headers := req.headers ++ headers }
          let r := now.2.apiExchange req1 "GetUserStats"
            "failed to unmarshal GetUserStats success response JSON" unmarshal
          (r.1, g1, r.2)

/-- The function `doSearch`; its result stands for the three values it returns, the raw
`data`, the highlight word and the load-more key of the decoded body. -/
def doSearch {α : Type} (h : Host) (unmarshal : JsonText → Except Err α)
    (requestData : SearchRequest) (g : Globals) (w : World) :
    Except Err α × Globals × World :=
  let apiURL := w.APIBaseURL ++ "/v1/search/create"
  match requestData.jsonMarshal with
  | .error err => (.error (.wrapf "failed to marshal request body for search" err), g, w)
  | .ok requestBodyBytes =>
    match w.httpNewRequestWithBody "POST" apiURL requestBodyBytes with
    | .error err => (.error (.wrapf "failed to create request for search" err), g, w)
    | .ok req =>
      let m := GetTokenManager g
      match m.1.2 with
      | some err => (.error (.wrapf "failed to get token manager for search" err), m.2, w)
      | none =>
        let t := m.1.1.GetAccessToken w
        let g1 : Globals := { m.2 with inst := some t.2.1 }
        match t.1.2 with
        | some err => (.error (.wrapf "failed to get access token for search" err), g1, t.2.2)
        | none =>
          let now := t.2.2.timeNowUnix
          let isoTime := h.formatRFC3339 now.1
          let accept := [("Accept", "application/json"), ("Content-Type", "application/json")]
          let headers := apiHeaders t.1.1 h.FixedDeviceID isoTime accept
          let req1 := { req with headers := req.headers ++ headers }
          let r := now.2.apiExchange req1 "search"
            "failed to unmarshal generic search response JSON" unmarshal
          (r.1, g1, r.2)

/-- The function `SearchPodcasts`; `unmarshalData` decodes the raw `data` into the list of
podcasts and builds the response. -/
def SearchPodcasts {α β : Type} (h : Host) (unmarshal : JsonText → Except Err α)
    (unmarshalData : α → Except Err β) (keyword : String)
    (loadMoreKey : Option SearchAPILoadMoreKey) (g : Globals) (w : World) :
    Except Err β × Globals × World :=
  let request : SearchRequest :=
    { Keyword := keyword, SearchType := "PODCAST", PID := "", LoadMoreKey := loadMoreKey }
  match doSearch h unmarshal request g w with
  | (.error err, g1, w1) => (.error err, g1, w1)
  | (.ok raw, g1, w1) =>
    match unmarshalData raw with
    | .error err => (.error (.wrapf "failed to unmarshal podcast search data" err), g1, w1)
    | .ok response => (.ok response, g1, w1)

/-- The function `SearchEpisodes`. -/
def SearchEpisodes {α β : Type} (h : Host) (unmarshal : JsonText → Except Err α)
    (unmarshalData : α → Except Err β) (keyword pid : String)
    (loadMoreKey : Option SearchAPILoadMoreKey) (g : Globals) (w : World) :
    Except Err β × Globals × World :=
  let request : SearchRequest :=
    { Keyword := keyword, SearchType := "EPISODE", PID := pid, LoadMoreKey := loadMoreKey }
  match doSearch h unmarshal request g w with
  | (.error err, g1, w1) => (.error err, g1, w1)
  | (.ok raw, g1, w1) =>
    match unmarshalData raw with
    | .error err => (.error (.wrapf "failed to unmarshal episode search data" err), g1, w1)
    | .ok response => (.ok response, g1, w1)

/-- The function `SearchUsers`. -/
def SearchUsers {α β : Type} (h : Host) (unmarshal : JsonText → Except Err α)
    (unmarshalData : α → Except Err β) (keyword : String)
    (loadMoreKey : Option SearchAPILoadMoreKey) (g : Globals) (w : World) :
    Except Err β × Globals × World :=
  let request : SearchRequest :=
    { Keyword := keyword, SearchType := "USER", PID := "", LoadMoreKey := loadMoreKey }
  match doSearch h unmarshal request g w with
  | (.error err, g1, w1) => (.error err, g1, w1)
  | (.ok raw, g1, w1) =>
    match unmarshalData raw with
    | .error err => (.error (.wrapf "failed to unmarshal user search data" err), g1, w1)
    | .ok response => (.ok response, g1, w1)

/-- The manager the package holds after its manager has been asked for an access token
in the world `w`: `GetTokenManager` followed by `GetAccessToken`. -/
def Globals.afterToken (g : Globals) (w : World) : Globals :=
  { (GetTokenManager g).2 with inst := some ((GetTokenManager g).1.1.GetAccessToken w).2.1 }

/-- The world after the manager of the package has been asked for an access token. -/
def Globals.worldAfterToken (g : Globals) (w : World) : World :=
  ((GetTokenManager g).1.1.GetAccessToken w).2.2

/-- The error, if any, that the manager of the package answers a request for an access
token with. -/
def Globals.tokenError (g : Globals) (w : World) : Option Err :=
  ((GetTokenManager g).1.1.GetAccessToken w).1.2

/-- The number of requests handed to the HTTP client so far. -/
def World.httpRequests (w : World) : Nat :=
  w.trace.countP (fun e => match e with
    | .httpDo _ => true
    | _ => false)

/-! ## The tool handler (`tools/podcast_tool.go`) -/

/-- A Go value of type `interface{}` in the arguments of a tool call: a string, a map from
strings to such values (nil or not), or a value of another type. -/
inductive ArgValue where
  | str (s : String)
  | map (entries : List (String × ArgValue))
  | nilMap
  | other

/-- The arguments of a tool call, `request.Params.Arguments`: a Go map, as the list of its
entries. -/
abbrev Arguments := List (String × ArgValue)

/-- The type assertion `v.(string)` on the entry of a map, with its `ok`: a missing entry
and a value of another type give the empty string and `false`. -/
def assertString (v : Option ArgValue) : String × Bool :=
  match v with
  | some (.str s) => (s, true)
  | _ => ("", false)

/-- The type assertion `v.(map[string]interface{})` followed by the test `!= nil`: the
entries of a map that is not nil. -/
def assertNonNilMap (v : Option ArgValue) : Option (List (String × ArgValue)) :=
  match v with
  | some (.map entries) => some entries
  | _ => none

/-- A `*mcp.CallToolResult`, by the constructor that made it. -/
inductive ToolResult where
  | NewToolResultError (text : String)
  | NewToolResultErrorFromErr (text : String) (err : Err)
  | NewToolResultText (text : String)
  deriving DecidableEq, Repr

/-- The end of `ListPodcastEpisodesHandler`, from the answer of `ListPodcastEpisodes` on:
an error of the API becomes a tool error, the data are encoded by `json.Marshal`
(`marshal`) into a text result. -/
def episodeListResult {α : Type} (marshal : α → Except Err String)
    (r : Except Err α × Globals × World) : ToolResult × Globals × World :=
  match r with
  | (.error err, g1, w1) => (.NewToolResultErrorFromErr "调用API获取播客单集列表失败" err, g1, w1)
  | (.ok episodeListData, g1, w1) =>
    match marshal episodeListData with
    | .error err => (.NewToolResultErrorFromErr "处理结果失败" err, g1, w1)
    | .ok episodeListJSON => (.NewToolResultText episodeListJSON, g1, w1)

/-- The part of `ListPodcastEpisodesHandler` that reads `load_more_key` into the request. -/
def withLoadMoreKey (arguments : Arguments) (apiRequest : EpisodeListRequest) :
    EpisodeListRequest :=
  match assertNonNilMap (arguments.lookup "load_more_key") with
  | some lmkMap =>
    let lmk0 : LoadMoreKey := { Direction := "", PubDate := "", ID := "" }
    let direction := assertString (lmkMap.lookup "direction")
    let lmk1 := if direction.2 then { lmk0 with Direction := direction.1 } else lmk0
    let pubDate := assertString (lmkMap.lookup "pubDate")
    let lmk2 := if pubDate.2 then { lmk1 with PubDate := pubDate.1 } else lmk1
    let id := assertString (lmkMap.lookup "id")
    let lmk := if id.2 then { lmk2 with ID := id.1 } else lmk2
    if lmk.Direction ≠ "" ∨ lmk.PubDate ≠ "" ∨ lmk.ID ≠ "" then
      { apiRequest with LoadMoreKey := some lmk }
    else apiRequest
  | none => apiRequest

/-- The function `ListPodcastEpisodesHandler` with `xyzclient.ListPodcastEpisodes` as the
parameter `api`. -/
def ListPodcastEpisodesHandlerVia {α : Type}
    (api : EpisodeListRequest → Globals → World → Except Err α × Globals × World)
    (marshal : α → Except Err String) (arguments : Arguments) (g : Globals) (w : World) :
    ToolResult × Globals × World :=
  let podcastID := assertString (arguments.lookup "podcast_id")
  if !podcastID.2 ∨ podcastID.1 = "" then
    (.NewToolResultError "错误: 输入参数 'podcast_id' 不能为空且必须是字符串类型。", g, w)
  else
    let apiRequest : EpisodeListRequest :=
      { PID := podcastID.1, Order := "", Limit := 20, LoadMoreKey := none }
    let order := assertString (arguments.lookup "order")
    if order.2 ∧ order.1 ≠ "" then
      if order.1 ≠ "asc" ∧ order.1 ≠ "desc" then
        (.NewToolResultError "错误: 输入参数 'order' 必须是 'asc' 或 'desc'。", g, w)
      else
        episodeListResult marshal
          (api (withLoadMoreKey arguments { apiRequest with Order := order.1 }) g w)
    else
      episodeListResult marshal
        (api (withLoadMoreKey arguments { apiRequest with Order := "desc" }) g w)

/-- The function `ListPodcastEpisodesHandler`. -/
def ListPodcastEpisodesHandler {α : Type} (h : Host) (unmarshal : JsonText → Except Err α)
    (marshal : α → Except Err String) (arguments : Arguments) (g : Globals) (w : World) :
    ToolResult × Globals × World :=
  ListPodcastEpisodesHandlerVia (ListPodcastEpisodes h unmarshal) marshal arguments g w

/-! ## The command (`cmd/xiaoyuzhoufm-mcp/main.go`) and the token path (`token.go`) -/

/-- The constant `tokenFileName`. -/
def tokenFileName : String := "token.json"

/-- The function `GetUserTokenPath`. -/
def GetUserTokenPath (h : Host) : Except Err String :=
  match h.userHomeDir with
  | .error err => .error (.wrapf "failed to get user home directory" err)
  | .ok homeDir =>
    let tokenDir := h.pathJoin [homeDir, ".mcp", "xiaoyuzhoufm-mcp"]
    .ok (h.pathJoin [tokenDir, tokenFileName])

/-- The constant `defaultAreaCode`. -/
def defaultAreaCode : String := "+86"

/-- The constant `maxVerificationAttempts`. -/
def maxVerificationAttempts : Nat := 3

/-- The class `\d` of a Go regular expression: the ten ASCII digits. -/
def isDigit (c : Char) : Bool := decide ('0' ≤ c ∧ c ≤ '9')

/-- The function `isValidAreaCode`, the match of `^\+\d{1,3}$`: a plus sign followed by
one to three digits and nothing else. -/
def isValidAreaCode (areaCode : String) : Bool :=
  match areaCode.data with
  | '+' :: digits => decide (1 ≤ digits.length ∧ digits.length ≤ 3) && digits.all isDigit
  | _ => false

/-- The function `isValidPhoneNumber`, the match of `^\d{7,15}$`. -/
def isValidPhoneNumber (phone : String) : Bool :=
  decide (7 ≤ phone.data.length ∧ phone.data.length ≤ 15) && phone.data.all isDigit

/-- The function `isValidVerificationCode`, the match of `^\d{4}$`. -/
def isValidVerificationCode (code : String) : Bool :=
  decide (code.data.length = 4) && code.data.all isDigit

/-- The two calls `interactiveLogin` makes into `auth_api.go`, as they act on the world:
`RequestVerificationCode(areaCode, phoneNumber)` and
`LoginWithCode(areaCode, phoneNumber, code)`, whose four results on success are the access
token, the refresh token, the uid and the nickname. They are parameters of the model of
`interactiveLogin`, so that what is proved of it holds for every answer of the service. -/
structure AuthApi where
  RequestVerificationCode : String → String → World → Option Err × World
  LoginWithCode : String → String → String → World →
    Except Err (String × String × String × String) × World

/-- One invocation of `LoginWithCode`: its three arguments and what it returned. -/
structure LoginCall where
  areaCode : String
  phoneNumber : String
  code : String
  result : Except Err (String × String × String × String)

/-- Whether an invocation of `LoginWithCode` returned no error. -/
def LoginCall.succeeded (c : LoginCall) : Bool :=
  match c.result with
  | .ok _ => true
  | .error _ => false

/-- How a run of the command ends: `os.Exit(status)`, a loop that never ends, or the return
of the function. -/
inductive Ending where
  | exited (status : Nat)
  | loopsForever
  | returned
  deriving DecidableEq, Repr

/-- The state at the end of a run of `interactiveLogin`: how it ended, the manager, the
world, the lines of standard input not yet read, the invocations of `LoginWithCode` in
order, and the variable `loginSuccessful`. -/
structure LoginRun where
  ending : Ending
  tm : TokenManager
  w : World
  stdin : List String
  calls : List LoginCall
  loginSuccessful : Bool

/-- The first loop of `interactiveLogin`. Standard input is the list of the strings that the
successive calls `reader.ReadString` return; when it is used up every further call returns
the empty string (end of file, the error is dropped by the source), so that one more turn
of the loop decides: it either breaks or repeats for ever (`none`). -/
def readAreaCode (h : Host) : List String → Option String × List String
  | [] =>
    let areaCode := if h.trimSpace "" = "" then defaultAreaCode else h.trimSpace ""
    if isValidAreaCode areaCode then (some areaCode, []) else (none, [])
  | input :: rest =>
    let areaCode := if h.trimSpace input = "" then defaultAreaCode else h.trimSpace input
    if isValidAreaCode areaCode then (some areaCode, rest) else readAreaCode h rest

/-- The second loop of `interactiveLogin`, read as `readAreaCode` is. -/
def readPhoneNumber (h : Host) : List String → Option String × List String
  | [] =>
    if isValidPhoneNumber (h.trimSpace "") then (some (h.trimSpace ""), []) else (none, [])
  | input :: rest =>
    if isValidPhoneNumber (h.trimSpace input) then (some (h.trimSpace input), rest)
    else readPhoneNumber h rest

/-- The turns of the third loop that end in `continue`: the inputs that are not a valid
verification code are passed over, without a change of `loginAttempts`, until one is
valid; `none` when that never happens. -/
def readVerificationCode (h : Host) : List String → Option String × List String
  | [] =>
    if isValidVerificationCode (h.trimSpace "") then (some (h.trimSpace ""), [])
    else (none, [])
  | input :: rest =>
    if isValidVerificationCode (h.trimSpace input) then (some (h.trimSpace input), rest)
    else readVerificationCode h rest

/-- The third loop of `interactiveLogin`, `for loginAttempts < maxVerificationAttempts`;
`remaining` is `maxVerificationAttempts - loginAttempts`. -/
def verificationLoop (h : Host) (api : AuthApi) (areaCode phoneNumber : String) :
    Nat → List String → TokenManager → World → List LoginCall → LoginRun
  | 0, stdin, tm, w, calls =>
    { ending := .returned, tm := tm, w := w, stdin := stdin, calls := calls,
      loginSuccessful := false }
  | remaining + 1, stdin, tm, w, calls =>
    match readVerificationCode h stdin with
    | (none, stdin1) =>
      { ending := .loopsForever, tm := tm, w := w, stdin := stdin1, calls := calls,
        loginSuccessful := false }
    | (some verificationCode, stdin1) =>
      match api.LoginWithCode areaCode phoneNumber verificationCode w with
      | (.ok (accessToken, refreshToken, uid, nickname), w1) =>
        { ending := .returned
          tm := { tm with AccessToken := accessToken, RefreshToken := refreshToken,
                          Uid := uid, Nickname := nickname }
          w := w1, stdin := stdin1
          calls := calls ++ [⟨areaCode, phoneNumber, verificationCode,
            .ok (accessToken, refreshToken, uid, nickname)⟩]
          loginSuccessful := true }
      | (.error err, w1) =>
        let calls1 := calls ++ [⟨areaCode, phoneNumber, verificationCode, .error err⟩]
        if 0 < remaining then
          verificationLoop h api areaCode phoneNumber remaining stdin1 tm w1 calls1
        else
          { ending := .exited 1, tm := tm, w := w1, stdin := stdin1, calls := calls1,
            loginSuccessful := false }

/-- The function `interactiveLogin`, with the two calls into `auth_api.go` as the parameter
`api`. -/
def interactiveLoginVia (h : Host) (api : AuthApi) (stdin : List String) (tm : TokenManager)
    (w : World) : LoginRun :=
  match readAreaCode h stdin with
  | (none, stdin1) =>
    { ending := .loopsForever, tm := tm, w := w, stdin := stdin1, calls := [],
      loginSuccessful := false }
  | (some areaCode, stdin1) =>
    match readPhoneNumber h stdin1 with
    | (none, stdin2) =>
      { ending := .loopsForever, tm := tm, w := w, stdin := stdin2, calls := [],
        loginSuccessful := false }
    | (some phoneNumber, stdin2) =>
      match api.RequestVerificationCode areaCode phoneNumber w with
      | (some _, w1) =>
        { ending := .exited 1, tm := tm, w := w1, stdin := stdin2, calls := [],
          loginSuccessful := false }
      | (none, w1) =>
        let r := verificationLoop h api areaCode phoneNumber maxVerificationAttempts stdin2
          tm w1 []
        match r.ending with
        | .returned =>
          if !r.loginSuccessful then { r with ending := .exited 1 }
          else
            match GetUserTokenPath h with
            | .error _ => { r with ending := .exited 1 }
            | .ok userTokenPath =>
              match r.tm.SaveTokenToPath userTokenPath r.w with
              | (some _, tm2, w2) => { r with ending := .exited 1, tm := tm2, w := w2 }
              | (none, tm2, w2) => { r with ending := .returned, tm := tm2, w := w2 }
        | _ => r

/-- The state at the end of a run of `main`: how it ended, the package variables, the
world, and the number of calls of `server.RunStdioServer`. -/
structure MainRun where
  ending : Ending
  g : Globals
  w : World
  serverCalls : Nat

/-- The function `main`, without its logging. `args` is `os.Args`; `RunStdioServer` is the
function of the package `server`, a parameter here; the return of `main` ends the process
with status 0. -/
def main (h : Host) (api : AuthApi) (RunStdioServer : Globals → World → Globals × World)
    (args stdin : List String) (g : Globals) (w : World) : MainRun :=
  if 1 < args.length ∧ args.get? 1 = some "init" then
    let m := GetTokenManager g
    match m.1.2 with
    | some _ => { ending := .exited 1, g := m.2, w := w, serverCalls := 0 }
    | none =>
      let r := interactiveLoginVia h api stdin m.1.1 w
      let g1 : Globals := { m.2 with inst := some r.tm }
      match r.ending with
      | .returned => { ending := .exited 0, g := g1, w := r.w, serverCalls := 0 }
      | e => { ending := e, g := g1, w := r.w, serverCalls := 0 }
  else
    let m := GetTokenManager g
    match m.1.2 with
    | some _ => { ending := .exited 1, g := m.2, w := w, serverCalls := 0 }
    | none =>
      match GetUserTokenPath h with
      | .error _ => { ending := .exited 1, g := m.2, w := w, serverCalls := 0 }
      | .ok userTokenPath =>
        let l := m.1.1.LoadTokenFromPath userTokenPath w
        let g1 : Globals := { m.2 with inst := some l.2.1 }
        match l.1 with
        | some _ => { ending := .exited 1, g := g1, w := l.2.2, serverCalls := 0 }
        | none =>
          let s := RunStdioServer g1 l.2.2
          { ending := .returned, g := s.1, w := s.2, serverCalls := 1 }

/-! ## Observations on the world -/

/-- The value the next `time.Now().Unix()` returns. -/
def World.now (w : World) : Int := w.timeNowUnix.1

/-- The event is an invocation of `PerformTokenRefresh`. -/
def Event.isRefresh : Event → Bool
  | .performTokenRefresh _ => true
  | _ => false

/-- The event creates a directory or writes a file. -/
def Event.isFsEffect : Event → Bool
  | .mkdirAll _ _ => true
  | .writeFile _ _ _ => true
  | _ => false

/-- The number of invocations of the refresh transport so far. -/
def World.refreshCalls (w : World) : Nat := w.trace.countP Event.isRefresh

/-- The number of directory creations and file writes attempted so far. -/
def World.fsEffects (w : World) : Nat := w.trace.countP Event.isFsEffect

/-- The value of the `k`-th reading of `time.Now().Unix()`. -/
def World.readingAt (w : World) (k : Nat) : Int := wrapInt64 (w.clock k)

/-- The clock never goes back: later readings are not smaller than earlier ones. -/
def World.clockNonDecreasing (w : World) : Prop :=
  ∀ i j, i ≤ j → w.readingAt i ≤ w.readingAt j

/-- The answer of the refresh endpoint to the next request of `PerformTokenRefresh` for
the refresh token `tok`. -/
def World.refreshAnswer (w : World) (tok : String) : HttpOutcome :=
  w.http w.exchanges
    { method := "POST", url := w.APIBaseURL ++ "/app_auth_tokens.refresh",
      headers := refreshHeaders tok }

/-- The decoding of a response body into a zero-valued `RefreshTokenAPIResponse`, as
`PerformTokenRefresh` does it. -/
def decodeRefreshBody (body : JsonText) : RefreshTokenAPIResponse × Option Err :=
  jsonUnmarshal refreshFields RefreshTokenAPIResponse.store body
    { Success := false, XJikeAccessToken := "", XJikeRefreshToken := "" }

/-- The credential invariant of the data model: the manager is empty (no token) or
complete (both tokens). -/
def TokenManager.emptyOrComplete (tm : TokenManager) : Prop :=
  (tm.AccessToken = "" ∧ tm.RefreshToken = "") ∨ (tm.AccessToken ≠ "" ∧ tm.RefreshToken ≠ "")

/-! ## Sample inputs -/

/-- The path of the token file of the samples. -/
def samplePath : String := "/home/u/.mcp/xiaoyuzhoufm-mcp/token.json"

/-- A world whose clock stands at 10000, whose refresh endpoint answers 200 with the pair
`A2`, `R2`, and whose filesystem is empty and refuses nothing. -/
def sampleWorld : World :=
  { clock := fun _ => 10000
    ticks := 0
    http := fun _ _ => .response 200 (.object [("success", .bool true),
      ("x-jike-access-token", .str "A2"), ("x-jike-refresh-token", .str "R2")])
    exchanges := 0
    fs := { files := fun _ => none, dirs := fun _ => false }
    readFault := fun _ => none
    mkdirFault := fun _ => none
    writeFault := fun _ => none
    dirOf := fun _ => "/home/u/.mcp/xiaoyuzhoufm-mcp"
    isAncestor := fun q _ => q = "/home/u/.mcp" || q = "/home/u" || q = "/home" || q = "/"
    newRequestErr := fun _ _ => none
    APIBaseURL := "https://api.xiaoyuzhoufm.com"
    trace := [] }

/-- The manager as `GetTokenManager` creates it. -/
def emptyManager : TokenManager :=
  { AccessToken := "", RefreshToken := "", Uid := "", Nickname := "",
    LastUpdatedTimestamp := 0, loadedTokenPath := "" }

/-- A complete credential `A1`, `R1` loaded from `samplePath` and refreshed one hour
before the clock of `sampleWorld`. -/
def staleManager : TokenManager :=
  { AccessToken := "A1", RefreshToken := "R1", Uid := "u1", Nickname := "nick",
    LastUpdatedTimestamp := 6400, loadedTokenPath := samplePath }

/-- The world of `sampleWorld` in which the operating system refuses to write any file. -/
def writeFailWorld : World :=
  { sampleWorld with writeFault := fun _ => some (.errno "EACCES") }

/-- The world of `sampleWorld` whose refresh endpoint answers 401. -/
def transportFailWorld : World :=
  { sampleWorld with http := fun _ _ => .response 401 .malformed }

/-- The credential of `staleManager` without a refresh token. -/
def noRefreshTokenManager : TokenManager :=
  { staleManager with RefreshToken := "" }

/-- The credential of `staleManager` before it was ever loaded from or saved to a file. -/
def memoryOnlyManager : TokenManager :=
  { staleManager with loadedTokenPath := "" }

/-- The credential of `staleManager` refreshed 19 minutes before the clock of `sampleWorld`. -/
def freshManager : TokenManager :=
  { staleManager with LastUpdatedTimestamp := 8860 }

/-- The credential of `staleManager` refreshed exactly 20 minutes before the clock of
`sampleWorld`. -/
def boundaryManager : TokenManager :=
  { staleManager with LastUpdatedTimestamp := 8800 }

/-- The credential of `staleManager` with a timestamp after the clock of `sampleWorld`. -/
def futureManager : TokenManager :=
  { staleManager with LastUpdatedTimestamp := 20000 }

/-- The credential of `staleManager` refreshed 21 minutes before the clock of `sampleWorld`. -/
def justStaleManager : TokenManager :=
  { staleManager with LastUpdatedTimestamp := 8740 }

/-- The world of `sampleWorld` with the clock standing at the epoch. -/
def epochWorld : World :=
  { sampleWorld with clock := fun _ => 0 }

/-- The world of `sampleWorld` with one file, at `samplePath`, holding `data`. -/
def worldWithFile (data : JsonText) : World :=
  { sampleWorld with
    fs := { files := fun q => if q = samplePath then some data else none,
            dirs := fun _ => false } }

/-- A token file that holds an access token and nothing else. -/
def accessOnlyFile : JsonText :=
  .object [("access_token", .str "A9")]

/-- A token file that holds the two tokens and nothing else. -/
def tokensOnlyFile : JsonText :=
  .object [("access_token", .str "A9"), ("refresh_token", .str "R9")]

/-- A complete token file with the timestamp 5. -/
def olderFile : JsonText :=
  .object [("access_token", .str "A0"), ("refresh_token", .str "R0"), ("uid", .str "u0"),
    ("nickname", .str "nick0"), ("last_updated_timestamp", .int 5)]

/-- The world of `sampleWorld` in which a component of every path is a regular file, so
that every read is refused with `ENOTDIR`. -/
def notDirWorld : World :=
  { sampleWorld with readFault := fun _ => some (.errno "ENOTDIR") }

/-- A refresh transport that reports success and hands back an empty access token. -/
def emptyTokenTransport : String → World → Except Err (String × String) × World :=
  fun _ w => (.ok ("", "R2"), w)

/-- The world of `sampleWorld` whose refresh endpoint answers 200 with `success: true`
and a body without the access token. -/
def missingTokenWorld : World :=
  { sampleWorld with
    http := fun _ _ => .response 200 (.object [("success", .bool true),
      ("x-jike-refresh-token", .str "R2")]) }

/-- The world of `sampleWorld` 1200 seconds later. -/
def laterWorld : World :=
  { sampleWorld with clock := fun _ => 11200 }

/-- The credential of `staleManager` as the interactive login leaves it: complete, never
saved, with the timestamp 0. -/
def loggedInManager : TokenManager :=
  { staleManager with LastUpdatedTimestamp := 0, loadedTokenPath := "" }

/-- A token file with the two tokens and a timestamp that is not a number. -/
def badTimestampFile : JsonText :=
  .object [("access_token", .str "A9"), ("refresh_token", .str "R9"),
    ("last_updated_timestamp", .str "soon")]

/-- The string without the blanks, tabs and line ends at its two ends. -/
def trimEnds (s : String) : String :=
  ⟨((s.data.dropWhile Char.isWhitespace).reverse.dropWhile Char.isWhitespace).reverse⟩

/-- A host with the device id `D1` whose home directory is `/home/u`, whose paths are
joined with `/` and whose `TrimSpace` removes the blanks and line ends on both sides. -/
def sampleHost : Host :=
  { FixedDeviceID := "D1"
    formatRFC3339 := fun _ => "1970-01-01T02:46:40Z"
    userHomeDir := .ok "/home/u"
    pathJoin := fun parts => "/".intercalate parts
    trimSpace := trimEnds }

/-- The arguments of a call that asks for the episodes of `p1`, oldest first. -/
def ascArguments : Arguments := [("podcast_id", .str "p1"), ("order", .str "asc")]

/-- The arguments of a call whose `order` is not one of the two the handler accepts. -/
def badOrderArguments : Arguments := [("podcast_id", .str "p1"), ("order", .str "newest")]

/-- An implementation of `ListPodcastEpisodes` that answers with the order it was asked for
and counts one exchange. -/
def echoOrderApi (r : EpisodeListRequest) (g : Globals) (w : World) :
    Except Err String × Globals × World :=
  (.ok r.Order, g, { w with exchanges := w.exchanges + 1 })

/-- A service that sends every verification code asked for and accepts the code `2468`
alone, answering with the tokens `A7`, `R7` of the user `u7`; every call counts as one
exchange. -/
def sampleAuthApi : AuthApi :=
  { RequestVerificationCode := fun _ _ w => (none, { w with exchanges := w.exchanges + 1 })
    LoginWithCode := fun _ _ code w =>
      (if code = "2468" then .ok ("A7", "R7", "u7", "Yu")
        else .error (.errorf "api request failed with status 400"),
       { w with exchanges := w.exchanges + 1 }) }

/-- A standard input: the default area code, a phone number, then three well-formed codes
that the sample service refuses, with one ill-formed input among them. -/
def threeWrongCodes : List String := ["\n", "13800000000\n", "1111\n", "12\n", "2222\n", "3333\n"]

/-! ## Basic facts -/

theorem wrapInt64_of_isInt64 {x : Int} (h : isInt64 x) : wrapInt64 x = x := by
  unfold isInt64 at h
  unfold wrapInt64
  omega

theorem isInt64_wrapInt64 (x : Int) : isInt64 (wrapInt64 x) := by
  unfold isInt64 wrapInt64
  omega

theorem isInt64_now (w : World) : isInt64 w.now := isInt64_wrapInt64 _

@[simp] theorem timeNowUnix_fst (w : World) : w.timeNowUnix.1 = w.now := rfl
@[simp] theorem timeNowUnix_trace (w : World) : w.timeNowUnix.2.trace = w.trace := rfl
@[simp] theorem timeNowUnix_fs (w : World) : w.timeNowUnix.2.fs = w.fs := rfl

/-! ## The refresh transport: what it leaves alone -/

theorem PerformTokenRefresh_world (tok : String) (w : World) :
    ∃ ex tr, (PerformTokenRefresh tok w).2
        = { w with exchanges := ex, trace := w.trace ++ Event.performTokenRefresh tok :: tr }
      ∧ ∀ e ∈ tr, e.isRefresh = false ∧ e.isFsEffect = false := by
  unfold PerformTokenRefresh
  simp only [World.httpNewRequest, World.httpDo]
  cases hreq : w.newRequestErr "POST" (w.APIBaseURL ++ "/app_auth_tokens.refresh") with
  | some e => exact ⟨w.exchanges, [], by simp, by simp⟩
  | none =>
    simp only []
    refine ⟨w.exchanges + 1, [Event.httpDo ⟨"POST", w.APIBaseURL ++ "/app_auth_tokens.refresh",
      [] ++ refreshHeaders tok, none⟩], ?_, ?_⟩
    · split
      · rename_i heq; simp at heq; simp [← heq.2]
      · rename_i heq; simp at heq; simp [← heq.2]
      · rename_i heq; simp at heq
        split
        · simp [← heq.2]
        · split
          · simp [← heq.2]
          · split
            · simp [← heq.2]
            · split <;> simp [← heq.2]
    · intro e he
      simp at he
      subst he
      exact ⟨rfl, rfl⟩

theorem countP_eq_zero_of_forall {p : Event → Bool} {tr : List Event}
    (h : ∀ e ∈ tr, p e = false) : tr.countP p = 0 := by
  rw [List.countP_eq_zero]
  intro e he
  simp [h e he]

@[simp] theorem PerformTokenRefresh_fs (tok : String) (w : World) :
    (PerformTokenRefresh tok w).2.fs = w.fs := by
  obtain ⟨ex, tr, h, -⟩ := PerformTokenRefresh_world tok w
  rw [h]

@[simp] theorem PerformTokenRefresh_clock (tok : String) (w : World) :
    (PerformTokenRefresh tok w).2.clock = w.clock := by
  obtain ⟨ex, tr, h, -⟩ := PerformTokenRefresh_world tok w
  rw [h]

@[simp] theorem PerformTokenRefresh_ticks (tok : String) (w : World) :
    (PerformTokenRefresh tok w).2.ticks = w.ticks := by
  obtain ⟨ex, tr, h, -⟩ := PerformTokenRefresh_world tok w
  rw [h]

@[simp] theorem PerformTokenRefresh_now (tok : String) (w : World) :
    (PerformTokenRefresh tok w).2.now = w.now := by
  simp [World.now, World.timeNowUnix]

@[simp] theorem PerformTokenRefresh_mkdirFault (tok : String) (w : World) :
    (PerformTokenRefresh tok w).2.mkdirFault = w.mkdirFault := by
  obtain ⟨ex, tr, h, -⟩ := PerformTokenRefresh_world tok w
  rw [h]

@[simp] theorem PerformTokenRefresh_writeFault (tok : String) (w : World) :
    (PerformTokenRefresh tok w).2.writeFault = w.writeFault := by
  obtain ⟨ex, tr, h, -⟩ := PerformTokenRefresh_world tok w
  rw [h]

@[simp] theorem PerformTokenRefresh_dirOf (tok : String) (w : World) :
    (PerformTokenRefresh tok w).2.dirOf = w.dirOf := by
  obtain ⟨ex, tr, h, -⟩ := PerformTokenRefresh_world tok w
  rw [h]

@[simp] theorem PerformTokenRefresh_isAncestor (tok : String) (w : World) :
    (PerformTokenRefresh tok w).2.isAncestor = w.isAncestor := by
  obtain ⟨ex, tr, h, -⟩ := PerformTokenRefresh_world tok w
  rw [h]

@[simp] theorem PerformTokenRefresh_refreshCalls (tok : String) (w : World) :
    (PerformTokenRefresh tok w).2.refreshCalls = w.refreshCalls + 1 := by
  obtain ⟨ex, tr, h, htr⟩ := PerformTokenRefresh_world tok w
  rw [h]
  have h0 : tr.countP Event.isRefresh = 0 := countP_eq_zero_of_forall (fun e he => (htr e he).1)
  simp [World.refreshCalls, List.countP_append, List.countP_cons, h0, Event.isRefresh]

@[simp] theorem PerformTokenRefresh_fsEffects (tok : String) (w : World) :
    (PerformTokenRefresh tok w).2.fsEffects = w.fsEffects := by
  obtain ⟨ex, tr, h, htr⟩ := PerformTokenRefresh_world tok w
  rw [h]
  have h0 : tr.countP Event.isFsEffect = 0 := countP_eq_zero_of_forall (fun e he => (htr e he).2)
  simp [World.fsEffects, List.countP_append, List.countP_cons, h0, Event.isFsEffect]

/-! ## The outcomes of saving and refreshing -/

theorem SaveTokenToPath_ok (tm : TokenManager) (p : String) (w : World) (hp : p ≠ "")
    (hmk : w.mkdirFault (w.dirOf p) = none) (hwr : w.writeFault p = none) :
    tm.SaveTokenToPath p w
      = (none, { tm with LastUpdatedTimestamp := w.now, loadedTokenPath := p },
          { w with ticks := w.ticks + 1,
                   fs := (w.fs.withDirs (w.dirOf p) (fun q => w.isAncestor q (w.dirOf p))).withFile p
                     ({ tm with LastUpdatedTimestamp := w.now }).toJson,
                   trace := w.trace ++ [Event.mkdirAll (w.dirOf p) tokenDirMode,
                     Event.writeFile p ({ tm with LastUpdatedTimestamp := w.now }).toJson
                       tokenFileMode] }) := by
  simp [TokenManager.SaveTokenToPath, hp, World.osMkdirAll, World.osWriteFile, hmk, hwr,
      World.timeNowUnix, TokenManager.jsonMarshalIndent, World.now, FS.withDirs]

theorem SaveTokenToPath_mkdir_fails (tm : TokenManager) (p : String) (w : World) (hp : p ≠ "")
    (e : Err) (hmk : w.mkdirFault (w.dirOf p) = some e) :
    tm.SaveTokenToPath p w
      = (some (.wrapf ("failed to create directory " ++ w.dirOf p)
            (.pathError "mkdir" (w.dirOf p) e)),
          { tm with LastUpdatedTimestamp := w.now },
          { w with ticks := w.ticks + 1,
                   trace := w.trace ++ [Event.mkdirAll (w.dirOf p) tokenDirMode] }) := by
  simp [TokenManager.SaveTokenToPath, hp, World.osMkdirAll, hmk,
      World.timeNowUnix, TokenManager.jsonMarshalIndent, World.now]

theorem SaveTokenToPath_write_fails (tm : TokenManager) (p : String) (w : World) (hp : p ≠ "")
    (e : Err) (hmk : w.mkdirFault (w.dirOf p) = none) (hwr : w.writeFault p = some e) :
    tm.SaveTokenToPath p w
      = (some (.wrapf ("failed to write token file " ++ p) (.pathError "open" p e)),
          { tm with LastUpdatedTimestamp := w.now },
          { w with ticks := w.ticks + 1,
                   fs := w.fs.withDirs (w.dirOf p) (fun q => w.isAncestor q (w.dirOf p)),
                   trace := w.trace ++ [Event.mkdirAll (w.dirOf p) tokenDirMode,
                     Event.writeFile p ({ tm with LastUpdatedTimestamp := w.now }).toJson
                       tokenFileMode] }) := by
  simp [TokenManager.SaveTokenToPath, hp, World.osMkdirAll, World.osWriteFile, hmk, hwr,
      World.timeNowUnix, TokenManager.jsonMarshalIndent, World.now]

/-- Whatever the outcome, `SaveTokenToPath` touches only the timestamp and the path of the
manager and never invokes the refresh transport. -/
theorem SaveTokenToPath_frame (tm : TokenManager) (p : String) (w : World) :
    (tm.SaveTokenToPath p w).2.1.AccessToken = tm.AccessToken
      ∧ (tm.SaveTokenToPath p w).2.1.RefreshToken = tm.RefreshToken
      ∧ (tm.SaveTokenToPath p w).2.1.Uid = tm.Uid
      ∧ (tm.SaveTokenToPath p w).2.1.Nickname = tm.Nickname
      ∧ (tm.SaveTokenToPath p w).2.2.refreshCalls = w.refreshCalls := by
  by_cases hp : p = ""
  · simp [TokenManager.SaveTokenToPath, hp]
  · cases hmk : w.mkdirFault (w.dirOf p) with
    | some e =>
      rw [SaveTokenToPath_mkdir_fails tm p w hp e hmk]
      simp [World.refreshCalls, List.countP_append, Event.isRefresh]
    | none =>
      cases hwr : w.writeFault p with
      | some e =>
        rw [SaveTokenToPath_write_fails tm p w hp e hmk hwr]
        simp [World.refreshCalls, List.countP_append, List.countP_cons, Event.isRefresh]
      | none =>
        rw [SaveTokenToPath_ok tm p w hp hmk hwr]
        simp [World.refreshCalls, List.countP_append, List.countP_cons, Event.isRefresh]

theorem RefreshAccessToken_empty (tm : TokenManager) (w : World) (h : tm.RefreshToken = "") :
    tm.RefreshAccessToken w
      = (some (.errorf "cannot refresh token: refresh token is empty"), tm, w) := by
  simp [TokenManager.RefreshAccessToken, h]

theorem RefreshAccessToken_transport_error (tm : TokenManager) (w : World) (e : Err)
    (hr : tm.RefreshToken ≠ "") (htr : (PerformTokenRefresh tm.RefreshToken w).1 = .error e) :
    tm.RefreshAccessToken w
      = (some (.wrapf "PerformTokenRefresh failed" e), tm,
          (PerformTokenRefresh tm.RefreshToken w).2) := by
  unfold TokenManager.RefreshAccessToken
  rw [if_neg hr]
  cases h : PerformTokenRefresh tm.RefreshToken w with
  | mk res w1 =>
    rw [h] at htr
    simp only at htr
    subst htr
    rfl

theorem RefreshAccessToken_memory_only (tm : TokenManager) (w : World) (a2 r2 : String)
    (hr : tm.RefreshToken ≠ "") (htr : (PerformTokenRefresh tm.RefreshToken w).1 = .ok (a2, r2))
    (hp : tm.loadedTokenPath = "") :
    tm.RefreshAccessToken w
      = (none, { tm with AccessToken := a2, RefreshToken := r2, LastUpdatedTimestamp := w.now },
          (PerformTokenRefresh tm.RefreshToken w).2.timeNowUnix.2) := by
  unfold TokenManager.RefreshAccessToken
  rw [if_neg hr]
  have hnow := PerformTokenRefresh_now tm.RefreshToken w
  cases h : PerformTokenRefresh tm.RefreshToken w with
  | mk res w1 =>
    rw [h] at htr hnow
    simp only at htr hnow
    subst htr
    simp [hp, hnow]

theorem RefreshAccessToken_saving (tm tm1 : TokenManager) (w w1 : World) (a2 r2 : String)
    (hr : tm.RefreshToken ≠ "") (htr : (PerformTokenRefresh tm.RefreshToken w).1 = .ok (a2, r2))
    (hp : tm.loadedTokenPath ≠ "")
    (htm1 : tm1 = { tm with AccessToken := a2, RefreshToken := r2, LastUpdatedTimestamp := w.now })
    (hw1 : w1 = (PerformTokenRefresh tm.RefreshToken w).2.timeNowUnix.2) :
    tm.RefreshAccessToken w
      = ((tm1.SaveTokenToPath tm.loadedTokenPath w1).1.map
            (fun err => Err.wrapf ("successfully refreshed token, but failed to save to file "
              ++ (tm1.SaveTokenToPath tm.loadedTokenPath w1).2.1.loadedTokenPath) err),
          (tm1.SaveTokenToPath tm.loadedTokenPath w1).2) := by
  subst htm1 hw1
  unfold TokenManager.RefreshAccessToken
  rw [if_neg hr]
  have hnow := PerformTokenRefresh_now tm.RefreshToken w
  cases h : PerformTokenRefresh tm.RefreshToken w with
  | mk res w1 =>
    rw [h] at htr hnow
    simp only at htr hnow
    subst htr
    simp only [timeNowUnix_fst, hnow, if_neg hp]
    split <;> rename_i heq <;> simp [heq]

/-! ## The freshness test -/

@[simp] theorem timeNowUnix_refreshCalls (w : World) :
    w.timeNowUnix.2.refreshCalls = w.refreshCalls := rfl
@[simp] theorem timeNowUnix_fsEffects (w : World) :
    w.timeNowUnix.2.fsEffects = w.fsEffects := rfl
@[simp] theorem timeNowUnix_mkdirFault (w : World) :
    w.timeNowUnix.2.mkdirFault = w.mkdirFault := rfl
@[simp] theorem timeNowUnix_writeFault (w : World) :
    w.timeNowUnix.2.writeFault = w.writeFault := rfl
@[simp] theorem timeNowUnix_dirOf (w : World) : w.timeNowUnix.2.dirOf = w.dirOf := rfl
@[simp] theorem timeNowUnix_isAncestor (w : World) :
    w.timeNowUnix.2.isAncestor = w.isAncestor := rfl
@[simp] theorem timeNowUnix_clock (w : World) : w.timeNowUnix.2.clock = w.clock := rfl
@[simp] theorem timeNowUnix_ticks (w : World) : w.timeNowUnix.2.ticks = w.ticks + 1 := rfl

/-- A pair that `PerformTokenRefresh` returns without error has two non-empty tokens. -/
theorem PerformTokenRefresh_ok_nonempty (tok : String) (w : World) (a2 r2 : String)
    (h : (PerformTokenRefresh tok w).1 = .ok (a2, r2)) : a2 ≠ "" ∧ r2 ≠ "" := by
  unfold PerformTokenRefresh at h
  simp only [World.httpNewRequest, World.httpDo] at h
  split at h
  · simp at h
  · split at h
    · simp at h
    · simp at h
    · split at h
      · simp at h
      · split at h
        · simp at h
        · split at h
          · simp at h
          · split at h
            · simp at h
            · rename_i hne
              simp at h
              rw [← h.1, ← h.2]
              simpa [not_or] using hne

/-- The staleness test of `GetAccessToken` agrees with the plain comparison of the age
with 1200 seconds when the age exceeds 1200, and when the clock is not before the epoch. -/
theorem stale_of_age (w : World) (t : Int) (ht : 0 < t) (h : w.now - t > 1200) :
    t > 0 ∧ wrapInt64 (w.now - t) > tokenTimeoutSeconds := by
  have hn := isInt64_now w
  unfold isInt64 at hn
  unfold wrapInt64 tokenTimeoutSeconds
  omega

theorem not_stale_of_age (w : World) (t : Int) (ht64 : isInt64 t) (ht : 0 < t)
    (hnow : 0 ≤ w.now) (h : w.now - t ≤ 1200) :
    ¬ (t > 0 ∧ wrapInt64 (w.now - t) > tokenTimeoutSeconds) := by
  have hn := isInt64_now w
  unfold isInt64 at hn ht64
  unfold wrapInt64 tokenTimeoutSeconds
  omega

theorem GetAccessToken_fresh (tm : TokenManager) (w : World) (ha : tm.AccessToken ≠ "")
    (h : ¬ (tm.LastUpdatedTimestamp > 0 ∧
      wrapInt64 (w.now - tm.LastUpdatedTimestamp) > tokenTimeoutSeconds)) :
    tm.GetAccessToken w = ((tm.AccessToken, none), tm, w.timeNowUnix.2) := by
  unfold TokenManager.GetAccessToken
  rw [if_neg ha]
  simp only [timeNowUnix_fst]
  rw [if_neg h]

theorem GetAccessToken_stale (tm : TokenManager) (w : World) (ha : tm.AccessToken ≠ "")
    (h : tm.LastUpdatedTimestamp > 0 ∧
      wrapInt64 (w.now - tm.LastUpdatedTimestamp) > tokenTimeoutSeconds) :
    tm.GetAccessToken w
      = ((match (tm.RefreshAccessToken w.timeNowUnix.2).1 with
          | some err =>
            ("", some (.wrapf "failed to refresh token, authentication may be required" err))
          | none =>
            if (tm.RefreshAccessToken w.timeNowUnix.2).2.1.AccessToken = "" then
              ("", some (.errorf "authentication failed: token became empty after refresh"))
            else ((tm.RefreshAccessToken w.timeNowUnix.2).2.1.AccessToken, none)),
         (tm.RefreshAccessToken w.timeNowUnix.2).2) := by
  unfold TokenManager.GetAccessToken
  rw [if_neg ha]
  simp only [timeNowUnix_fst]
  rw [if_pos h]
  split
  · rename_i heq
    simp [heq]
  · rename_i heq
    simp only [heq]
    split <;> rfl

theorem RefreshAccessToken_refreshCalls (tm : TokenManager) (w : World)
    (hr : tm.RefreshToken ≠ "") :
    (tm.RefreshAccessToken w).2.2.refreshCalls = w.refreshCalls + 1 := by
  cases htr : (PerformTokenRefresh tm.RefreshToken w).1 with
  | error e =>
    rw [RefreshAccessToken_transport_error tm w e hr htr]
    simp
  | ok pair =>
    obtain ⟨a2, r2⟩ := pair
    by_cases hp : tm.loadedTokenPath = ""
    · rw [RefreshAccessToken_memory_only tm w a2 r2 hr htr hp]
      simp
    · rw [RefreshAccessToken_saving tm _ w _ a2 r2 hr htr hp rfl rfl]
      simp [(SaveTokenToPath_frame _ _ _).2.2.2.2]

/-! ## Error chains and the codec -/

theorem Err.Is_self (e : Err) : e.Is e = true := by
  cases e <;> simp [Err.Is]

theorem Err.Is_wrapf_of_Is (msg : String) (c target : Err) (h : c.Is target = true) :
    (Err.wrapf msg c).Is target = true := by
  simp [Err.Is, h]

/-- Decoding the encoding of a credential `c` into a manager `m`: the four strings of `c`
replace those of `m`; the timestamp of `c` replaces that of `m` unless it is zero, in
which case it was not written and `m` keeps its own. -/
theorem jsonUnmarshal_toJson (c m : TokenManager) (h64 : isInt64 c.LastUpdatedTimestamp) :
    m.jsonUnmarshal c.toJson
      = ({ AccessToken := c.AccessToken, RefreshToken := c.RefreshToken, Uid := c.Uid,
           Nickname := c.Nickname,
           LastUpdatedTimestamp :=
             if c.LastUpdatedTimestamp = 0 then m.LastUpdatedTimestamp
             else c.LastUpdatedTimestamp,
           loadedTokenPath := m.loadedTokenPath }, none) := by
  have f1 : findField tokenFields "access_token" = some .AccessToken := by decide
  have f2 : findField tokenFields "refresh_token" = some .RefreshToken := by decide
  have f3 : findField tokenFields "uid" = some .Uid := by decide
  have f4 : findField tokenFields "nickname" = some .Nickname := by decide
  have f5 : findField tokenFields "last_updated_timestamp" = some .LastUpdatedTimestamp := by
    decide
  by_cases h0 : c.LastUpdatedTimestamp = 0
  · simp [TokenManager.jsonUnmarshal, jsonUnmarshal, TokenManager.toJson, decodeMembers,
      f1, f2, f3, f4, TokenManager.store, h0]
  · simp [TokenManager.jsonUnmarshal, jsonUnmarshal, TokenManager.toJson, decodeMembers,
      f1, f2, f3, f4, f5, TokenManager.store, h0, h64]

/-! ## Timestamps, and the answers of the refresh endpoint -/

theorem now_eq_readingAt (w : World) : w.now = w.readingAt w.ticks := rfl

@[simp] theorem timeNowUnix_readingAt (w : World) (k : Nat) :
    w.timeNowUnix.2.readingAt k = w.readingAt k := rfl

@[simp] theorem PerformTokenRefresh_readingAt (tok : String) (w : World) (k : Nat) :
    (PerformTokenRefresh tok w).2.readingAt k = w.readingAt k := by
  simp [World.readingAt]

/-- The timestamp after `SaveTokenToPath` is the old one or the reading the call took. -/
theorem SaveTokenToPath_timestamp (tm : TokenManager) (p : String) (w : World) :
    (tm.SaveTokenToPath p w).2.1.LastUpdatedTimestamp = tm.LastUpdatedTimestamp
      ∨ (tm.SaveTokenToPath p w).2.1.LastUpdatedTimestamp = w.readingAt w.ticks := by
  by_cases hp : p = ""
  · left
    simp [TokenManager.SaveTokenToPath, hp]
  · right
    cases hmk : w.mkdirFault (w.dirOf p) with
    | some e => rw [SaveTokenToPath_mkdir_fails tm p w hp e hmk]; rfl
    | none =>
      cases hwr : w.writeFault p with
      | some e => rw [SaveTokenToPath_write_fails tm p w hp e hmk hwr]; rfl
      | none => rw [SaveTokenToPath_ok tm p w hp hmk hwr]; rfl

/-- The timestamp after `RefreshAccessToken` is the old one or one of the two readings the
call can take. -/
theorem RefreshAccessToken_timestamp (tm : TokenManager) (w : World) :
    (tm.RefreshAccessToken w).2.1.LastUpdatedTimestamp = tm.LastUpdatedTimestamp
      ∨ (tm.RefreshAccessToken w).2.1.LastUpdatedTimestamp = w.readingAt w.ticks
      ∨ (tm.RefreshAccessToken w).2.1.LastUpdatedTimestamp = w.readingAt (w.ticks + 1) := by
  by_cases hr : tm.RefreshToken = ""
  · left
    rw [RefreshAccessToken_empty tm w hr]
  · cases htr : (PerformTokenRefresh tm.RefreshToken w).1 with
    | error e =>
      left
      rw [RefreshAccessToken_transport_error tm w e hr htr]
    | ok pair =>
      obtain ⟨a2, r2⟩ := pair
      by_cases hp : tm.loadedTokenPath = ""
      · right; left
        rw [RefreshAccessToken_memory_only tm w a2 r2 hr htr hp]
        rfl
      · rw [RefreshAccessToken_saving tm _ w _ a2 r2 hr htr hp rfl rfl]
        rcases SaveTokenToPath_timestamp
          { tm with AccessToken := a2, RefreshToken := r2, LastUpdatedTimestamp := w.now }
          tm.loadedTokenPath (PerformTokenRefresh tm.RefreshToken w).2.timeNowUnix.2 with h | h
        · right; left
          rw [h]
          rfl
        · right; right
          rw [h]
          simp [now_eq_readingAt]

/-- The timestamp after `GetAccessToken` is the old one or one of the two readings a
refresh can take after the reading of the freshness test. -/
theorem GetAccessToken_timestamp (tm : TokenManager) (w : World) :
    (tm.GetAccessToken w).2.1.LastUpdatedTimestamp = tm.LastUpdatedTimestamp
      ∨ (tm.GetAccessToken w).2.1.LastUpdatedTimestamp = w.readingAt (w.ticks + 1)
      ∨ (tm.GetAccessToken w).2.1.LastUpdatedTimestamp = w.readingAt (w.ticks + 2) := by
  by_cases ha : tm.AccessToken = ""
  · left
    simp [TokenManager.GetAccessToken, ha]
  · by_cases hst : tm.LastUpdatedTimestamp > 0 ∧
        wrapInt64 (w.now - tm.LastUpdatedTimestamp) > tokenTimeoutSeconds
    · rw [GetAccessToken_stale tm w ha hst]
      simpa [now_eq_readingAt] using RefreshAccessToken_timestamp tm w.timeNowUnix.2
    · left
      rw [GetAccessToken_fresh tm w ha hst]

/-- A pair that `PerformTokenRefresh` returns without error was decoded from the body of
an answer with status 200 that says `success: true`. -/
theorem PerformTokenRefresh_ok_answer (tok : String) (w : World) (a r : String)
    (h : (PerformTokenRefresh tok w).1 = .ok (a, r)) :
    ∃ body, w.refreshAnswer tok = .response 200 body
      ∧ decodeRefreshBody body
          = ({ Success := true, XJikeAccessToken := a, XJikeRefreshToken := r }, none) := by
  unfold PerformTokenRefresh at h
  simp only [World.httpNewRequest, World.httpDo] at h
  split at h
  · simp at h
  · rename_i req0 hreq
    split at hreq
    · simp at hreq
    · simp only [Except.ok.injEq] at hreq
      subst hreq
      simp only [List.nil_append] at h
      split at h
      · simp at h
      · simp at h
      · rename_i status body w1 hans
        simp only [Prod.mk.injEq] at hans
        split at h
        · simp at h
        · rename_i hstatus
          simp only [ne_eq, Decidable.not_not] at hstatus
          subst hstatus
          split at h
          · simp at h
          · rename_i apiResp hdec
            split at h
            · simp at h
            · rename_i hsucc
              split at h
              · simp at h
              · simp only [Except.ok.injEq, Prod.mk.injEq] at h
                refine ⟨body, hans.1, ?_⟩
                unfold decodeRefreshBody
                rw [hdec]
                obtain ⟨s, x, y⟩ := apiResp
                simp only at h hsucc
                have hs : s = true := by
                  cases s
                  · simp at hsucc
                  · rfl
                simp [h.1, h.2, hs]

/-- An answer with status 200 whose decoded body holds an empty access or refresh token
makes `PerformTokenRefresh` return an error. -/
theorem PerformTokenRefresh_empty_token_error (tok : String) (w : World) (body : JsonText)
    (resp : RefreshTokenAPIResponse)
    (hans : w.refreshAnswer tok = .response 200 body)
    (hdec : decodeRefreshBody body = (resp, none))
    (hempty : resp.XJikeAccessToken = "" ∨ resp.XJikeRefreshToken = "") :
    ∃ e, (PerformTokenRefresh tok w).1 = .error e := by
  cases hres : (PerformTokenRefresh tok w).1 with
  | error e => exact ⟨e, rfl⟩
  | ok pair =>
    obtain ⟨a, r⟩ := pair
    obtain ⟨body2, hans2, hdec2⟩ := PerformTokenRefresh_ok_answer tok w a r hres
    have hne := PerformTokenRefresh_ok_nonempty tok w a r hres
    rw [hans] at hans2
    simp only [HttpOutcome.response.injEq, true_and] at hans2
    subst hans2
    rw [hdec] at hdec2
    simp only [Prod.mk.injEq, and_true] at hdec2
    subst hdec2
    simp only at hempty
    rcases hempty with h | h
    · exact absurd h hne.1
    · exact absurd h hne.2

@[simp] theorem PerformTokenRefresh_timeNowUnix_ticks (tok : String) (w : World) :
    (PerformTokenRefresh tok w).2.timeNowUnix.2.ticks = w.ticks + 1 := by
  simp

/-- After a `GetAccessToken` that returned no error and invoked the transport, the manager
holds the token that was returned and the last clock reading the call took. -/
theorem GetAccessToken_refreshed (tm : TokenManager) (w : World)
    (hsucc : (tm.GetAccessToken w).1.2 = none)
    (hdid : (tm.GetAccessToken w).2.2.refreshCalls = w.refreshCalls + 1) :
    (tm.GetAccessToken w).2.1.AccessToken ≠ ""
      ∧ (tm.GetAccessToken w).1.1 = (tm.GetAccessToken w).2.1.AccessToken
      ∧ w.ticks < (tm.GetAccessToken w).2.2.ticks
      ∧ (tm.GetAccessToken w).2.1.LastUpdatedTimestamp
          = w.readingAt ((tm.GetAccessToken w).2.2.ticks - 1) := by
  by_cases ha : tm.AccessToken = ""
  · simp [TokenManager.GetAccessToken, ha] at hsucc
  by_cases hst : tm.LastUpdatedTimestamp > 0 ∧
      wrapInt64 (w.now - tm.LastUpdatedTimestamp) > tokenTimeoutSeconds
  swap
  · rw [GetAccessToken_fresh tm w ha hst] at hdid
    simp at hdid
  rw [GetAccessToken_stale tm w ha hst] at hsucc ⊢
  by_cases hr : tm.RefreshToken = ""
  · rw [RefreshAccessToken_empty tm _ hr] at hsucc
    simp at hsucc
  cases htr : (PerformTokenRefresh tm.RefreshToken w.timeNowUnix.2).1 with
  | error e =>
    rw [RefreshAccessToken_transport_error tm _ e hr htr] at hsucc
    simp at hsucc
  | ok pair =>
    obtain ⟨a2, r2⟩ := pair
    have hne := PerformTokenRefresh_ok_nonempty _ _ a2 r2 htr
    by_cases hp : tm.loadedTokenPath = ""
    · rw [RefreshAccessToken_memory_only tm _ a2 r2 hr htr hp]
      refine ⟨by simp [hne.1], by simp [hne.1], by simp; omega, by simp [now_eq_readingAt]⟩
    · rw [RefreshAccessToken_saving tm _ _ _ a2 r2 hr htr hp rfl rfl] at hsucc ⊢
      cases hmk : w.mkdirFault (w.dirOf tm.loadedTokenPath) with
      | some e =>
        rw [SaveTokenToPath_mkdir_fails _ _ _ hp e (by simpa using hmk)] at hsucc
        simp at hsucc
      | none =>
        cases hwr : w.writeFault tm.loadedTokenPath with
        | some e =>
          rw [SaveTokenToPath_write_fails _ _ _ hp e (by simpa using hmk)
            (by simpa using hwr)] at hsucc
          simp at hsucc
        | none =>
          rw [SaveTokenToPath_ok _ _ _ hp (by simpa using hmk) (by simpa using hwr)]
          refine ⟨by simp [hne.1], by simp [hne.1], by simp; omega,
            by simp [now_eq_readingAt]⟩

/-! ## The credential invariant, step by step -/

/-- The tokens after `RefreshAccessToken` are those before the call or a pair of two
non-empty tokens. -/
theorem RefreshAccessToken_tokens (tm : TokenManager) (w : World) :
    ((tm.RefreshAccessToken w).2.1.AccessToken = tm.AccessToken
        ∧ (tm.RefreshAccessToken w).2.1.RefreshToken = tm.RefreshToken)
      ∨ ((tm.RefreshAccessToken w).2.1.AccessToken ≠ ""
        ∧ (tm.RefreshAccessToken w).2.1.RefreshToken ≠ "") := by
  by_cases hr : tm.RefreshToken = ""
  · left
    rw [RefreshAccessToken_empty tm w hr]
    exact ⟨rfl, rfl⟩
  · cases htr : (PerformTokenRefresh tm.RefreshToken w).1 with
    | error e =>
      left
      rw [RefreshAccessToken_transport_error tm w e hr htr]
      exact ⟨rfl, rfl⟩
    | ok pair =>
      obtain ⟨a2, r2⟩ := pair
      have hne := PerformTokenRefresh_ok_nonempty _ w a2 r2 htr
      right
      by_cases hp : tm.loadedTokenPath = ""
      · rw [RefreshAccessToken_memory_only tm w a2 r2 hr htr hp]
        exact hne
      · rw [RefreshAccessToken_saving tm _ w _ a2 r2 hr htr hp rfl rfl]
        have hf := SaveTokenToPath_frame
          { tm with AccessToken := a2, RefreshToken := r2, LastUpdatedTimestamp := w.now }
          tm.loadedTokenPath (PerformTokenRefresh tm.RefreshToken w).2.timeNowUnix.2
        simp only at hf ⊢
        rw [hf.1, hf.2.1]
        exact hne

/-- Every step of the manager keeps the credential empty or complete, except a
`LoadTokenFromPath` that returns an error. -/
theorem emptyOrComplete_preserved (tm : TokenManager) (p : String) (w : World)
    (h : tm.emptyOrComplete) :
    (tm.SaveTokenToPath p w).2.1.emptyOrComplete
      ∧ (tm.RefreshAccessToken w).2.1.emptyOrComplete
      ∧ (tm.GetAccessToken w).2.1.emptyOrComplete
      ∧ ((tm.LoadTokenFromPath p w).1 = none → (tm.LoadTokenFromPath p w).2.1.emptyOrComplete) := by
  have hrefresh : ∀ w1 : World, (tm.RefreshAccessToken w1).2.1.emptyOrComplete := by
    intro w1
    rcases RefreshAccessToken_tokens tm w1 with hk | hk
    · unfold TokenManager.emptyOrComplete at h ⊢
      rw [hk.1, hk.2]
      exact h
    · exact Or.inr hk
  refine ⟨?_, hrefresh w, ?_, ?_⟩
  · have hf := SaveTokenToPath_frame tm p w
    unfold TokenManager.emptyOrComplete at h ⊢
    rw [hf.1, hf.2.1]
    exact h
  · by_cases ha : tm.AccessToken = ""
    · simpa [TokenManager.GetAccessToken, ha] using h
    · by_cases hst : tm.LastUpdatedTimestamp > 0 ∧
          wrapInt64 (w.now - tm.LastUpdatedTimestamp) > tokenTimeoutSeconds
      · rw [GetAccessToken_stale tm w ha hst]
        exact hrefresh _
      · rw [GetAccessToken_fresh tm w ha hst]
        exact h
  · intro hok
    unfold TokenManager.LoadTokenFromPath at hok ⊢
    by_cases hp : p = ""
    · simp [hp] at hok
    · simp only [if_neg hp] at hok ⊢
      cases hrd : w.osReadFile p with
      | error e =>
        simp only [hrd] at hok
        split at hok <;> simp at hok
      | ok data =>
        simp only [hrd] at hok ⊢
        rcases hdec : tm.jsonUnmarshal data with ⟨tm1, e⟩
        rw [hdec] at hok
        cases e with
        | some err => simp at hok
        | none =>
          simp only at hok ⊢
          by_cases hc : tm1.AccessToken = "" ∨ tm1.RefreshToken = ""
          · simp [hc] at hok
          · simp only [if_neg hc]
            right
            exact ⟨fun h1 => hc (Or.inl h1), fun h2 => hc (Or.inr h2)⟩

/-! ## The operations of the API, the handler and the login loop -/

theorem GetTokenManager_err (g : Globals) : (GetTokenManager g).1.2 = g.initErr := by
  unfold GetTokenManager
  split <;> rfl

/-- A `LoadTokenFromPath` that returns an error without having decoded a JSON object (the
path is empty, the read fails, the content is not JSON or not an object) leaves the manager
as it was. -/
theorem LoadTokenFromPath_error_without_object (tm : TokenManager) (p : String) (w : World)
    (hobj : ∀ members, w.osReadFile p ≠ .ok (.object members))
    (herr : (tm.LoadTokenFromPath p w).1 ≠ none) :
    (tm.LoadTokenFromPath p w).2.1 = tm := by
  unfold TokenManager.LoadTokenFromPath at herr ⊢
  by_cases hp : p = ""
  · simp [hp]
  · simp only [if_neg hp] at herr ⊢
    cases hrd : w.osReadFile p with
    | error e =>
      simp only []
      split <;> rfl
    | ok data =>
      simp only [hrd] at herr ⊢
      cases data with
      | malformed => rfl
      | other => rfl
      | object members => exact absurd hrd (hobj members)
      | null =>
        simp only [TokenManager.jsonUnmarshal, jsonUnmarshal] at herr ⊢
        by_cases hc : tm.AccessToken = "" ∨ tm.RefreshToken = ""
        · simp [hc]
        · simp [hc] at herr

/-- The order the handler puts in the request, from the argument `order`: the string given
when it is a non-empty string, and `desc` when it is absent, empty or not a string. -/
theorem orderOf_cases (v : Option ArgValue) :
    ((assertString v).2 = true ∧ (assertString v).1 ≠ "" ∧
        ∃ o, v = some (.str o) ∧ (assertString v).1 = o) ∨
    (¬ ((assertString v).2 = true ∧ (assertString v).1 ≠ "") ∧
        (v = none ∨ v = some (.str "") ∨ ∀ o, v ≠ some (.str o))) := by
  rcases v with _ | v
  · right; simp [assertString]
  · cases v with
    | str s =>
      by_cases hs : s = ""
      · right; subst hs; simp [assertString]
      · left; simp [assertString, hs]
    | map entries => right; simp [assertString]
    | nilMap => right; simp [assertString]
    | other => right; simp [assertString]

/-- The request after `load_more_key` has been read keeps its PID, Order and Limit. -/
theorem withLoadMoreKey_keeps (arguments : Arguments) (r : EpisodeListRequest) :
    (withLoadMoreKey arguments r).PID = r.PID ∧ (withLoadMoreKey arguments r).Order = r.Order ∧
    (withLoadMoreKey arguments r).Limit = r.Limit := by
  have aux : ∀ (c : Prop) [Decidable c] (k : LoadMoreKey),
      (if c then { r with LoadMoreKey := some k } else r).PID = r.PID ∧
      (if c then { r with LoadMoreKey := some k } else r).Order = r.Order ∧
      (if c then { r with LoadMoreKey := some k } else r).Limit = r.Limit := by
    intro c _ k
    by_cases hc : c <;> simp [hc]
  unfold withLoadMoreKey
  split
  · exact aux _ _
  · simp

/-- A valid verification code is four characters, each of them one of the ten digits. -/
theorem isValidVerificationCode_spec (code : String) (hv : isValidVerificationCode code = true) :
    code.data.length = 4 ∧ ∀ ch ∈ code.data, '0' ≤ ch ∧ ch ≤ '9' := by
  unfold isValidVerificationCode at hv
  rw [Bool.and_eq_true, decide_eq_true_eq, List.all_eq_true] at hv
  refine ⟨hv.1, fun ch hch => ?_⟩
  have := hv.2 ch hch
  unfold isDigit at this
  exact of_decide_eq_true this

/-- The code the third loop passes on is a valid one. -/
theorem readVerificationCode_valid (h : Host) (stdin : List String) (code : String)
    (rest : List String) (hr : readVerificationCode h stdin = (some code, rest)) :
    isValidVerificationCode code = true := by
  induction stdin with
  | nil =>
    unfold readVerificationCode at hr
    by_cases hv : isValidVerificationCode (h.trimSpace "") = true
    · rw [if_pos hv] at hr
      cases hr
      exact hv
    · rw [if_neg hv] at hr
      cases hr
  | cons input tail ih =>
    unfold readVerificationCode at hr
    by_cases hv : isValidVerificationCode (h.trimSpace input) = true
    · rw [if_pos hv] at hr
      cases hr
      exact hv
    · rw [if_neg hv] at hr
      exact ih hr

/-- The third loop, from any state: what it adds to the log of invocations, and what it
does to the manager and to the world. -/
theorem verificationLoop_facts (h : Host) (api : AuthApi) (areaCode phoneNumber : String)
    (I : World → Prop)
    (hI : ∀ a p c w, I w → I (api.LoginWithCode a p c w).2)
    (remaining : Nat) :
    ∀ (stdin : List String) (tm : TokenManager) (w : World) (calls : List LoginCall),
    ∃ added : List LoginCall,
      (verificationLoop h api areaCode phoneNumber remaining stdin tm w calls).calls
        = calls ++ added ∧
      added.length ≤ remaining ∧
      (∀ c ∈ added, isValidVerificationCode c.code = true) ∧
      ((verificationLoop h api areaCode phoneNumber remaining stdin tm w calls).loginSuccessful
          = false →
        (verificationLoop h api areaCode phoneNumber remaining stdin tm w calls).tm = tm ∧
        ∀ c ∈ added, c.succeeded = false) ∧
      ((verificationLoop h api areaCode phoneNumber remaining stdin tm w calls).loginSuccessful
          = true →
        (verificationLoop h api areaCode phoneNumber remaining stdin tm w calls).ending
          = .returned ∧
        ∃ c, added.getLast? = some c ∧ c.result = .ok
          ((verificationLoop h api areaCode phoneNumber remaining stdin tm w calls).tm.AccessToken,
           (verificationLoop h api areaCode phoneNumber remaining stdin tm w calls).tm.RefreshToken,
           (verificationLoop h api areaCode phoneNumber remaining stdin tm w calls).tm.Uid,
           (verificationLoop h api areaCode phoneNumber remaining stdin tm w calls).tm.Nickname)) ∧
      (0 < remaining → added.length = remaining → (∀ c ∈ added, c.succeeded = false) →
        (verificationLoop h api areaCode phoneNumber remaining stdin tm w calls).ending
          = .exited 1) ∧
      (I w → I (verificationLoop h api areaCode phoneNumber remaining stdin tm w calls).w) := by
  induction remaining with
  | zero =>
    intro stdin tm w calls
    refine ⟨[], ?_⟩
    simp [verificationLoop]
  | succ n ih =>
    intro stdin tm w calls
    unfold verificationLoop
    rcases hread : readVerificationCode h stdin with ⟨_ | code, stdin1⟩
    · refine ⟨[], ?_⟩
      simp
    · have hvalid := readVerificationCode_valid h stdin code stdin1 hread
      dsimp only
      rcases hlogin : api.LoginWithCode areaCode phoneNumber code w with ⟨res, w1⟩
      have hw1 : I w → I w1 := by
        intro hw
        have := hI areaCode phoneNumber code w hw
        rw [hlogin] at this
        exact this
      rcases res with err | ⟨accessToken, refreshToken, uid, nickname⟩
      · dsimp only
        by_cases hn : 0 < n
        · rw [if_pos hn]
          obtain ⟨added, h1, h2, h3, h4, h5, h6, h7⟩ := ih stdin1 tm w1
            (calls ++ [⟨areaCode, phoneNumber, code, .error err⟩])
          refine ⟨⟨areaCode, phoneNumber, code, .error err⟩ :: added, ?_, ?_, ?_, ?_, ?_, ?_, ?_⟩
          · rw [h1]; simp
          · simp; omega
          · intro c hc
            rcases List.mem_cons.mp hc with rfl | hc
            · exact hvalid
            · exact h3 c hc
          · intro hs
            refine ⟨(h4 hs).1, ?_⟩
            intro c hc
            rcases List.mem_cons.mp hc with rfl | hc
            · rfl
            · exact (h4 hs).2 c hc
          · intro hs
            obtain ⟨he, c, hc, hres⟩ := h5 hs
            refine ⟨he, c, ?_, hres⟩
            rw [List.getLast?_cons, hc]
            rfl
          · intro _ hlen hall
            refine h6 hn ?_ ?_
            · simp at hlen; exact hlen
            · intro c hc
              exact hall c (List.mem_cons_of_mem _ hc)
          · intro hw
            exact h7 (hw1 hw)
        · rw [if_neg hn]
          refine ⟨[⟨areaCode, phoneNumber, code, .error err⟩], ?_⟩
          refine ⟨rfl, by simp, ?_, ?_, ?_, ?_, ?_⟩
          · intro c hc
            rcases List.mem_singleton.mp hc with rfl
            exact hvalid
          · intro _
            refine ⟨rfl, ?_⟩
            intro c hc
            rcases List.mem_singleton.mp hc with rfl
            rfl
          · intro hs
            cases hs
          · intro _ _ _
            rfl
          · exact hw1
      · dsimp only
        refine ⟨[⟨areaCode, phoneNumber, code, .ok (accessToken, refreshToken, uid, nickname)⟩], ?_⟩
        refine ⟨rfl, by simp, ?_, ?_, ?_, ?_, ?_⟩
        · intro c hc
          rcases List.mem_singleton.mp hc with rfl
          exact hvalid
        · intro hs
          cases hs
        · intro _
          exact ⟨rfl, _, rfl, rfl⟩
        · intro _ _ hall
          have := hall _ (List.mem_singleton.mpr rfl)
          cases this
        · exact hw1

/-! ## The claims -/

/-- C1: with an empty AccessToken, and so on the manager the first `GetTokenManager` call
creates, `GetAccessToken` returns the empty string and the error "not authenticated",
and neither the manager nor the world changes: the transport is not invoked, the clock is
not read and nothing is written. -/
theorem C1_empty_access_token_unauthenticated (tm : TokenManager) (w : World)
    (h : tm.AccessToken = "") :
    tm.GetAccessToken w
        = (("", some (.errorf "not authenticated: access token is empty")), tm, w)
      ∧ (tm.GetAccessToken w).2.2.refreshCalls = w.refreshCalls
      ∧ (tm.GetAccessToken w).2.2.fsEffects = w.fsEffects
      ∧ (GetTokenManager Globals.start).1.1.GetAccessToken w
        = (("", some (.errorf "not authenticated: access token is empty")),
            (GetTokenManager Globals.start).1.1, w) := by
  have h1 : tm.GetAccessToken w
      = (("", some (.errorf "not authenticated: access token is empty")), tm, w) := by
    simp [TokenManager.GetAccessToken, h]
  refine ⟨h1, ?_, ?_, ?_⟩
  · rw [h1]
  · rw [h1]
  · simp [TokenManager.GetAccessToken, GetTokenManager, Globals.start]

/-- C1, witness: the theorem at a sample input. -/
theorem C1_empty_access_token_unauthenticated_witness :
    emptyManager.GetAccessToken sampleWorld
        = (("", some (.errorf "not authenticated: access token is empty")), emptyManager, sampleWorld)
      ∧ (emptyManager.GetAccessToken sampleWorld).2.2.refreshCalls = sampleWorld.refreshCalls
      ∧ (emptyManager.GetAccessToken sampleWorld).2.2.fsEffects = sampleWorld.fsEffects
      ∧ (GetTokenManager Globals.start).1.1.GetAccessToken sampleWorld
        = (("", some (.errorf "not authenticated: access token is empty")),
            (GetTokenManager Globals.start).1.1, sampleWorld) :=
  C1_empty_access_token_unauthenticated emptyManager sampleWorld rfl

/-- C2: for a manager with both tokens non-empty and a positive LastUpdatedTimestamp `t`,
`GetAccessToken` invokes the refresh transport exactly once when the clock reads more than
1200 seconds after `t`, and not at all when it reads at most 1200 seconds after `t`
(`t` in the future included), the clock not being before the epoch. -/
theorem C2_refresh_exactly_when_older_than_window (tm : TokenManager) (w : World)
    (ha : tm.AccessToken ≠ "") (hr : tm.RefreshToken ≠ "")
    (ht : 0 < tm.LastUpdatedTimestamp) (ht64 : isInt64 tm.LastUpdatedTimestamp) :
    (w.now - tm.LastUpdatedTimestamp > 1200 →
        (tm.GetAccessToken w).2.2.refreshCalls = w.refreshCalls + 1)
      ∧ (0 ≤ w.now → w.now - tm.LastUpdatedTimestamp ≤ 1200 →
        (tm.GetAccessToken w).2.2.refreshCalls = w.refreshCalls) := by
  constructor
  · intro hage
    rw [GetAccessToken_stale tm w ha (stale_of_age w _ ht hage)]
    simp [RefreshAccessToken_refreshCalls tm _ hr]
  · intro hnow hage
    rw [GetAccessToken_fresh tm w ha (not_stale_of_age w _ ht64 ht hnow hage)]
    simp

/-- C2, witness: one refresh at an age of 21 minutes, none at 19 minutes, at exactly 20
minutes and for a timestamp in the future. -/
theorem C2_refresh_exactly_when_older_than_window_witness :
    (sampleWorld.now - justStaleManager.LastUpdatedTimestamp = 21 * 60
      ∧ (justStaleManager.GetAccessToken sampleWorld).2.2.refreshCalls
          = sampleWorld.refreshCalls + 1)
    ∧ (sampleWorld.now - freshManager.LastUpdatedTimestamp = 19 * 60
      ∧ (freshManager.GetAccessToken sampleWorld).2.2.refreshCalls = sampleWorld.refreshCalls)
    ∧ (sampleWorld.now - boundaryManager.LastUpdatedTimestamp = 20 * 60
      ∧ (boundaryManager.GetAccessToken sampleWorld).2.2.refreshCalls
          = sampleWorld.refreshCalls)
    ∧ (sampleWorld.now < futureManager.LastUpdatedTimestamp
      ∧ (futureManager.GetAccessToken sampleWorld).2.2.refreshCalls
          = sampleWorld.refreshCalls) :=
  ⟨⟨by decide, (C2_refresh_exactly_when_older_than_window justStaleManager sampleWorld
      (by decide) (by decide) (by decide) (by decide)).1 (by decide)⟩,
   ⟨by decide, (C2_refresh_exactly_when_older_than_window freshManager sampleWorld
      (by decide) (by decide) (by decide) (by decide)).2 (by decide) (by decide)⟩,
   ⟨by decide, (C2_refresh_exactly_when_older_than_window boundaryManager sampleWorld
      (by decide) (by decide) (by decide) (by decide)).2 (by decide) (by decide)⟩,
   ⟨by decide, (C2_refresh_exactly_when_older_than_window futureManager sampleWorld
      (by decide) (by decide) (by decide) (by decide)).2 (by decide) (by decide)⟩⟩

/-- C3: for a stale complete credential with a loadedTokenPath `p`, when the refresh
transport returns the pair `(a2, r2)` and the operating system refuses neither the creation
of the directory nor the write, `GetAccessToken` returns `a2` without error and the file at
`p` is afterwards the JSON object with `access_token` = `a2`, `refresh_token` = `r2`, the
unchanged `uid` and `nickname`, and the new timestamp. -/
theorem C3_stale_refresh_returns_and_persists_new_pair (tm : TokenManager) (w : World)
    (a2 r2 : String)
    (ha : tm.AccessToken ≠ "") (hr : tm.RefreshToken ≠ "")
    (ht : 0 < tm.LastUpdatedTimestamp) (hstale : w.now - tm.LastUpdatedTimestamp > 1200)
    (hp : tm.loadedTokenPath ≠ "")
    (htr : (PerformTokenRefresh tm.RefreshToken w.timeNowUnix.2).1 = .ok (a2, r2))
    (hmk : w.mkdirFault (w.dirOf tm.loadedTokenPath) = none)
    (hwr : w.writeFault tm.loadedTokenPath = none) :
    (tm.GetAccessToken w).1 = (a2, none)
      ∧ (tm.GetAccessToken w).2.2.fs.files tm.loadedTokenPath
        = some (.object
            ([("access_token", .str a2), ("refresh_token", .str r2), ("uid", .str tm.Uid),
              ("nickname", .str tm.Nickname)] ++
             (if (tm.GetAccessToken w).2.1.LastUpdatedTimestamp = 0 then []
              else [("last_updated_timestamp",
                      .int (tm.GetAccessToken w).2.1.LastUpdatedTimestamp)]))) := by
  have hne := PerformTokenRefresh_ok_nonempty _ _ _ _ htr
  rw [GetAccessToken_stale tm w ha (stale_of_age w _ ht hstale)]
  rw [RefreshAccessToken_saving tm _ _ _ a2 r2 hr htr hp rfl rfl]
  rw [SaveTokenToPath_ok _ _ _ hp (by simpa using hmk) (by simpa using hwr)]
  simp [hne.1, FS.withFile, TokenManager.toJson]

/-- C3, witness: the theorem at a sample input. -/
theorem C3_stale_refresh_returns_and_persists_new_pair_witness :
    (staleManager.GetAccessToken sampleWorld).1 = ("A2", none)
      ∧ (staleManager.GetAccessToken sampleWorld).2.2.fs.files staleManager.loadedTokenPath
        = some (.object
            ([("access_token", .str "A2"), ("refresh_token", .str "R2"),
              ("uid", .str staleManager.Uid), ("nickname", .str staleManager.Nickname)] ++
             (if (staleManager.GetAccessToken sampleWorld).2.1.LastUpdatedTimestamp = 0 then []
              else [("last_updated_timestamp",
                      .int (staleManager.GetAccessToken sampleWorld).2.1.LastUpdatedTimestamp)]))) :=
  C3_stale_refresh_returns_and_persists_new_pair staleManager sampleWorld "A2" "R2"
    (by decide) (by decide) (by decide) (by decide) (by decide) rfl (by decide) (by decide)

/-- C4, counterexample: the stale credential `A1`, `R1` with a path, the transport
returning `A2`, `R2`, and a write refused by the operating system: `GetAccessToken` returns
the empty string and an error, not `A2`. -/
theorem C4_counterexample_write_failure_masks_refresh :
    staleManager.AccessToken ≠ "" ∧ staleManager.RefreshToken ≠ ""
      ∧ 0 < staleManager.LastUpdatedTimestamp
      ∧ writeFailWorld.now - staleManager.LastUpdatedTimestamp > 1200
      ∧ staleManager.loadedTokenPath ≠ ""
      ∧ (PerformTokenRefresh staleManager.RefreshToken writeFailWorld.timeNowUnix.2).1
          = .ok ("A2", "R2")
      ∧ writeFailWorld.writeFault staleManager.loadedTokenPath = some (.errno "EACCES")
      ∧ (staleManager.GetAccessToken writeFailWorld).1.1 = ""
      ∧ (staleManager.GetAccessToken writeFailWorld).1.2 ≠ none
      ∧ (staleManager.GetAccessToken writeFailWorld).1 ≠ ("A2", none) :=
  ⟨by decide, by decide, by decide, by decide, by decide, rfl, by decide, by decide, by decide,
    by decide⟩

/-- C4 (as the code behaves): for a stale complete credential with a loadedTokenPath, when
the refresh transport returns `(a2, r2)` and the write of the token file fails,
`GetAccessToken` returns the empty string and an error that wraps the write failure, while
the manager holds `a2` and `r2` in memory. -/
theorem C4_write_failure_is_returned_to_caller (tm : TokenManager) (w : World)
    (a2 r2 : String) (e : Err)
    (ha : tm.AccessToken ≠ "") (hr : tm.RefreshToken ≠ "")
    (ht : 0 < tm.LastUpdatedTimestamp) (hstale : w.now - tm.LastUpdatedTimestamp > 1200)
    (hp : tm.loadedTokenPath ≠ "")
    (htr : (PerformTokenRefresh tm.RefreshToken w.timeNowUnix.2).1 = .ok (a2, r2))
    (hmk : w.mkdirFault (w.dirOf tm.loadedTokenPath) = none)
    (hwr : w.writeFault tm.loadedTokenPath = some e) :
    (tm.GetAccessToken w).1
        = ("", some (.wrapf "failed to refresh token, authentication may be required"
            (.wrapf ("successfully refreshed token, but failed to save to file "
                ++ tm.loadedTokenPath)
              (.wrapf ("failed to write token file " ++ tm.loadedTokenPath)
                (.pathError "open" tm.loadedTokenPath e)))))
      ∧ (tm.GetAccessToken w).2.1.AccessToken = a2
      ∧ (tm.GetAccessToken w).2.1.RefreshToken = r2 := by
  rw [GetAccessToken_stale tm w ha (stale_of_age w _ ht hstale)]
  rw [RefreshAccessToken_saving tm _ _ _ a2 r2 hr htr hp rfl rfl]
  rw [SaveTokenToPath_write_fails _ _ _ hp e (by simpa using hmk) (by simpa using hwr)]
  simp

/-- C4, witness: the theorem at a sample input. -/
theorem C4_write_failure_is_returned_to_caller_witness :
    (staleManager.GetAccessToken writeFailWorld).1
        = ("", some (.wrapf "failed to refresh token, authentication may be required"
            (.wrapf ("successfully refreshed token, but failed to save to file "
                ++ staleManager.loadedTokenPath)
              (.wrapf ("failed to write token file " ++ staleManager.loadedTokenPath)
                (.pathError "open" staleManager.loadedTokenPath (.errno "EACCES"))))))
      ∧ (staleManager.GetAccessToken writeFailWorld).2.1.AccessToken = "A2"
      ∧ (staleManager.GetAccessToken writeFailWorld).2.1.RefreshToken = "R2" :=
  C4_write_failure_is_returned_to_caller staleManager writeFailWorld "A2" "R2" (.errno "EACCES")
    (by decide) (by decide) (by decide) (by decide) (by decide) rfl (by decide) (by decide)

/-- C5: for a credential with a non-empty RefreshToken and a non-empty loadedTokenPath,
when the transport returns `(a2, r2)` and the save fails (the directory cannot be created
or the file cannot be written), `RefreshAccessToken` returns an error and the manager holds
AccessToken = `a2` and RefreshToken = `r2` afterwards. -/
theorem C5_failed_save_keeps_refreshed_tokens (tm : TokenManager) (w : World)
    (a2 r2 : String)
    (hr : tm.RefreshToken ≠ "") (hp : tm.loadedTokenPath ≠ "")
    (htr : (PerformTokenRefresh tm.RefreshToken w).1 = .ok (a2, r2))
    (hfail : w.mkdirFault (w.dirOf tm.loadedTokenPath) ≠ none
      ∨ w.writeFault tm.loadedTokenPath ≠ none) :
    (tm.RefreshAccessToken w).1 ≠ none
      ∧ (tm.RefreshAccessToken w).2.1.AccessToken = a2
      ∧ (tm.RefreshAccessToken w).2.1.RefreshToken = r2 := by
  rw [RefreshAccessToken_saving tm _ _ _ a2 r2 hr htr hp rfl rfl]
  cases hmk : w.mkdirFault (w.dirOf tm.loadedTokenPath) with
  | some e =>
    rw [SaveTokenToPath_mkdir_fails _ _ _ hp e (by simpa using hmk)]
    simp
  | none =>
    cases hwr : w.writeFault tm.loadedTokenPath with
    | some e =>
      rw [SaveTokenToPath_write_fails _ _ _ hp e (by simpa using hmk) (by simpa using hwr)]
      simp
    | none => simp [hmk, hwr] at hfail

/-- C5, witness: the theorem at a sample input. -/
theorem C5_failed_save_keeps_refreshed_tokens_witness :
    (staleManager.RefreshAccessToken writeFailWorld).1 ≠ none
      ∧ (staleManager.RefreshAccessToken writeFailWorld).2.1.AccessToken = "A2"
      ∧ (staleManager.RefreshAccessToken writeFailWorld).2.1.RefreshToken = "R2" :=
  C5_failed_save_keeps_refreshed_tokens staleManager writeFailWorld "A2" "R2"
    (by decide) (by decide) rfl (Or.inr (by decide))

/-- C6: for a stale credential with both tokens non-empty, when the refresh transport fails
with the error `e`, `GetAccessToken` returns the empty string and an error that wraps `e`,
the manager is unchanged in every field, the filesystem is unchanged and no directory
creation or file write is attempted. -/
theorem C6_transport_failure_propagates_and_changes_nothing (tm : TokenManager) (w : World)
    (e : Err)
    (ha : tm.AccessToken ≠ "") (hr : tm.RefreshToken ≠ "")
    (ht : 0 < tm.LastUpdatedTimestamp) (hstale : w.now - tm.LastUpdatedTimestamp > 1200)
    (htr : (PerformTokenRefresh tm.RefreshToken w.timeNowUnix.2).1 = .error e) :
    (tm.GetAccessToken w).1
        = ("", some (.wrapf "failed to refresh token, authentication may be required"
            (.wrapf "PerformTokenRefresh failed" e)))
      ∧ (Err.wrapf "failed to refresh token, authentication may be required"
            (.wrapf "PerformTokenRefresh failed" e)).Is e = true
      ∧ (tm.GetAccessToken w).2.1 = tm
      ∧ (tm.GetAccessToken w).2.2.fs = w.fs
      ∧ (tm.GetAccessToken w).2.2.fsEffects = w.fsEffects := by
  rw [GetAccessToken_stale tm w ha (stale_of_age w _ ht hstale)]
  rw [RefreshAccessToken_transport_error tm _ e hr htr]
  refine ⟨by simp, ?_, by simp, by simp, by simp⟩
  exact Err.Is_wrapf_of_Is _ _ _ (Err.Is_wrapf_of_Is _ _ _ (Err.Is_self e))

/-- C6, witness: the theorem at a sample input. -/
theorem C6_transport_failure_propagates_and_changes_nothing_witness :
    (staleManager.GetAccessToken transportFailWorld).1
        = ("", some (.wrapf "failed to refresh token, authentication may be required"
            (.wrapf "PerformTokenRefresh failed" (.errorf "api request failed with status 401"))))
      ∧ (Err.wrapf "failed to refresh token, authentication may be required"
            (.wrapf "PerformTokenRefresh failed"
              (.errorf "api request failed with status 401"))).Is
          (.errorf "api request failed with status 401") = true
      ∧ (staleManager.GetAccessToken transportFailWorld).2.1 = staleManager
      ∧ (staleManager.GetAccessToken transportFailWorld).2.2.fs = transportFailWorld.fs
      ∧ (staleManager.GetAccessToken transportFailWorld).2.2.fsEffects
          = transportFailWorld.fsEffects :=
  C6_transport_failure_propagates_and_changes_nothing staleManager transportFailWorld
    (.errorf "api request failed with status 401") (by decide) (by decide) (by decide)
    (by decide) rfl

/-- C7: with an empty RefreshToken, `RefreshAccessToken` returns an error and changes
neither the manager nor the world (no transport invocation, no file access); so
`GetAccessToken` on a stale credential with an empty refresh token returns the empty string
and an error, and leaves the manager unchanged. -/
theorem C7_empty_refresh_token_is_rejected (tm : TokenManager) (w : World)
    (h : tm.RefreshToken = "") :
    tm.RefreshAccessToken w
        = (some (.errorf "cannot refresh token: refresh token is empty"), tm, w)
      ∧ (tm.RefreshAccessToken w).2.2.refreshCalls = w.refreshCalls
      ∧ (tm.RefreshAccessToken w).2.2.fsEffects = w.fsEffects
      ∧ (0 < tm.LastUpdatedTimestamp → w.now - tm.LastUpdatedTimestamp > 1200 →
          (tm.GetAccessToken w).1.1 = "" ∧ (tm.GetAccessToken w).1.2 ≠ none
            ∧ (tm.GetAccessToken w).2.1 = tm
            ∧ (tm.GetAccessToken w).2.2.refreshCalls = w.refreshCalls) := by
  have h1 := RefreshAccessToken_empty tm w h
  refine ⟨h1, by rw [h1], by rw [h1], ?_⟩
  intro ht hstale
  by_cases ha : tm.AccessToken = ""
  · simp [TokenManager.GetAccessToken, ha]
  · rw [GetAccessToken_stale tm w ha (stale_of_age w _ ht hstale)]
    rw [RefreshAccessToken_empty tm _ h]
    simp

/-- C7, witness: the theorem at a sample input. -/
theorem C7_empty_refresh_token_is_rejected_witness :
    noRefreshTokenManager.RefreshAccessToken sampleWorld
        = (some (.errorf "cannot refresh token: refresh token is empty"),
            noRefreshTokenManager, sampleWorld)
      ∧ (noRefreshTokenManager.GetAccessToken sampleWorld).1.1 = ""
      ∧ (noRefreshTokenManager.GetAccessToken sampleWorld).1.2 ≠ none :=
  ⟨(C7_empty_refresh_token_is_rejected noRefreshTokenManager sampleWorld rfl).1,
   ((C7_empty_refresh_token_is_rejected noRefreshTokenManager sampleWorld rfl).2.2.2
      (by decide) (by decide)).1,
   ((C7_empty_refresh_token_is_rejected noRefreshTokenManager sampleWorld rfl).2.2.2
      (by decide) (by decide)).2.1⟩

/-- C8: after a `RefreshAccessToken` that returns no error, with transport result
`(a2, r2)` and a clock that reads `now` throughout the call, the manager holds
AccessToken = `a2`, RefreshToken = `r2` and LastUpdatedTimestamp = `now`, and its Uid,
Nickname and loadedTokenPath are what they were before the call. -/
theorem C8_successful_refresh_frame (tm : TokenManager) (w : World) (a2 r2 : String)
    (now : Int)
    (hsucc : (tm.RefreshAccessToken w).1 = none)
    (htr : (PerformTokenRefresh tm.RefreshToken w).1 = .ok (a2, r2))
    (hnow : ∀ k, w.ticks ≤ k → wrapInt64 (w.clock k) = now) :
    (tm.RefreshAccessToken w).2.1
      = { AccessToken := a2, RefreshToken := r2, Uid := tm.Uid, Nickname := tm.Nickname,
          LastUpdatedTimestamp := now, loadedTokenPath := tm.loadedTokenPath } := by
  have hr : tm.RefreshToken ≠ "" := by
    intro h
    rw [RefreshAccessToken_empty tm w h] at hsucc
    simp at hsucc
  have h0 : w.now = now := hnow w.ticks (le_refl _)
  by_cases hp : tm.loadedTokenPath = ""
  · rw [RefreshAccessToken_memory_only tm w a2 r2 hr htr hp]
    simp [h0, hp]
  · rw [RefreshAccessToken_saving tm _ _ _ a2 r2 hr htr hp rfl rfl] at hsucc ⊢
    have h1 : (PerformTokenRefresh tm.RefreshToken w).2.timeNowUnix.2.now = now := by
      have := hnow (w.ticks + 1) (Nat.le_succ _)
      simpa [World.now, World.timeNowUnix] using this
    cases hmk : w.mkdirFault (w.dirOf tm.loadedTokenPath) with
    | some e =>
      rw [SaveTokenToPath_mkdir_fails _ _ _ hp e (by simpa using hmk)] at hsucc
      simp at hsucc
    | none =>
      cases hwr : w.writeFault tm.loadedTokenPath with
      | some e =>
        rw [SaveTokenToPath_write_fails _ _ _ hp e (by simpa using hmk) (by simpa using hwr)]
          at hsucc
        simp at hsucc
      | none =>
        rw [SaveTokenToPath_ok _ _ _ hp (by simpa using hmk) (by simpa using hwr)]
        simp [h1]

/-- C8, witness: the theorem at a sample input. -/
theorem C8_successful_refresh_frame_witness :
    (staleManager.RefreshAccessToken sampleWorld).2.1
      = { AccessToken := "A2", RefreshToken := "R2", Uid := staleManager.Uid,
          Nickname := staleManager.Nickname, LastUpdatedTimestamp := 10000,
          loadedTokenPath := staleManager.loadedTokenPath } :=
  C8_successful_refresh_frame staleManager sampleWorld "A2" "R2" 10000 (by decide) rfl
    (fun _ _ => rfl)

/-- C9: for a credential with a non-empty RefreshToken and an empty loadedTokenPath, a
`RefreshAccessToken` whose transport call returns `(a2, r2)` returns no error, holds the
new tokens in memory and leaves the filesystem as it was: no directory creation and no
file write is attempted. -/
theorem C9_refresh_without_path_stays_in_memory (tm : TokenManager) (w : World)
    (a2 r2 : String)
    (hr : tm.RefreshToken ≠ "") (hp : tm.loadedTokenPath = "")
    (htr : (PerformTokenRefresh tm.RefreshToken w).1 = .ok (a2, r2)) :
    (tm.RefreshAccessToken w).1 = none
      ∧ (tm.RefreshAccessToken w).2.1.AccessToken = a2
      ∧ (tm.RefreshAccessToken w).2.1.RefreshToken = r2
      ∧ (tm.RefreshAccessToken w).2.2.fs = w.fs
      ∧ (tm.RefreshAccessToken w).2.2.fsEffects = w.fsEffects := by
  rw [RefreshAccessToken_memory_only tm w a2 r2 hr htr hp]
  simp

/-- C9, witness: the theorem at a sample input. -/
theorem C9_refresh_without_path_stays_in_memory_witness :
    (memoryOnlyManager.RefreshAccessToken sampleWorld).1 = none
      ∧ (memoryOnlyManager.RefreshAccessToken sampleWorld).2.1.AccessToken = "A2"
      ∧ (memoryOnlyManager.RefreshAccessToken sampleWorld).2.1.RefreshToken = "R2"
      ∧ (memoryOnlyManager.RefreshAccessToken sampleWorld).2.2.fs = sampleWorld.fs
      ∧ (memoryOnlyManager.RefreshAccessToken sampleWorld).2.2.fsEffects
          = sampleWorld.fsEffects :=
  C9_refresh_without_path_stays_in_memory memoryOnlyManager sampleWorld "A2" "R2"
    (by decide) (by decide) rfl

/-- C10, counterexample: saving the empty credential succeeds and loading the file it
wrote fails as incomplete; and a complete credential saved while the clock reads 0 is
loaded into a manager whose timestamp is 6400 with the timestamp 6400, not 0. -/
theorem C10_counterexample_roundtrip :
    ((emptyManager.SaveTokenToPath samplePath sampleWorld).1 = none
      ∧ (emptyManager.LoadTokenFromPath samplePath
          (emptyManager.SaveTokenToPath samplePath sampleWorld).2.2).1
        = some (.errorf ("incomplete token data in " ++ samplePath)))
    ∧ ((staleManager.SaveTokenToPath samplePath epochWorld).1 = none
      ∧ (staleManager.SaveTokenToPath samplePath epochWorld).2.1.LastUpdatedTimestamp = 0
      ∧ (staleManager.LoadTokenFromPath samplePath
          (staleManager.SaveTokenToPath samplePath epochWorld).2.2).1 = none
      ∧ (staleManager.LoadTokenFromPath samplePath
          (staleManager.SaveTokenToPath samplePath epochWorld).2.2).2.1.LastUpdatedTimestamp
        = 6400) :=
  ⟨⟨by decide, by decide⟩, by decide, by decide, by decide, by decide⟩

/-- C10 (as the code behaves): for a credential `c` with both tokens non-empty and with
string fields that are valid UTF-8 (as the strings of `TokenManager` here are), when
`SaveTokenToPath(p)` succeeds on `c`, `LoadTokenFromPath(p)` of the file it wrote succeeds
on every manager `m`, and the loaded AccessToken, RefreshToken, Uid and Nickname equal the
persisted ones; the loaded LastUpdatedTimestamp equals the persisted one whenever the
persisted one is not zero or the timestamp of `m` was zero, as on a manager fresh from
`GetTokenManager` (a zero timestamp is not in the file). -/
theorem C10_roundtrip_of_complete_credential (c m : TokenManager) (p : String)
    (w w2 : World)
    (ha : c.AccessToken ≠ "") (hr : c.RefreshToken ≠ "")
    (hsave : (c.SaveTokenToPath p w).1 = none)
    (hfile : w2.fs.files p = (c.SaveTokenToPath p w).2.2.fs.files p)
    (hread : w2.readFault p = none) :
    (m.LoadTokenFromPath p w2).1 = none
      ∧ (m.LoadTokenFromPath p w2).2.1.AccessToken = (c.SaveTokenToPath p w).2.1.AccessToken
      ∧ (m.LoadTokenFromPath p w2).2.1.RefreshToken = (c.SaveTokenToPath p w).2.1.RefreshToken
      ∧ (m.LoadTokenFromPath p w2).2.1.Uid = (c.SaveTokenToPath p w).2.1.Uid
      ∧ (m.LoadTokenFromPath p w2).2.1.Nickname = (c.SaveTokenToPath p w).2.1.Nickname
      ∧ ((c.SaveTokenToPath p w).2.1.LastUpdatedTimestamp ≠ 0 ∨ m.LastUpdatedTimestamp = 0 →
          (m.LoadTokenFromPath p w2).2.1.LastUpdatedTimestamp
            = (c.SaveTokenToPath p w).2.1.LastUpdatedTimestamp) := by
  have hp : p ≠ "" := by
    intro h
    simp [TokenManager.SaveTokenToPath, h] at hsave
  cases hmk : w.mkdirFault (w.dirOf p) with
  | some e =>
    rw [SaveTokenToPath_mkdir_fails _ _ _ hp e hmk] at hsave
    simp at hsave
  | none =>
    cases hwr : w.writeFault p with
    | some e =>
      rw [SaveTokenToPath_write_fails _ _ _ hp e hmk hwr] at hsave
      simp at hsave
    | none =>
      rw [SaveTokenToPath_ok _ _ _ hp hmk hwr] at hfile ⊢
      simp only [FS.withFile, if_true] at hfile
      have hdec := jsonUnmarshal_toJson { c with LastUpdatedTimestamp := w.now } m
        (isInt64_now w)
      simp only at hdec
      simp only [TokenManager.LoadTokenFromPath, if_neg hp, World.osReadFile, hread, hfile,
        hdec, ha, hr, or_self, if_false]
      refine ⟨trivial, trivial, trivial, trivial, trivial, ?_⟩
      intro hts
      by_cases h0 : w.now = 0
      · rcases hts with hts | hts
        · exact absurd h0 hts
        · simp [h0, hts]
      · simp [h0]

/-- C10, witness: the credential `A1`, `R1` saved at clock reading 10000 and loaded into
a manager that held another timestamp. -/
theorem C10_roundtrip_of_complete_credential_witness :
    (staleManager.SaveTokenToPath samplePath sampleWorld).1 = none
      ∧ (freshManager.LoadTokenFromPath samplePath
          (staleManager.SaveTokenToPath samplePath sampleWorld).2.2).1 = none
      ∧ (freshManager.LoadTokenFromPath samplePath
          (staleManager.SaveTokenToPath samplePath sampleWorld).2.2).2.1.AccessToken
        = (staleManager.SaveTokenToPath samplePath sampleWorld).2.1.AccessToken
      ∧ (freshManager.LoadTokenFromPath samplePath
          (staleManager.SaveTokenToPath samplePath sampleWorld).2.2).2.1.LastUpdatedTimestamp
        = 10000 :=
  ⟨by decide,
   (C10_roundtrip_of_complete_credential staleManager freshManager samplePath sampleWorld
      (staleManager.SaveTokenToPath samplePath sampleWorld).2.2
      (by decide) (by decide) (by decide) rfl (by decide)).1,
   (C10_roundtrip_of_complete_credential staleManager freshManager samplePath sampleWorld
      (staleManager.SaveTokenToPath samplePath sampleWorld).2.2
      (by decide) (by decide) (by decide) rfl (by decide)).2.1,
   (C10_roundtrip_of_complete_credential staleManager freshManager samplePath sampleWorld
      (staleManager.SaveTokenToPath samplePath sampleWorld).2.2
      (by decide) (by decide) (by decide) rfl (by decide)).2.2.2.2.2 (Or.inl (by decide))⟩

/-- C11, counterexample: at the empty path no file exists and `LoadTokenFromPath` returns
"token path cannot be empty"; and where a read is refused with `ENOTDIR` no file exists
either and it returns "failed to read token file"; neither error is `fs.ErrNotExist`. -/
theorem C11_counterexample_no_file_but_not_NotFound :
    (sampleWorld.fs.files "" = none
      ∧ (emptyManager.LoadTokenFromPath "" sampleWorld).1
          = some (.errorf "token path cannot be empty")
      ∧ (Err.errorf "token path cannot be empty").Is .ErrNotExist = false)
    ∧ (notDirWorld.fs.files samplePath = none
      ∧ (emptyManager.LoadTokenFromPath samplePath notDirWorld).1
          = some (.wrapf ("failed to read token file " ++ samplePath)
              (.pathError "open" samplePath (.errno "ENOTDIR")))
      ∧ (Err.wrapf ("failed to read token file " ++ samplePath)
              (.pathError "open" samplePath (.errno "ENOTDIR"))).Is .ErrNotExist = false) :=
  ⟨⟨by decide, by decide, by decide⟩, by decide, by decide, by decide⟩

/-- C11 (as the code behaves): for a non-empty path `p` at which no file exists, and which
the operating system does not refuse to read with an error other than not-exist,
`LoadTokenFromPath(p)` returns exactly `fs.ErrNotExist`, for which `errors.Is` holds, and
leaves the manager and the world as they were. -/
theorem C11_missing_file_is_NotFound (tm : TokenManager) (p : String) (w : World)
    (hp : p ≠ "") (hfile : w.fs.files p = none)
    (hread : ∀ e, w.readFault p = some e → e.Is .ErrNotExist = true) :
    tm.LoadTokenFromPath p w = (some .ErrNotExist, tm, w)
      ∧ Err.ErrNotExist.Is .ErrNotExist = true := by
  refine ⟨?_, by decide⟩
  unfold TokenManager.LoadTokenFromPath World.osReadFile
  rw [if_neg hp]
  cases hf : w.readFault p with
  | some e =>
    have he := hread e hf
    simp [Err.Is, he]
  | none => simp [hfile, Err.Is]

/-- C11, witness: the sample path in the empty filesystem of `sampleWorld`. -/
theorem C11_missing_file_is_NotFound_witness :
    staleManager.LoadTokenFromPath samplePath sampleWorld
        = (some .ErrNotExist, staleManager, sampleWorld)
      ∧ Err.ErrNotExist.Is .ErrNotExist = true :=
  C11_missing_file_is_NotFound staleManager samplePath sampleWorld (by decide) (by decide)
    (fun e h => by simp [sampleWorld] at h)

/-- C12, the code at the failing input: the file holds an access token and no refresh
token; loaded into a manager that holds the credential `A1`, `R1`, `LoadTokenFromPath`
returns no error and the manager holds the access token of the file with the refresh token
it had in memory. Loaded into the empty manager the same file is rejected as incomplete. -/
theorem C12_incomplete_file_accepted_over_held_credential :
    (staleManager.LoadTokenFromPath samplePath (worldWithFile accessOnlyFile)).1 = none
      ∧ (staleManager.LoadTokenFromPath samplePath (worldWithFile accessOnlyFile)).2.1
          = { AccessToken := "A9", RefreshToken := "R1", Uid := "u1", Nickname := "nick",
              LastUpdatedTimestamp := 6400, loadedTokenPath := samplePath }
      ∧ (emptyManager.LoadTokenFromPath samplePath (worldWithFile accessOnlyFile)).1
          = some (.errorf ("incomplete token data in " ++ samplePath)) :=
  ⟨by decide, by decide, by decide⟩

/-- C13, the code at the failing input: the file holds the two tokens and nothing else;
loaded into a manager that holds a credential, the load succeeds and Uid, Nickname and
LastUpdatedTimestamp are the old values of the manager, where the file alone decodes to
the empty strings and zero (as the load into the empty manager shows). -/
theorem C13_successful_load_keeps_fields_absent_from_file :
    (staleManager.LoadTokenFromPath samplePath (worldWithFile tokensOnlyFile)).1 = none
      ∧ (staleManager.LoadTokenFromPath samplePath (worldWithFile tokensOnlyFile)).2.1
          = { AccessToken := "A9", RefreshToken := "R9", Uid := "u1", Nickname := "nick",
              LastUpdatedTimestamp := 6400, loadedTokenPath := samplePath }
      ∧ (emptyManager.LoadTokenFromPath samplePath (worldWithFile tokensOnlyFile)).2.1
          = { AccessToken := "A9", RefreshToken := "R9", Uid := "", Nickname := "",
              LastUpdatedTimestamp := 0, loadedTokenPath := samplePath } :=
  ⟨by decide, by decide, by decide⟩

/-- C14, the code at the failing input: from the empty manager, one `LoadTokenFromPath` of
a file that holds only an access token returns the error "incomplete token data" and leaves
the manager with AccessToken `A9` and an empty RefreshToken; a `GetAccessToken` that follows
returns `A9` without error. -/
theorem C14_rejected_load_leaves_partial_credential :
    (emptyManager.LoadTokenFromPath samplePath (worldWithFile accessOnlyFile)).1
        = some (.errorf ("incomplete token data in " ++ samplePath))
      ∧ (emptyManager.LoadTokenFromPath samplePath (worldWithFile accessOnlyFile)).2.1.AccessToken
          = "A9"
      ∧ (emptyManager.LoadTokenFromPath samplePath (worldWithFile accessOnlyFile)).2.1.RefreshToken
          = ""
      ∧ ((emptyManager.LoadTokenFromPath samplePath
            (worldWithFile accessOnlyFile)).2.1.GetAccessToken sampleWorld).1 = ("A9", none) :=
  ⟨by decide, by decide, by decide, by decide⟩

/-- C15, counterexample: under a clock that stands still, loading a file with the
timestamp 5 into a manager whose timestamp is 6400 succeeds and leaves 5; and saving a
manager whose timestamp 20000 is ahead of the clock leaves the clock reading 10000. -/
theorem C15_counterexample_timestamp_lowered :
    ((worldWithFile olderFile).clockNonDecreasing
      ∧ (staleManager.LoadTokenFromPath samplePath (worldWithFile olderFile)).1 = none
      ∧ (staleManager.LoadTokenFromPath samplePath
          (worldWithFile olderFile)).2.1.LastUpdatedTimestamp = 5
      ∧ staleManager.LastUpdatedTimestamp = 6400)
    ∧ (sampleWorld.clockNonDecreasing
      ∧ (futureManager.SaveTokenToPath samplePath sampleWorld).1 = none
      ∧ (futureManager.SaveTokenToPath samplePath sampleWorld).2.1.LastUpdatedTimestamp = 10000
      ∧ futureManager.LastUpdatedTimestamp = 20000) :=
  ⟨⟨fun _ _ _ => le_refl _, by decide, by decide, by decide⟩,
   fun _ _ _ => le_refl _, by decide, by decide, by decide⟩

/-- C15 (as the code behaves): under a non-decreasing clock that is not behind the
LastUpdatedTimestamp of the manager, `SaveTokenToPath`, `RefreshAccessToken` and
`GetAccessToken`, successful or failing, never leave LastUpdatedTimestamp smaller than it
was before the call. -/
theorem C15_timestamp_not_lowered_when_clock_not_behind (tm : TokenManager) (w : World)
    (p : String) (hmono : w.clockNonDecreasing)
    (hbehind : tm.LastUpdatedTimestamp ≤ w.now) :
    tm.LastUpdatedTimestamp ≤ (tm.SaveTokenToPath p w).2.1.LastUpdatedTimestamp
      ∧ tm.LastUpdatedTimestamp ≤ (tm.RefreshAccessToken w).2.1.LastUpdatedTimestamp
      ∧ tm.LastUpdatedTimestamp ≤ (tm.GetAccessToken w).2.1.LastUpdatedTimestamp := by
  have h0 : tm.LastUpdatedTimestamp ≤ w.readingAt w.ticks := hbehind
  have h1 : tm.LastUpdatedTimestamp ≤ w.readingAt (w.ticks + 1) :=
    le_trans h0 (hmono _ _ (Nat.le_succ _))
  have h2 : tm.LastUpdatedTimestamp ≤ w.readingAt (w.ticks + 2) :=
    le_trans h0 (hmono _ _ (Nat.le_add_right _ _))
  refine ⟨?_, ?_, ?_⟩
  · rcases SaveTokenToPath_timestamp tm p w with h | h <;> rw [h]
    exact h0
  · rcases RefreshAccessToken_timestamp tm w with h | h | h <;> rw [h]
    · exact h0
    · exact h1
  · rcases GetAccessToken_timestamp tm w with h | h | h <;> rw [h]
    · exact h1
    · exact h2

/-- C15, witness: the stale credential under the clock of `sampleWorld`. -/
theorem C15_timestamp_not_lowered_when_clock_not_behind_witness :
    staleManager.LastUpdatedTimestamp
        ≤ (staleManager.SaveTokenToPath samplePath sampleWorld).2.1.LastUpdatedTimestamp
      ∧ staleManager.LastUpdatedTimestamp
        ≤ (staleManager.RefreshAccessToken sampleWorld).2.1.LastUpdatedTimestamp
      ∧ staleManager.LastUpdatedTimestamp
        ≤ (staleManager.GetAccessToken sampleWorld).2.1.LastUpdatedTimestamp :=
  C15_timestamp_not_lowered_when_clock_not_behind staleManager sampleWorld samplePath
    (fun _ _ _ => le_refl _) (by decide)

/-- C16: whatever the refresh transport does, a transport that reports success with an
empty access token included, a `GetAccessToken` that returns no error returns a non-empty
string, and that string is the AccessToken of the manager after the call. The method of
the source is the instance at the transport `PerformTokenRefresh`. -/
theorem C16_success_never_returns_empty_token
    (transport : String → World → Except Err (String × String) × World)
    (tm : TokenManager) (w : World)
    (h : (tm.GetAccessTokenVia transport w).1.2 = none) :
    (tm.GetAccessTokenVia transport w).1.1 ≠ ""
      ∧ (tm.GetAccessTokenVia transport w).1.1
          = (tm.GetAccessTokenVia transport w).2.1.AccessToken
      ∧ tm.GetAccessToken w = tm.GetAccessTokenVia PerformTokenRefresh w := by
  refine ⟨?_, ?_, rfl⟩
  all_goals
    unfold TokenManager.GetAccessTokenVia at h ⊢
    by_cases ha : tm.AccessToken = ""
    · simp [ha] at h
    · simp only [if_neg ha] at h ⊢
      by_cases hst : tm.LastUpdatedTimestamp > 0 ∧
          wrapInt64 (w.timeNowUnix.1 - tm.LastUpdatedTimestamp) > tokenTimeoutSeconds
      · simp only [if_pos hst] at h ⊢
        rcases hres : tm.RefreshAccessTokenVia transport w.timeNowUnix.2 with ⟨e, tm1, w1⟩
        rw [hres] at h
        cases e with
        | some err => simp at h
        | none =>
          simp only at h ⊢
          by_cases he : tm1.AccessToken = ""
          · simp [he] at h
          · simp [he]
      · first
          | (simp only [if_neg hst]; exact ha)
          | simp only [if_neg hst]

/-- C16, witness: the stale credential refreshed through `PerformTokenRefresh`; through
a transport that hands back an empty access token the call fails. -/
theorem C16_success_never_returns_empty_token_witness :
    ((staleManager.GetAccessTokenVia PerformTokenRefresh sampleWorld).1.1 ≠ ""
      ∧ (staleManager.GetAccessTokenVia PerformTokenRefresh sampleWorld).1.1
          = (staleManager.GetAccessTokenVia PerformTokenRefresh sampleWorld).2.1.AccessToken
      ∧ staleManager.GetAccessToken sampleWorld
          = staleManager.GetAccessTokenVia PerformTokenRefresh sampleWorld)
    ∧ (staleManager.GetAccessTokenVia emptyTokenTransport sampleWorld).1
        = ("", some (.errorf "authentication failed: token became empty after refresh")) :=
  ⟨C16_success_never_returns_empty_token PerformTokenRefresh staleManager sampleWorld
    (by decide), by decide⟩

/-- C17: `PerformTokenRefresh` returns an error, and so no tokens, whenever the endpoint
answers 200 with `success: true` and the decoded body holds an empty (or no) access or
refresh token; a pair `(a, r)` it returns without error has both tokens non-empty and was
decoded from the body of an answer with status 200 and `success: true`; so a
`RefreshAccessToken` that returns no error leaves both tokens of the manager non-empty. -/
theorem C17_refresh_never_yields_empty_token (tok : String) (w : World) (tm : TokenManager) :
    (∀ body resp, w.refreshAnswer tok = .response 200 body →
        decodeRefreshBody body = (resp, none) → resp.Success = true →
        (resp.XJikeAccessToken = "" ∨ resp.XJikeRefreshToken = "") →
        ∃ e, (PerformTokenRefresh tok w).1 = .error e)
      ∧ (∀ a r, (PerformTokenRefresh tok w).1 = .ok (a, r) →
          a ≠ "" ∧ r ≠ "" ∧ ∃ body, w.refreshAnswer tok = .response 200 body
            ∧ decodeRefreshBody body
                = ({ Success := true, XJikeAccessToken := a, XJikeRefreshToken := r }, none))
      ∧ ((tm.RefreshAccessToken w).1 = none →
          (tm.RefreshAccessToken w).2.1.AccessToken ≠ ""
            ∧ (tm.RefreshAccessToken w).2.1.RefreshToken ≠ "") := by
  refine ⟨?_, ?_, ?_⟩
  · intro body resp hans hdec _ hempty
    exact PerformTokenRefresh_empty_token_error tok w body resp hans hdec hempty
  · intro a r h
    have hne := PerformTokenRefresh_ok_nonempty tok w a r h
    exact ⟨hne.1, hne.2, PerformTokenRefresh_ok_answer tok w a r h⟩
  · intro hsucc
    by_cases hr : tm.RefreshToken = ""
    · rw [RefreshAccessToken_empty tm w hr] at hsucc
      simp at hsucc
    · cases htr : (PerformTokenRefresh tm.RefreshToken w).1 with
      | error e =>
        rw [RefreshAccessToken_transport_error tm w e hr htr] at hsucc
        simp at hsucc
      | ok pair =>
        obtain ⟨a2, r2⟩ := pair
        have hne := PerformTokenRefresh_ok_nonempty _ w a2 r2 htr
        by_cases hp : tm.loadedTokenPath = ""
        · rw [RefreshAccessToken_memory_only tm w a2 r2 hr htr hp]
          exact hne
        · rw [RefreshAccessToken_saving tm _ w _ a2 r2 hr htr hp rfl rfl]
          have hf := SaveTokenToPath_frame
            { tm with AccessToken := a2, RefreshToken := r2, LastUpdatedTimestamp := w.now }
            tm.loadedTokenPath (PerformTokenRefresh tm.RefreshToken w).2.timeNowUnix.2
          simp only at hf ⊢
          rw [hf.1, hf.2.1]
          exact hne

/-- C17, witness: an answer 200 with `success: true` and no access token is an error; the
pair `A2`, `R2` of the sample endpoint is returned and stored. -/
theorem C17_refresh_never_yields_empty_token_witness :
    (∃ e, (PerformTokenRefresh "R1" missingTokenWorld).1 = .error e)
      ∧ ("A2" ≠ "" ∧ "R2" ≠ "" ∧ ∃ body, sampleWorld.refreshAnswer "R1" = .response 200 body
            ∧ decodeRefreshBody body
                = ({ Success := true, XJikeAccessToken := "A2", XJikeRefreshToken := "R2" },
                    none))
      ∧ ((staleManager.RefreshAccessToken sampleWorld).2.1.AccessToken ≠ ""
            ∧ (staleManager.RefreshAccessToken sampleWorld).2.1.RefreshToken ≠ "") :=
  ⟨(C17_refresh_never_yields_empty_token "R1" missingTokenWorld staleManager).1
      (.object [("success", .bool true), ("x-jike-refresh-token", .str "R2")])
      { Success := true, XJikeAccessToken := "", XJikeRefreshToken := "R2" }
      rfl (by decide) rfl (Or.inl rfl),
   (C17_refresh_never_yields_empty_token "R1" sampleWorld staleManager).2.1 "A2" "R2" rfl,
   (C17_refresh_never_yields_empty_token "R1" sampleWorld staleManager).2.2 (by decide)⟩

/-- C18: after a `GetAccessToken` that returned no error and invoked the transport, with
every clock reading of that call equal to `now`, a second `GetAccessToken` in any world
whose clock reads between `now` and `now + 1200` returns the same token without error,
leaves the manager unchanged in every field, and does not invoke the transport. -/
theorem C18_second_call_within_window_refreshes_nothing (tm : TokenManager) (w w2 : World)
    (now : Int)
    (hsucc : (tm.GetAccessToken w).1.2 = none)
    (hdid : (tm.GetAccessToken w).2.2.refreshCalls = w.refreshCalls + 1)
    (hnow : ∀ k, w.ticks ≤ k → k < (tm.GetAccessToken w).2.2.ticks → w.readingAt k = now)
    (h1 : now ≤ w2.now) (h2 : w2.now ≤ now + 1200) :
    ((tm.GetAccessToken w).2.1.GetAccessToken w2).1 = ((tm.GetAccessToken w).1.1, none)
      ∧ ((tm.GetAccessToken w).2.1.GetAccessToken w2).2.1 = (tm.GetAccessToken w).2.1
      ∧ ((tm.GetAccessToken w).2.1.GetAccessToken w2).2.2.refreshCalls = w2.refreshCalls := by
  obtain ⟨hne, hret, hticks, hts⟩ := GetAccessToken_refreshed tm w hsucc hdid
  have hts2 : (tm.GetAccessToken w).2.1.LastUpdatedTimestamp = now := by
    rw [hts]
    exact hnow _ (by omega) (by omega)
  have hfresh : ¬ ((tm.GetAccessToken w).2.1.LastUpdatedTimestamp > 0 ∧
      wrapInt64 (w2.now - (tm.GetAccessToken w).2.1.LastUpdatedTimestamp)
        > tokenTimeoutSeconds) := by
    rw [hts2]
    unfold wrapInt64 tokenTimeoutSeconds
    omega
  rw [GetAccessToken_fresh _ w2 hne hfresh]
  simp [hret]

/-- C18, witness: the stale credential refreshed at clock reading 10000, asked again at
clock reading 11200. -/
theorem C18_second_call_within_window_refreshes_nothing_witness :
    ((staleManager.GetAccessToken sampleWorld).2.1.GetAccessToken laterWorld).1
        = ((staleManager.GetAccessToken sampleWorld).1.1, none)
      ∧ ((staleManager.GetAccessToken sampleWorld).2.1.GetAccessToken laterWorld).2.1
        = (staleManager.GetAccessToken sampleWorld).2.1
      ∧ ((staleManager.GetAccessToken sampleWorld).2.1.GetAccessToken laterWorld).2.2.refreshCalls
        = laterWorld.refreshCalls :=
  C18_second_call_within_window_refreshes_nothing staleManager sampleWorld laterWorld 10000
    (by decide) (by decide) (fun _ _ _ => rfl) (by decide) (by decide)

/-- C19: with a non-empty AccessToken and LastUpdatedTimestamp = 0, whatever the clock
reads, `GetAccessToken` returns the AccessToken without error, leaves the manager
unchanged, only reads the clock, and does not invoke the transport. -/
theorem C19_zero_timestamp_is_trusted (tm : TokenManager) (w : World)
    (ha : tm.AccessToken ≠ "") (ht : tm.LastUpdatedTimestamp = 0) :
    tm.GetAccessToken w = ((tm.AccessToken, none), tm, w.timeNowUnix.2)
      ∧ (tm.GetAccessToken w).2.2.refreshCalls = w.refreshCalls
      ∧ (tm.GetAccessToken w).2.2.fsEffects = w.fsEffects := by
  have h : tm.GetAccessToken w = ((tm.AccessToken, none), tm, w.timeNowUnix.2) := by
    apply GetAccessToken_fresh tm w ha
    rw [ht]
    intro hc
    exact absurd hc.1 (by decide)
  refine ⟨h, ?_, ?_⟩ <;> rw [h] <;> rfl

/-- C19, witness: a credential fresh from the interactive login. -/
theorem C19_zero_timestamp_is_trusted_witness :
    loggedInManager.GetAccessToken sampleWorld
        = ((loggedInManager.AccessToken, none), loggedInManager, sampleWorld.timeNowUnix.2)
      ∧ (loggedInManager.GetAccessToken sampleWorld).2.2.refreshCalls = sampleWorld.refreshCalls
      ∧ (loggedInManager.GetAccessToken sampleWorld).2.2.fsEffects = sampleWorld.fsEffects :=
  C19_zero_timestamp_is_trusted loggedInManager sampleWorld (by decide) (by decide)

/-- C20: a `SaveTokenToPath(p)` that returns no error leaves loadedTokenPath = `p` and
AccessToken, RefreshToken, Uid and Nickname as they were before the call. -/
theorem C20_successful_save_frame (tm : TokenManager) (p : String) (w : World)
    (hsave : (tm.SaveTokenToPath p w).1 = none) :
    (tm.SaveTokenToPath p w).2.1.loadedTokenPath = p
      ∧ (tm.SaveTokenToPath p w).2.1.AccessToken = tm.AccessToken
      ∧ (tm.SaveTokenToPath p w).2.1.RefreshToken = tm.RefreshToken
      ∧ (tm.SaveTokenToPath p w).2.1.Uid = tm.Uid
      ∧ (tm.SaveTokenToPath p w).2.1.Nickname = tm.Nickname := by
  have hf := SaveTokenToPath_frame tm p w
  refine ⟨?_, hf.1, hf.2.1, hf.2.2.1, hf.2.2.2.1⟩
  have hp : p ≠ "" := by
    intro h
    simp [TokenManager.SaveTokenToPath, h] at hsave
  cases hmk : w.mkdirFault (w.dirOf p) with
  | some e =>
    rw [SaveTokenToPath_mkdir_fails _ _ _ hp e hmk] at hsave
    simp at hsave
  | none =>
    cases hwr : w.writeFault p with
    | some e =>
      rw [SaveTokenToPath_write_fails _ _ _ hp e hmk hwr] at hsave
      simp at hsave
    | none => rw [SaveTokenToPath_ok _ _ _ hp hmk hwr]

/-- C20, witness: the first save of a credential at the sample path. -/
theorem C20_successful_save_frame_witness :
    (memoryOnlyManager.SaveTokenToPath samplePath sampleWorld).2.1.loadedTokenPath = samplePath
      ∧ (memoryOnlyManager.SaveTokenToPath samplePath sampleWorld).2.1.AccessToken
          = memoryOnlyManager.AccessToken
      ∧ (memoryOnlyManager.SaveTokenToPath samplePath sampleWorld).2.1.RefreshToken
          = memoryOnlyManager.RefreshToken
      ∧ (memoryOnlyManager.SaveTokenToPath samplePath sampleWorld).2.1.Uid = memoryOnlyManager.Uid
      ∧ (memoryOnlyManager.SaveTokenToPath samplePath sampleWorld).2.1.Nickname
          = memoryOnlyManager.Nickname :=
  C20_successful_save_frame memoryOnlyManager samplePath sampleWorld (by decide)

/-- C21, counterexample: the mode `SaveTokenToPath` passes to `os.MkdirAll` is `0o750`,
which grants read and execute to the group: mode AND `0o077` is `0o050`, not 0. -/
theorem C21_counterexample_directory_mode_grants_group :
    (memoryOnlyManager.SaveTokenToPath samplePath sampleWorld).2.2.trace.head?
        = some (Event.mkdirAll "/home/u/.mcp/xiaoyuzhoufm-mcp" 0o750)
      ∧ tokenDirMode &&& 0o077 = 0o050
      ∧ tokenDirMode &&& 0o077 ≠ 0 :=
  ⟨by decide, by decide, by decide⟩

/-- C21 (as the code behaves): whatever the outcome, the only filesystem calls of
`SaveTokenToPath(p)` are `MkdirAll` on the parent directory with the mode `tokenDirMode`
and `WriteFile` on `p` with the mode `tokenFileMode`. The file mode `0o600` is owner-only
(mode AND `0o077` = 0); the directory mode `0o750` gives the owner everything, the group
read and execute (mode AND `0o077` = `0o050`) and others nothing (mode AND `0o007` = 0). -/
theorem C21_modes_of_save (tm : TokenManager) (p : String) (w : World) :
    (∃ evs, (tm.SaveTokenToPath p w).2.2.trace = w.trace ++ evs
        ∧ ∀ e ∈ evs, e = Event.mkdirAll (w.dirOf p) tokenDirMode
            ∨ ∃ data, e = Event.writeFile p data tokenFileMode)
      ∧ tokenFileMode = 0o600 ∧ tokenFileMode &&& 0o077 = 0
      ∧ tokenDirMode = 0o750 ∧ tokenDirMode &&& 0o077 = 0o050 ∧ tokenDirMode &&& 0o007 = 0 := by
  refine ⟨?_, by decide, by decide, by decide, by decide, by decide⟩
  by_cases hp : p = ""
  · exact ⟨[], by simp [TokenManager.SaveTokenToPath, hp], by simp⟩
  · cases hmk : w.mkdirFault (w.dirOf p) with
    | some e =>
      rw [SaveTokenToPath_mkdir_fails tm p w hp e hmk]
      exact ⟨_, rfl, by simp⟩
    | none =>
      cases hwr : w.writeFault p with
      | some e =>
        rw [SaveTokenToPath_write_fails tm p w hp e hmk hwr]
        exact ⟨_, rfl, by simp⟩
      | none =>
        rw [SaveTokenToPath_ok tm p w hp hmk hwr]
        exact ⟨_, rfl, by simp⟩

/-- C22: when the operating system permits the creation of the directories and the write,
`SaveTokenToPath(p)` for a non-empty `p` returns no error, whether or not the parent
directory existed; afterwards the parent directory of `p` and every ancestor of it are
directories, and the file at `p` holds the serialized credential. -/
theorem C22_save_creates_missing_directories (tm : TokenManager) (p : String) (w : World)
    (hp : p ≠ "") (hmk : w.mkdirFault (w.dirOf p) = none) (hwr : w.writeFault p = none) :
    (tm.SaveTokenToPath p w).1 = none
      ∧ (tm.SaveTokenToPath p w).2.2.fs.dirs (w.dirOf p) = true
      ∧ (∀ q, w.isAncestor q (w.dirOf p) = true → (tm.SaveTokenToPath p w).2.2.fs.dirs q = true)
      ∧ (tm.SaveTokenToPath p w).2.2.fs.files p = some (tm.SaveTokenToPath p w).2.1.toJson := by
  rw [SaveTokenToPath_ok tm p w hp hmk hwr]
  refine ⟨rfl, ?_, ?_, ?_⟩
  · simp [FS.withFile, FS.withDirs]
  · intro q hq
    simp [FS.withFile, FS.withDirs, hq]
  · simp [FS.withFile, TokenManager.toJson]

/-- C22, witness: the empty filesystem of `sampleWorld`, where no directory exists. -/
theorem C22_save_creates_missing_directories_witness :
    sampleWorld.fs.dirs (sampleWorld.dirOf samplePath) = false
      ∧ (memoryOnlyManager.SaveTokenToPath samplePath sampleWorld).1 = none
      ∧ (memoryOnlyManager.SaveTokenToPath samplePath sampleWorld).2.2.fs.dirs
          (sampleWorld.dirOf samplePath) = true
      ∧ (∀ q, sampleWorld.isAncestor q (sampleWorld.dirOf samplePath) = true →
          (memoryOnlyManager.SaveTokenToPath samplePath sampleWorld).2.2.fs.dirs q = true)
      ∧ (memoryOnlyManager.SaveTokenToPath samplePath sampleWorld).2.2.fs.files samplePath
          = some (memoryOnlyManager.SaveTokenToPath samplePath sampleWorld).2.1.toJson :=
  ⟨by decide, C22_save_creates_missing_directories memoryOnlyManager samplePath sampleWorld
    (by decide) (by decide) (by decide)⟩

/-- C23: the serialized form of a credential is a JSON object whose keys are, in order,
`access_token`, `refresh_token`, `uid`, `nickname`, each holding the field as a string, and
then `last_updated_timestamp`, holding the integer, exactly when LastUpdatedTimestamp is
not zero; loadedTokenPath has no key and no influence on the serialized form. -/
theorem C23_serialized_form (tm : TokenManager) :
    ∃ members, tm.jsonMarshalIndent = .ok (.object members)
      ∧ members.map Prod.fst
          = ["access_token", "refresh_token", "uid", "nickname"]
              ++ (if tm.LastUpdatedTimestamp = 0 then [] else ["last_updated_timestamp"])
      ∧ members.lookup "access_token" = some (.str tm.AccessToken)
      ∧ members.lookup "refresh_token" = some (.str tm.RefreshToken)
      ∧ members.lookup "uid" = some (.str tm.Uid)
      ∧ members.lookup "nickname" = some (.str tm.Nickname)
      ∧ (tm.LastUpdatedTimestamp ≠ 0 →
          members.lookup "last_updated_timestamp" = some (.int tm.LastUpdatedTimestamp))
      ∧ (tm.LastUpdatedTimestamp = 0 → members.lookup "last_updated_timestamp" = none)
      ∧ ∀ q, ({ tm with loadedTokenPath := q } : TokenManager).jsonMarshalIndent
          = tm.jsonMarshalIndent := by
  refine ⟨_, rfl, ?_, ?_, ?_, ?_, ?_, ?_, ?_, ?_⟩
  · by_cases h : tm.LastUpdatedTimestamp = 0 <;> simp [h]
  · simp [List.lookup]
  · simp [List.lookup]
  · simp [List.lookup]
  · simp [List.lookup]
  · intro h
    simp [List.lookup, h]
  · intro h
    simp [List.lookup, h]
  · intro q
    rfl

/-- C23, witness: the sample credential, with and without a timestamp. -/
theorem C23_serialized_form_witness :
    (∃ members, staleManager.jsonMarshalIndent = .ok (.object members)
      ∧ members.lookup "last_updated_timestamp" = some (.int 6400))
    ∧ (∃ members, loggedInManager.jsonMarshalIndent = .ok (.object members)
      ∧ members.lookup "last_updated_timestamp" = none) := by
  obtain ⟨m1, h1, -, -, -, -, -, h17, -, -⟩ := C23_serialized_form staleManager
  obtain ⟨m2, h2, -, -, -, -, -, -, h28, -⟩ := C23_serialized_form loggedInManager
  exact ⟨⟨m1, h1, h17 (by decide)⟩, ⟨m2, h2, h28 (by decide)⟩⟩

/-- C24: for each API operation and an argument that passes its checks, when the
`GetAccessToken` of the package manager returns the error `e`, the operation returns no
data and an error that wraps `e`, and it ends in the world `GetAccessToken` left: it hands
no request of its own to the HTTP client. -/
theorem C24_token_failure_stops_operation {α β : Type} (h : Host)
    (unmarshal : JsonText → Except Err α) (unmarshalData : α → Except Err β)
    (g : Globals) (w : World) (e : Err)
    (hinit : g.initErr = none) (htok : g.tokenError w = some e) :
    (∀ podcastID, podcastID ≠ "" →
        w.newRequestErr "GET" (w.APIBaseURL ++ "/v1/podcast/get?pid=" ++ podcastID) = none →
        GetPodcastDetailsByID h unmarshal podcastID g w
          = (.error (.wrapf "failed to get access token" e), g.afterToken w,
              g.worldAfterToken w))
      ∧ (∀ requestData : EpisodeListRequest, requestData.PID ≠ "" →
        w.newRequestErr "POST" (w.APIBaseURL ++ "/v1/episode/list") = none →
        ListPodcastEpisodes h unmarshal requestData g w
          = (.error (.wrapf "failed to get access token" e), g.afterToken w,
              g.worldAfterToken w))
      ∧ (∀ episodeID, episodeID ≠ "" →
        w.newRequestErr "GET" (w.APIBaseURL ++ "/v1/episode/get?eid=" ++ episodeID) = none →
        GetEpisodeDetailsByID h unmarshal episodeID g w
          = (.error (.wrapf "failed to get access token" e), g.afterToken w,
              g.worldAfterToken w))
      ∧ (∀ userID, userID ≠ "" →
        w.newRequestErr "GET" (w.APIBaseURL ++ "/v1/profile/get?uid=" ++ userID) = none →
        GetUserProfileByID h unmarshal userID g w
          = (.error (.wrapf "failed to get access token" e), g.afterToken w,
              g.worldAfterToken w))
      ∧ (∀ userID, userID ≠ "" →
        w.newRequestErr "GET" (w.APIBaseURL ++ "/v1/user-stats/get?uid=" ++ userID) = none →
        GetUserStats h unmarshal userID g w
          = (.error (.wrapf "failed to get access token for GetUserStats" e), g.afterToken w,
              g.worldAfterToken w))
      ∧ (∀ requestData : SearchRequest, (∃ body, requestData.jsonMarshal = .ok body) →
        w.newRequestErr "POST" (w.APIBaseURL ++ "/v1/search/create") = none →
        doSearch h unmarshal requestData g w
          = (.error (.wrapf "failed to get access token for search" e), g.afterToken w,
              g.worldAfterToken w))
      ∧ (∀ keyword loadMoreKey,
        (∃ body, (SearchRequest.mk keyword "PODCAST" "" loadMoreKey).jsonMarshal = .ok body) →
        w.newRequestErr "POST" (w.APIBaseURL ++ "/v1/search/create") = none →
        SearchPodcasts h unmarshal unmarshalData keyword loadMoreKey g w
          = (.error (.wrapf "failed to get access token for search" e), g.afterToken w,
              g.worldAfterToken w))
      ∧ (∀ keyword pid loadMoreKey,
        (∃ body, (SearchRequest.mk keyword "EPISODE" pid loadMoreKey).jsonMarshal = .ok body) →
        w.newRequestErr "POST" (w.APIBaseURL ++ "/v1/search/create") = none →
        SearchEpisodes h unmarshal unmarshalData keyword pid loadMoreKey g w
          = (.error (.wrapf "failed to get access token for search" e), g.afterToken w,
              g.worldAfterToken w))
      ∧ (∀ keyword loadMoreKey,
        (∃ body, (SearchRequest.mk keyword "USER" "" loadMoreKey).jsonMarshal = .ok body) →
        w.newRequestErr "POST" (w.APIBaseURL ++ "/v1/search/create") = none →
        SearchUsers h unmarshal unmarshalData keyword loadMoreKey g w
          = (.error (.wrapf "failed to get access token for search" e), g.afterToken w,
              g.worldAfterToken w))
      ∧ (g.worldAfterToken w).httpRequests
          = ((GetTokenManager g).1.1.GetAccessToken w).2.2.httpRequests
      ∧ ((GetTokenManager g).1.1.AccessToken = "" → g.worldAfterToken w = w)
      ∧ (Err.wrapf "failed to get access token" e).Is e = true := by
  have hm : (GetTokenManager g).1.2 = none := by rw [GetTokenManager_err, hinit]
  have ht : ((GetTokenManager g).1.1.GetAccessToken w).1.2 = some e := htok
  have hsearch : ∀ requestData : SearchRequest,
      (∃ body, requestData.jsonMarshal = .ok body) →
      w.newRequestErr "POST" (w.APIBaseURL ++ "/v1/search/create") = none →
      doSearch h unmarshal requestData g w
        = (.error (.wrapf "failed to get access token for search" e), g.afterToken w,
            g.worldAfterToken w) := by
    intro requestData hbody hreq
    obtain ⟨body, hbody⟩ := hbody
    simp [doSearch, hbody, World.httpNewRequestWithBody, hreq, hm, ht, Globals.afterToken,
      Globals.worldAfterToken]
  refine ⟨?_, ?_, ?_, ?_, ?_, hsearch, ?_, ?_, ?_, rfl, ?_, ?_⟩
  · intro podcastID hid hreq
    simp [GetPodcastDetailsByID, hid, World.httpNewRequest, hreq, hm, ht, Globals.afterToken,
      Globals.worldAfterToken]
  · intro requestData hid hreq
    simp [ListPodcastEpisodes, hid, World.httpNewRequestWithBody, hreq, hm, ht,
      Globals.afterToken, Globals.worldAfterToken, EpisodeListRequest.jsonMarshal]
  · intro episodeID hid hreq
    simp [GetEpisodeDetailsByID, hid, World.httpNewRequest, hreq, hm, ht, Globals.afterToken,
      Globals.worldAfterToken]
  · intro userID hid hreq
    simp [GetUserProfileByID, hid, World.httpNewRequest, hreq, hm, ht, Globals.afterToken,
      Globals.worldAfterToken]
  · intro userID hid hreq
    simp [GetUserStats, hid, World.httpNewRequest, hreq, hm, ht, Globals.afterToken,
      Globals.worldAfterToken]
  · intro keyword loadMoreKey hbody hreq
    simp only [SearchPodcasts]
    rw [hsearch _ hbody hreq]
  · intro keyword pid loadMoreKey hbody hreq
    simp only [SearchEpisodes]
    rw [hsearch _ hbody hreq]
  · intro keyword loadMoreKey hbody hreq
    simp only [SearchUsers]
    rw [hsearch _ hbody hreq]
  · intro ha
    simp [Globals.worldAfterToken, TokenManager.GetAccessToken, ha]
  · exact Err.Is_wrapf_of_Is _ _ _ (Err.Is_self e)

/-- C24, witness: the package at process start, whose manager is empty, so that
`GetAccessToken` answers "not authenticated": `GetPodcastDetailsByID` and `SearchPodcasts`
return that error wrapped, and the world is the one they started in. -/
theorem C24_token_failure_stops_operation_witness :
    GetPodcastDetailsByID sampleHost (fun body => Except.ok body) "p1" Globals.start sampleWorld
        = (.error (.wrapf "failed to get access token"
            (.errorf "not authenticated: access token is empty")),
            Globals.start.afterToken sampleWorld, Globals.start.worldAfterToken sampleWorld)
      ∧ SearchPodcasts sampleHost (fun body => Except.ok body)
          (fun raw => (Except.ok raw : Except Err JsonText)) "news" none Globals.start sampleWorld
        = (.error (.wrapf "failed to get access token for search"
            (.errorf "not authenticated: access token is empty")),
            Globals.start.afterToken sampleWorld, Globals.start.worldAfterToken sampleWorld)
      ∧ Globals.start.worldAfterToken sampleWorld = sampleWorld :=
  ⟨(C24_token_failure_stops_operation sampleHost (fun body => Except.ok body)
      (fun raw => (Except.ok raw : Except Err JsonText)) Globals.start sampleWorld
      (.errorf "not authenticated: access token is empty") rfl rfl).1 "p1" (by decide) rfl,
   (C24_token_failure_stops_operation sampleHost (fun body => Except.ok body)
      (fun raw => (Except.ok raw : Except Err JsonText)) Globals.start sampleWorld
      (.errorf "not authenticated: access token is empty") rfl rfl).2.2.2.2.2.2.1 "news" none
      ⟨_, rfl⟩ rfl,
   (C24_token_failure_stops_operation sampleHost (fun body => Except.ok body)
      (fun raw => (Except.ok raw : Except Err JsonText)) Globals.start sampleWorld
      (.errorf "not authenticated: access token is empty") rfl rfl).2.2.2.2.2.2.2.2.2.2.1 rfl⟩

/-- C25: in server mode (the first argument is not `init`), when `LoadTokenFromPath` on the
user token path returns an error, whichever it is, `main` ends in `os.Exit(1)` and
`RunStdioServer` has not been called; a run in which `RunStdioServer` was called is one
whose load returned no error, and the server was then called once, on the state the load
left; a run without a call of the server is one that exited with status 1. -/
theorem C25_server_only_after_load (h : Host) (api : AuthApi)
    (RunStdioServer : Globals → World → Globals × World) (args stdin : List String)
    (g : Globals) (w : World)
    (hmode : ¬ (1 < args.length ∧ args.get? 1 = some "init")) :
    (∀ p e, g.initErr = none → GetUserTokenPath h = .ok p →
        ((GetTokenManager g).1.1.LoadTokenFromPath p w).1 = some e →
        (main h api RunStdioServer args stdin g w).ending = .exited 1 ∧
        (main h api RunStdioServer args stdin g w).serverCalls = 0) ∧
    ((main h api RunStdioServer args stdin g w).serverCalls ≠ 0 →
        g.initErr = none ∧
        ∃ p, GetUserTokenPath h = .ok p ∧
          ((GetTokenManager g).1.1.LoadTokenFromPath p w).1 = none ∧
          (main h api RunStdioServer args stdin g w).serverCalls = 1 ∧
          ((main h api RunStdioServer args stdin g w).g,
            (main h api RunStdioServer args stdin g w).w) =
            RunStdioServer
              { (GetTokenManager g).2 with
                inst := some ((GetTokenManager g).1.1.LoadTokenFromPath p w).2.1 }
              ((GetTokenManager g).1.1.LoadTokenFromPath p w).2.2) ∧
    ((main h api RunStdioServer args stdin g w).serverCalls = 0 →
        (main h api RunStdioServer args stdin g w).ending = .exited 1) := by
  have herr := GetTokenManager_err g
  unfold main
  rw [if_neg hmode]
  rcases hinit : g.initErr with _ | e0
  · rw [hinit] at herr
    simp only [herr]
    rcases hpath : GetUserTokenPath h with e1 | p0
    · simp
    · rcases hload : ((GetTokenManager g).1.1.LoadTokenFromPath p0 w).1 with _ | e2
      · simp only [hload]
        refine ⟨?_, ?_, ?_⟩
        · intro p e _ hp hl
          cases hp
          rw [hload] at hl
          cases hl
        · intro _
          refine ⟨?_, p0, ?_, ?_, ?_, ?_⟩ <;> trivial
        · intro hc
          cases hc
      · simp [hload]
  · rw [hinit] at herr
    simp [herr]

/-- C25, witness: at process start, with no token file at the user path, the load returns
the not-found error, and `main` exits with status 1 without a call of the server. -/
theorem C25_server_only_after_load_witness :
    (main sampleHost sampleAuthApi (fun g w => (g, w)) ["xiaoyuzhoufm-mcp"] []
        Globals.start sampleWorld).ending = .exited 1
      ∧ (main sampleHost sampleAuthApi (fun g w => (g, w)) ["xiaoyuzhoufm-mcp"] []
        Globals.start sampleWorld).serverCalls = 0 :=
  (C25_server_only_after_load sampleHost sampleAuthApi (fun g w => (g, w))
    ["xiaoyuzhoufm-mcp"] [] Globals.start sampleWorld (by decide)).1
    samplePath .ErrNotExist rfl rfl rfl

/-- C27, the code at the failing input: a load into the empty manager that is rejected as
incomplete has stored the access token of the file, and the `GetAccessToken` that follows
returns it without error; a load that fails on a member of the wrong type has stored the
members decoded before and after it. -/
theorem C27_failed_load_has_changed_manager :
    ((emptyManager.LoadTokenFromPath samplePath (worldWithFile accessOnlyFile)).1
        = some (.errorf ("incomplete token data in " ++ samplePath))
      ∧ (emptyManager.LoadTokenFromPath samplePath (worldWithFile accessOnlyFile)).2.1
          = { AccessToken := "A9", RefreshToken := "", Uid := "", Nickname := "",
              LastUpdatedTimestamp := 0, loadedTokenPath := "" }
      ∧ (emptyManager.LoadTokenFromPath samplePath (worldWithFile accessOnlyFile)).2.1
          ≠ emptyManager
      ∧ (emptyManager.GetAccessToken sampleWorld).1
          = ("", some (.errorf "not authenticated: access token is empty"))
      ∧ ((emptyManager.LoadTokenFromPath samplePath
            (worldWithFile accessOnlyFile)).2.1.GetAccessToken sampleWorld).1 = ("A9", none))
    ∧ ((emptyManager.LoadTokenFromPath samplePath (worldWithFile badTimestampFile)).1
        = some (.wrapf ("failed to unmarshal token data from " ++ samplePath)
            (.jsonTypeError "last_updated_timestamp"))
      ∧ (emptyManager.LoadTokenFromPath samplePath (worldWithFile badTimestampFile)).2.1
          = { AccessToken := "A9", RefreshToken := "R9", Uid := "", Nickname := "",
              LastUpdatedTimestamp := 0, loadedTokenPath := "" }) :=
  ⟨⟨by decide, by decide, by decide, by decide, by decide⟩, by decide, by decide⟩

/-- C28, counterexample: a save of the stale credential (timestamp 6400) whose write is
refused returns an error and leaves the timestamp at the clock reading 10000; the
`GetAccessToken` that follows does not invoke the transport, where it does for the
credential as it was before the save. -/
theorem C28_counterexample_failed_save_stamps_timestamp :
    (staleManager.SaveTokenToPath samplePath writeFailWorld).1 ≠ none
      ∧ staleManager.LastUpdatedTimestamp = 6400
      ∧ (staleManager.SaveTokenToPath samplePath writeFailWorld).2.1.LastUpdatedTimestamp = 10000
      ∧ (staleManager.GetAccessToken sampleWorld).2.2.refreshCalls = 1
      ∧ ((staleManager.SaveTokenToPath samplePath writeFailWorld).2.1.GetAccessToken
          sampleWorld).2.2.refreshCalls = 0 :=
  ⟨by decide, by decide, by decide, by decide, by decide⟩

/-- C28 (as the code behaves): a `SaveTokenToPath(p)` that returns an error leaves
AccessToken, RefreshToken, Uid, Nickname and loadedTokenPath as they were; for the empty
path it leaves LastUpdatedTimestamp too, and when the creation of the directory or the
write fails LastUpdatedTimestamp is the clock reading the call took. -/
theorem C28_failed_save_frame (tm : TokenManager) (p : String) (w : World)
    (hfail : (tm.SaveTokenToPath p w).1 ≠ none) :
    (tm.SaveTokenToPath p w).2.1.AccessToken = tm.AccessToken
      ∧ (tm.SaveTokenToPath p w).2.1.RefreshToken = tm.RefreshToken
      ∧ (tm.SaveTokenToPath p w).2.1.Uid = tm.Uid
      ∧ (tm.SaveTokenToPath p w).2.1.Nickname = tm.Nickname
      ∧ (tm.SaveTokenToPath p w).2.1.loadedTokenPath = tm.loadedTokenPath
      ∧ (p = "" → (tm.SaveTokenToPath p w).2.1 = tm)
      ∧ (p ≠ "" → (tm.SaveTokenToPath p w).2.1.LastUpdatedTimestamp = w.now) := by
  have hf := SaveTokenToPath_frame tm p w
  refine ⟨hf.1, hf.2.1, hf.2.2.1, hf.2.2.2.1, ?_, ?_, ?_⟩
  · by_cases hp : p = ""
    · simp [TokenManager.SaveTokenToPath, hp]
    · cases hmk : w.mkdirFault (w.dirOf p) with
      | some e => rw [SaveTokenToPath_mkdir_fails tm p w hp e hmk]
      | none =>
        cases hwr : w.writeFault p with
        | some e => rw [SaveTokenToPath_write_fails tm p w hp e hmk hwr]
        | none =>
          rw [SaveTokenToPath_ok tm p w hp hmk hwr] at hfail
          simp at hfail
  · intro hp
    simp [TokenManager.SaveTokenToPath, hp]
  · intro hp
    cases hmk : w.mkdirFault (w.dirOf p) with
    | some e => rw [SaveTokenToPath_mkdir_fails tm p w hp e hmk]
    | none =>
      cases hwr : w.writeFault p with
      | some e => rw [SaveTokenToPath_write_fails tm p w hp e hmk hwr]
      | none => rw [SaveTokenToPath_ok tm p w hp hmk hwr]

/-- C28, witness: the stale credential saved where the write is refused. -/
theorem C28_failed_save_frame_witness :
    (staleManager.SaveTokenToPath samplePath writeFailWorld).2.1.AccessToken
        = staleManager.AccessToken
      ∧ (staleManager.SaveTokenToPath samplePath writeFailWorld).2.1.RefreshToken
        = staleManager.RefreshToken
      ∧ (staleManager.SaveTokenToPath samplePath writeFailWorld).2.1.Uid = staleManager.Uid
      ∧ (staleManager.SaveTokenToPath samplePath writeFailWorld).2.1.Nickname
        = staleManager.Nickname
      ∧ (staleManager.SaveTokenToPath samplePath writeFailWorld).2.1.loadedTokenPath
        = staleManager.loadedTokenPath
      ∧ (samplePath = "" →
          (staleManager.SaveTokenToPath samplePath writeFailWorld).2.1 = staleManager)
      ∧ (samplePath ≠ "" →
          (staleManager.SaveTokenToPath samplePath writeFailWorld).2.1.LastUpdatedTimestamp
            = writeFailWorld.now) :=
  C28_failed_save_frame staleManager samplePath writeFailWorld (by decide)

/-- C29: in `ListPodcastEpisodesHandler`, for a call whose `podcast_id` is a non-empty
string: when `order` is a non-empty string other than `asc` and `desc` the handler returns
the tool error about `order` and leaves the package variables and the world as they were,
whatever `ListPodcastEpisodes` would do, so that it is not called; in every other case
the handler is the end of the handler applied to one call of `ListPodcastEpisodes`, on a
request whose PID is the given `podcast_id`, whose Limit is 20, and whose Order is the
given `asc` or `desc`, or `desc` when `order` is absent, empty or not a string. -/
theorem C29_list_episodes_request {α : Type}
    (api : EpisodeListRequest → Globals → World → Except Err α × Globals × World)
    (h : Host) (unmarshal : JsonText → Except Err α)
    (marshal : α → Except Err String) (arguments : Arguments) (g : Globals) (w : World)
    (pid : String) (hpid : arguments.lookup "podcast_id" = some (.str pid)) (hne : pid ≠ "") :
    (∀ o, arguments.lookup "order" = some (.str o) → o ≠ "" → o ≠ "asc" → o ≠ "desc" →
      ListPodcastEpisodesHandlerVia api marshal arguments g w =
        (.NewToolResultError "错误: 输入参数 'order' 必须是 'asc' 或 'desc'。", g, w) ∧
      ListPodcastEpisodesHandler h unmarshal marshal arguments g w =
        (.NewToolResultError "错误: 输入参数 'order' 必须是 'asc' 或 'desc'。", g, w)) ∧
    (∀ o, (arguments.lookup "order" = some (.str o) ∧ (o = "asc" ∨ o = "desc")) ∨
        (o = "desc" ∧ (arguments.lookup "order" = none ∨
          arguments.lookup "order" = some (.str "") ∨
          ∀ s, arguments.lookup "order" ≠ some (.str s))) →
      ∃ req : EpisodeListRequest,
        req.PID = pid ∧ req.Limit = 20 ∧ req.Order = o ∧
        req = withLoadMoreKey arguments
          { PID := pid, Order := o, Limit := 20, LoadMoreKey := none } ∧
        ListPodcastEpisodesHandlerVia api marshal arguments g w =
          episodeListResult marshal (api req g w) ∧
        ListPodcastEpisodesHandler h unmarshal marshal arguments g w =
          episodeListResult marshal (ListPodcastEpisodes h unmarshal req g w)) := by
  have key : ∀ (api : EpisodeListRequest → Globals → World → Except Err α × Globals × World),
      (∀ o, arguments.lookup "order" = some (.str o) → o ≠ "" → o ≠ "asc" → o ≠ "desc" →
        ListPodcastEpisodesHandlerVia api marshal arguments g w =
          (.NewToolResultError "错误: 输入参数 'order' 必须是 'asc' 或 'desc'。", g, w)) ∧
      (∀ o, (arguments.lookup "order" = some (.str o) ∧ (o = "asc" ∨ o = "desc")) ∨
          (o = "desc" ∧ (arguments.lookup "order" = none ∨
            arguments.lookup "order" = some (.str "") ∨
            ∀ s, arguments.lookup "order" ≠ some (.str s))) →
        ListPodcastEpisodesHandlerVia api marshal arguments g w =
          episodeListResult marshal (api (withLoadMoreKey arguments
            { PID := pid, Order := o, Limit := 20, LoadMoreKey := none }) g w)) := by
    intro api
    constructor
    · intro o ho h1 h2 h3
      simp [ListPodcastEpisodesHandlerVia, hpid, ho, assertString, hne, h1, h2, h3]
    · intro o ho
      rcases ho with ⟨ho, hv⟩ | ⟨ho, hv⟩
      · rcases hv with rfl | rfl <;>
          simp [ListPodcastEpisodesHandlerVia, hpid, ho, assertString, hne]
      · subst ho
        rcases hv with hv | hv | hv
        · simp [ListPodcastEpisodesHandlerVia, hpid, hv, assertString, hne]
        · simp [ListPodcastEpisodesHandlerVia, hpid, hv, assertString, hne]
        · have hcase := orderOf_cases (arguments.lookup "order")
          rcases hcase with ⟨_, _, o, ho, _⟩ | ⟨hno, _⟩
          · exact absurd ho (hv o)
          · simp only [ListPodcastEpisodesHandlerVia, hpid, assertString, hne]
            simp only [assertString] at hno
            simp [hno]
  refine ⟨fun o ho h1 h2 h3 => ⟨(key api).1 o ho h1 h2 h3, (key _).1 o ho h1 h2 h3⟩, ?_⟩
  intro o ho
  refine ⟨_, (withLoadMoreKey_keeps _ _).1, (withLoadMoreKey_keeps _ _).2.2,
    (withLoadMoreKey_keeps _ _).2.1, rfl, (key api).2 o ho, (key _).2 o ho⟩

/-- C29, witness: a call for `p1` with the order `asc` reaches `ListPodcastEpisodes` with
that order and the limit 20, and a call with the order `newest` is answered by the tool
error, the world being left as it was. -/
theorem C29_list_episodes_request_witness :
    (∃ req : EpisodeListRequest, req.PID = "p1" ∧ req.Limit = 20 ∧ req.Order = "asc" ∧
        ListPodcastEpisodesHandlerVia echoOrderApi (fun s => Except.ok s) ascArguments
            Globals.start sampleWorld
          = episodeListResult (fun s => Except.ok s) (echoOrderApi req Globals.start sampleWorld))
      ∧ ListPodcastEpisodesHandlerVia echoOrderApi (fun s => Except.ok s) badOrderArguments
            Globals.start sampleWorld
          = (.NewToolResultError "错误: 输入参数 'order' 必须是 'asc' 或 'desc'。",
              Globals.start, sampleWorld) :=
  ⟨((C29_list_episodes_request echoOrderApi sampleHost (fun _ => Except.ok "") (fun s => Except.ok s)
        ascArguments Globals.start sampleWorld "p1" rfl (by decide)).2 "asc"
        (Or.inl ⟨rfl, Or.inl rfl⟩)).elim
      (fun req hreq => ⟨req, hreq.1, hreq.2.1, hreq.2.2.1, hreq.2.2.2.2.1⟩),
   ((C29_list_episodes_request echoOrderApi sampleHost (fun _ => Except.ok "") (fun s => Except.ok s)
        badOrderArguments Globals.start sampleWorld "p1" rfl (by decide)).1 "newest" rfl
        (by decide) (by decide) (by decide)).1⟩

/-- C30: in `interactiveLogin`, for every standard input and every behaviour of the two
calls into the service: `LoginWithCode` is invoked at most `maxVerificationAttempts` (3)
times; every code it is invoked with is a valid verification code, four characters that
are digits; a run without a successful login leaves the manager as it was, and changes
the world by the calls into the service alone (every property of the world that those
calls keep is kept, so that nothing was saved); after a successful login the access token,
refresh token, Uid and Nickname of the manager are the four results of the last
invocation, which returned no error; and when three invocations have been made and all
have failed the run ends in `os.Exit(1)`, without a successful login. -/
theorem C30_login_attempts (h : Host) (api : AuthApi) (stdin : List String)
    (tm : TokenManager) (w : World) (run : LoginRun)
    (hrun : run = interactiveLoginVia h api stdin tm w) :
    run.calls.length ≤ maxVerificationAttempts ∧ maxVerificationAttempts = 3 ∧
    (∀ c ∈ run.calls, isValidVerificationCode c.code = true ∧
      c.code.data.length = 4 ∧ ∀ ch ∈ c.code.data, '0' ≤ ch ∧ ch ≤ '9') ∧
    (run.loginSuccessful = false →
      run.tm = tm ∧ (∀ c ∈ run.calls, c.succeeded = false) ∧ run.ending ≠ .returned ∧
      ∀ I : World → Prop,
        (∀ a p w0, I w0 → I (api.RequestVerificationCode a p w0).2) →
        (∀ a p c w0, I w0 → I (api.LoginWithCode a p c w0).2) → I w → I run.w) ∧
    (run.loginSuccessful = true →
      ∃ c, run.calls.getLast? = some c ∧
        c.result = .ok (run.tm.AccessToken, run.tm.RefreshToken, run.tm.Uid, run.tm.Nickname)) ∧
    (run.calls.length = 3 → (∀ c ∈ run.calls, c.succeeded = false) →
      run.ending = .exited 1 ∧ run.loginSuccessful = false) := by
  have hvalid : ∀ cs : List LoginCall, (∀ c ∈ cs, isValidVerificationCode c.code = true) →
      ∀ c ∈ cs, isValidVerificationCode c.code = true ∧
        c.code.data.length = 4 ∧ ∀ ch ∈ c.code.data, '0' ≤ ch ∧ ch ≤ '9' :=
    fun cs hcs c hc => ⟨hcs c hc, isValidVerificationCode_spec c.code (hcs c hc)⟩
  subst hrun
  unfold interactiveLoginVia
  rcases readAreaCode h stdin with ⟨_ | areaCode, stdin1⟩
  · simp [maxVerificationAttempts]
  dsimp only
  rcases readPhoneNumber h stdin1 with ⟨_ | phoneNumber, stdin2⟩
  · simp [maxVerificationAttempts]
  dsimp only
  rcases hreq : api.RequestVerificationCode areaCode phoneNumber w with ⟨_ | err, w1⟩
  swap
  · dsimp only
    refine ⟨by simp, rfl, by simp, ?_, by simp, by simp⟩
    intro _
    refine ⟨rfl, by simp, by simp, ?_⟩
    intro I h1 _ hw
    have := h1 areaCode phoneNumber w hw
    rw [hreq] at this
    exact this
  dsimp only
  have hw1 : ∀ I : World → Prop,
      (∀ a p w0, I w0 → I (api.RequestVerificationCode a p w0).2) → I w → I w1 := by
    intro I h1 hw
    have := h1 areaCode phoneNumber w hw
    rw [hreq] at this
    exact this
  obtain ⟨added, f1, f2, f3, f4, f5, f6, -⟩ :=
    verificationLoop_facts h api areaCode phoneNumber (fun _ => True) (fun _ _ _ _ _ => trivial)
      maxVerificationAttempts stdin2 tm w1 []
  have fI : ∀ I : World → Prop, (∀ a p c w0, I w0 → I (api.LoginWithCode a p c w0).2) →
      I w1 → I (verificationLoop h api areaCode phoneNumber maxVerificationAttempts stdin2
        tm w1 []).w := by
    intro I h2
    obtain ⟨_, _, _, _, _, _, _, g7⟩ :=
      verificationLoop_facts h api areaCode phoneNumber I h2 maxVerificationAttempts stdin2
        tm w1 []
    exact g7
  rw [List.nil_append] at f1
  generalize verificationLoop h api areaCode phoneNumber maxVerificationAttempts stdin2
    tm w1 [] = r at f1 f4 f5 f6 fI
  rcases r with ⟨ending, rtm, rw1, rstdin, rcalls, ok⟩
  dsimp only at f1 f4 f5 f6 fI ⊢
  subst f1
  have f6a : rcalls.length = 3 → (∀ c ∈ rcalls, c.succeeded = false) → ending = .exited 1 :=
    fun hl hall => f6 (by decide) hl hall
  have hsucc : ok = true → ¬ (∀ c ∈ rcalls, c.succeeded = false) := by
    intro hok hall
    obtain ⟨_, c, hc, hres⟩ := f5 hok
    have hmem : c ∈ rcalls := List.mem_of_getLast?_eq_some hc
    have := hall c hmem
    unfold LoginCall.succeeded at this
    rw [hres] at this
    cases this
  cases ok with
  | false =>
    have hkeep := f4 rfl
    cases ending with
    | returned =>
      simp only [Bool.not_false, if_true]
      refine ⟨f2, rfl, hvalid _ f3, ?_, by simp, fun _ _ => by simp⟩
      intro _
      exact ⟨hkeep.1, hkeep.2, by simp, fun I h1 h2 hw => fI I h2 (hw1 I h1 hw)⟩
    | exited status =>
      dsimp only
      refine ⟨f2, rfl, hvalid _ f3, ?_, by simp, fun hl hall => ⟨f6a hl hall, rfl⟩⟩
      intro _
      exact ⟨hkeep.1, hkeep.2, by simp, fun I h1 h2 hw => fI I h2 (hw1 I h1 hw)⟩
    | loopsForever =>
      dsimp only
      refine ⟨f2, rfl, hvalid _ f3, ?_, by simp, fun hl hall => ⟨f6a hl hall, rfl⟩⟩
      intro _
      exact ⟨hkeep.1, hkeep.2, by simp, fun I h1 h2 hw => fI I h2 (hw1 I h1 hw)⟩
  | true =>
    obtain ⟨hend, c, hc, hres⟩ := f5 rfl
    subst hend
    simp only [Bool.not_true, Bool.false_eq_true, if_false]
    rcases GetUserTokenPath h with e | userTokenPath
    · dsimp only
      exact ⟨f2, rfl, hvalid _ f3, by simp, fun _ => ⟨c, hc, hres⟩,
        fun _ hall => absurd hall (hsucc rfl)⟩
    · dsimp only
      have hframe := SaveTokenToPath_frame rtm userTokenPath rw1
      rcases hsave : rtm.SaveTokenToPath userTokenPath rw1 with ⟨_ | e, tm2, w2⟩
      · rw [hsave] at hframe
        dsimp only at hframe ⊢
        refine ⟨f2, rfl, hvalid _ f3, by simp, fun _ => ⟨c, hc, ?_⟩,
          fun _ hall => absurd hall (hsucc rfl)⟩
        rw [hres, hframe.1, hframe.2.1, hframe.2.2.1, hframe.2.2.2.1]
      · rw [hsave] at hframe
        dsimp only at hframe ⊢
        refine ⟨f2, rfl, hvalid _ f3, by simp, fun _ => ⟨c, hc, ?_⟩,
          fun _ hall => absurd hall (hsucc rfl)⟩
        rw [hres, hframe.1, hframe.2.1, hframe.2.2.1, hframe.2.2.2.1]

/-- C30, witness: on an input with three well-formed codes that the service refuses and
one ill-formed input among them, `LoginWithCode` is invoked three times, the run ends in
`os.Exit(1)`, and the manager is the one of the start. -/
theorem C30_login_attempts_witness :
    (interactiveLoginVia sampleHost sampleAuthApi threeWrongCodes emptyManager
        sampleWorld).calls.length = 3
      ∧ (interactiveLoginVia sampleHost sampleAuthApi threeWrongCodes emptyManager
        sampleWorld).ending = .exited 1
      ∧ (interactiveLoginVia sampleHost sampleAuthApi threeWrongCodes emptyManager
        sampleWorld).loginSuccessful = false
      ∧ (interactiveLoginVia sampleHost sampleAuthApi threeWrongCodes emptyManager
        sampleWorld).tm = emptyManager :=
  ⟨rfl,
   ((C30_login_attempts sampleHost sampleAuthApi threeWrongCodes emptyManager sampleWorld
      _ rfl).2.2.2.2.2 rfl (by decide)).1,
   ((C30_login_attempts sampleHost sampleAuthApi threeWrongCodes emptyManager sampleWorld
      _ rfl).2.2.2.2.2 rfl (by decide)).2,
   ((C30_login_attempts sampleHost sampleAuthApi threeWrongCodes emptyManager sampleWorld
      _ rfl).2.2.2.1 rfl).1⟩

end Xiaoyuzhou
